import Mathlib

/-!
# sdl2pp: ownership wrappers around SDL2, SDL_image, SDL_ttf and SDL_mixer

A shallow embedding of `sdl2_wrapper.hpp` and of the driver in `usages.cpp`.

* The native libraries are an arbitrary deterministic oracle `Native`: given the
  calls made so far and the next call, it hands back a `Reply`.
* Every wrapper function is a computation in `M`, which threads the trace of
  native calls and ends in a value, in a thrown `SDL2Exception`, or (only for
  the driver loop, which is bounded by fuel) in `running`.
* Pointers and ids are integers; `0` is `nullptr`.
-/

namespace sdl2

/-! ## The native layer -/

/-- The four fields of an `SDL_Rect`. -/
structure Rect where
  x : Int
  y : Int
  w : Int
  h : Int
  deriving DecidableEq, Repr

/-- The two fields of an `SDL_Point`. -/
structure Point where
  x : Int
  y : Int
  deriving DecidableEq, Repr

/-- The four fields of an `SDL_Color`. -/
structure Color where
  r : Nat
  g : Nat
  b : Nat
  a : Nat
  deriving DecidableEq, Repr

/-- One call into the native libraries (or a write to the error stream), with
the arguments it was given.  A pointer to a rectangle is `none` for `nullptr`
and otherwise the rectangle pointed to; an out-pointer is `true` when it is not
`nullptr`; floating point arguments are carried as their bit patterns. -/
inductive Call where
  | SDL_Init (flags : Nat)
  | SDL_Quit
  | SDL_GetError
  | SDL_CreateWindow (title : String) (x y w h : Int) (flags : Nat)
  | SDL_DestroyWindow (window : Int)
  | SDL_CreateRenderer (window : Int) (index : Int) (flags : Nat)
  | SDL_DestroyRenderer (renderer : Int)
  | SDL_FreeSurface (surface : Int)
  | SDL_DestroyTexture (texture : Int)
  | SDL_LoadBMP (file : String)
  | SDL_AddTimer (interval : Nat) (callback : Int) (param : Int)
  | SDL_RemoveTimer (id : Int)
  | SDL_FillRect (dst : Int) (rect : Option Rect) (color : Nat)
  | SDL_GetWindowSurface (window : Int)
  | SDL_UpdateWindowSurface (window : Int)
  | SDL_BlitSurface (src : Int) (srcRect : Option Rect) (dst : Int) (dstRect : Option Rect)
  | SDL_SetRenderDrawColor (renderer : Int) (r g b a : Nat)
  | SDL_RenderClear (renderer : Int)
  | SDL_SetRenderDrawBlendMode (renderer : Int) (blendMode : Nat)
  | SDL_RenderFillRect (renderer : Int) (rect : Option Rect)
  | SDL_RenderDrawRect (renderer : Int) (rect : Option Rect)
  | SDL_RenderDrawLine (renderer : Int) (x1 y1 x2 y2 : Int)
  | SDL_RenderDrawLines (renderer : Int) (points : List Point) (pointNum : Int)
  | SDL_RenderCopy (renderer : Int) (texture : Int) (srcRect dstRect : Option Rect)
  | SDL_RenderCopyEx (renderer : Int) (texture : Int) (srcRect dstRect : Option Rect)
      (angle : Nat) (center : Option Point) (flip : Nat)
  | SDL_RenderSetScale (renderer : Int) (scaleX scaleY : Nat)
  | SDL_RenderSetViewport (renderer : Int) (rect : Option Rect)
  | SDL_RenderPresent (renderer : Int)
  | SDL_CreateTextureFromSurface (renderer : Int) (surface : Int)
  | SDL_QueryTexture (texture : Int) (format access w h : Bool)
  | SDL_RWFromFile (file : String) (mode : String)
  | SDL_GetTicks
  | SDL_PollEvent
  | SDL_Delay (ms : Nat)
  | TTF_Init
  | TTF_Quit
  | TTF_GetError
  | TTF_OpenFont (file : String) (ptsize : Int)
  | TTF_CloseFont (font : Int)
  | TTF_RenderUTF8_Blended (font : Int) (text : String) (fg : Color)
  | TTF_RenderText_Solid (font : Int) (text : String) (fg : Color)
  | IMG_Load (file : String)
  | Mix_Init (flags : Int)
  | Mix_Quit
  | Mix_GetError
  | Mix_OpenAudio (frequency : Int) (format : Nat) (channels : Int) (chunksize : Int)
  | Mix_CloseAudio
  | Mix_LoadWAV_RW (src : Int) (freesrc : Int)
  | Mix_FreeChunk (chunk : Int)
  | Mix_PlayChannel (channel : Int) (chunk : Int) (loops : Int)
  | cerr (text : String)
  deriving Repr

/-- One argument of a call. -/
inductive Arg where
  | int (i : Int)
  | nat (n : Nat)
  | str (s : String)
  | bool (b : Bool)
  | rect (r : Option Rect)
  | point (p : Option Point)
  | points (l : List Point)
  | color (c : Color)
  deriving DecidableEq, Repr

/-- A call as the number of its entry point and the list of its arguments. -/
def Call.code : Call → Nat × List Arg
  | Call.SDL_Init flags => (0, [Arg.nat flags])
  | Call.SDL_Quit => (1, [])
  | Call.SDL_GetError => (2, [])
  | Call.SDL_CreateWindow title x y w h flags => (3, [Arg.str title, Arg.int x, Arg.int y, Arg.int w, Arg.int h, Arg.nat flags])
  | Call.SDL_DestroyWindow window => (4, [Arg.int window])
  | Call.SDL_CreateRenderer window index flags => (5, [Arg.int window, Arg.int index, Arg.nat flags])
  | Call.SDL_DestroyRenderer renderer => (6, [Arg.int renderer])
  | Call.SDL_FreeSurface surface => (7, [Arg.int surface])
  | Call.SDL_DestroyTexture texture => (8, [Arg.int texture])
  | Call.SDL_LoadBMP file => (9, [Arg.str file])
  | Call.SDL_AddTimer interval callback param => (10, [Arg.nat interval, Arg.int callback, Arg.int param])
  | Call.SDL_RemoveTimer id => (11, [Arg.int id])
  | Call.SDL_FillRect dst rect color => (12, [Arg.int dst, Arg.rect rect, Arg.nat color])
  | Call.SDL_GetWindowSurface window => (13, [Arg.int window])
  | Call.SDL_UpdateWindowSurface window => (14, [Arg.int window])
  | Call.SDL_BlitSurface src srcRect dst dstRect => (15, [Arg.int src, Arg.rect srcRect, Arg.int dst, Arg.rect dstRect])
  | Call.SDL_SetRenderDrawColor renderer r g b a => (16, [Arg.int renderer, Arg.nat r, Arg.nat g, Arg.nat b, Arg.nat a])
  | Call.SDL_RenderClear renderer => (17, [Arg.int renderer])
  | Call.SDL_SetRenderDrawBlendMode renderer blendMode => (18, [Arg.int renderer, Arg.nat blendMode])
  | Call.SDL_RenderFillRect renderer rect => (19, [Arg.int renderer, Arg.rect rect])
  | Call.SDL_RenderDrawRect renderer rect => (20, [Arg.int renderer, Arg.rect rect])
  | Call.SDL_RenderDrawLine renderer x1 y1 x2 y2 => (21, [Arg.int renderer, Arg.int x1, Arg.int y1, Arg.int x2, Arg.int y2])
  | Call.SDL_RenderDrawLines renderer points pointNum => (22, [Arg.int renderer, Arg.points points, Arg.int pointNum])
  | Call.SDL_RenderCopy renderer texture srcRect dstRect => (23, [Arg.int renderer, Arg.int texture, Arg.rect srcRect, Arg.rect dstRect])
  | Call.SDL_RenderCopyEx renderer texture srcRect dstRect angle center flip => (24, [Arg.int renderer, Arg.int texture, Arg.rect srcRect, Arg.rect dstRect, Arg.nat angle, Arg.point center, Arg.nat flip])
  | Call.SDL_RenderSetScale renderer scaleX scaleY => (25, [Arg.int renderer, Arg.nat scaleX, Arg.nat scaleY])
  | Call.SDL_RenderSetViewport renderer rect => (26, [Arg.int renderer, Arg.rect rect])
  | Call.SDL_RenderPresent renderer => (27, [Arg.int renderer])
  | Call.SDL_CreateTextureFromSurface renderer surface => (28, [Arg.int renderer, Arg.int surface])
  | Call.SDL_QueryTexture texture format access w h => (29, [Arg.int texture, Arg.bool format, Arg.bool access, Arg.bool w, Arg.bool h])
  | Call.SDL_RWFromFile file mode => (30, [Arg.str file, Arg.str mode])
  | Call.SDL_GetTicks => (31, [])
  | Call.SDL_PollEvent => (32, [])
  | Call.SDL_Delay ms => (33, [Arg.nat ms])
  | Call.TTF_Init => (34, [])
  | Call.TTF_Quit => (35, [])
  | Call.TTF_GetError => (36, [])
  | Call.TTF_OpenFont file ptsize => (37, [Arg.str file, Arg.int ptsize])
  | Call.TTF_CloseFont font => (38, [Arg.int font])
  | Call.TTF_RenderUTF8_Blended font text fg => (39, [Arg.int font, Arg.str text, Arg.color fg])
  | Call.TTF_RenderText_Solid font text fg => (40, [Arg.int font, Arg.str text, Arg.color fg])
  | Call.IMG_Load file => (41, [Arg.str file])
  | Call.Mix_Init flags => (42, [Arg.int flags])
  | Call.Mix_Quit => (43, [])
  | Call.Mix_GetError => (44, [])
  | Call.Mix_OpenAudio frequency format channels chunksize => (45, [Arg.int frequency, Arg.nat format, Arg.int channels, Arg.int chunksize])
  | Call.Mix_CloseAudio => (46, [])
  | Call.Mix_LoadWAV_RW src freesrc => (47, [Arg.int src, Arg.int freesrc])
  | Call.Mix_FreeChunk chunk => (48, [Arg.int chunk])
  | Call.Mix_PlayChannel channel chunk loops => (49, [Arg.int channel, Arg.int chunk, Arg.int loops])
  | Call.cerr text => (50, [Arg.str text])

set_option maxHeartbeats 4000000 in
/-- Two calls are equal exactly when their entry points and arguments are. -/
instance : DecidableEq Call := fun a b =>
  decidable_of_iff (a.code = b.code)
    ⟨fun h => by cases a <;> cases b <;> simp_all [Call.code], fun h => by rw [h]⟩


/-- What the native layer hands back from one call: the returned value (a
status, an address, an id, a tick count; `0` for `void`), the values stored
through out-pointers in parameter order, and the C string returned by the
error getters. -/
structure Reply where
  ret : Int
  out : List Int
  str : String
  deriving DecidableEq, Repr

/-- One entry of the trace: a call and what came back. -/
structure Ev where
  call : Call
  reply : Reply
  deriving DecidableEq, Repr

/-- The native layer: any deterministic function of the history and the call. -/
abbrev Native := List Ev → Call → Reply

/-! ## `SDL2Exception` -/

/-- The class `SDL2Exception`: its only data member is `errMsg`. -/
structure SDL2Exception where
  errMsg : String
  deriving DecidableEq, Repr

/-- The constructor `SDL2Exception()`. -/
def SDL2Exception.default : SDL2Exception :=
  { errMsg := "SDL2 exception occurs" }

/-- The constructor `SDL2Exception(const char* sdlErrMsg)`. -/
def SDL2Exception.ofMsg (sdlErrMsg : String) : SDL2Exception :=
  { errMsg := sdlErrMsg }

/-- The constructor `SDL2Exception(const std::string& userMsg, const char* sdlErrMsg)`:
three appends to an empty `errMsg`. -/
def SDL2Exception.ofUser (userMsg : String) (sdlErrMsg : String) : SDL2Exception :=
  let errMsg := ""
  let errMsg := errMsg ++ userMsg
  let errMsg := errMsg ++ ", errMsg: "
  let errMsg := errMsg ++ sdlErrMsg
  { errMsg := errMsg }

/-- The member `c_str()` of `std::string`, read as a C string: the characters
before the first NUL character. -/
def c_str (s : String) : String :=
  ⟨s.data.takeWhile (fun c => c ≠ Char.ofNat 0)⟩

/-- A text without a NUL character, which is what a `const char*` stands for. -/
def noNul (s : String) : Prop :=
  Char.ofNat 0 ∉ s.data

instance (s : String) : Decidable (noNul s) :=
  inferInstanceAs (Decidable (Char.ofNat 0 ∉ s.data))

/-- The member `what()`, which returns `errMsg.c_str()`.  The texts that the
wrappers put into an exception are C strings (their own literals and the
strings of the error getters), and for a text without a NUL character
`c_str` returns the whole of it: `what` is the text of `errMsg`, to be read
through `c_str` when `errMsg` may hold a NUL character. -/
def SDL2Exception.what (self : SDL2Exception) : String :=
  self.errMsg

/-! ## Computations -/

/-- How a computation ends: with a value, with a thrown exception, or still
executing when the fuel of the driver loop ran out. -/
inductive Outcome (α : Type) where
  | ok (a : α)
  | throw (e : SDL2Exception)
  | running
  deriving DecidableEq, Repr

/-- A computation: from the trace so far to an outcome and the trace after. -/
def M (α : Type) : Type := List Ev → Outcome α × List Ev

/-- Return a value; no call is made. -/
def M.pure {α : Type} (a : α) : M α := fun t => (Outcome.ok a, t)

/-- Sequencing: an exception (or running out of fuel) in the first part skips the second. -/
def M.bind {α β : Type} (m : M α) (f : α → M β) : M β := fun t =>
  match m t with
  | (Outcome.ok a, t1) => f a t1
  | (Outcome.throw e, t1) => (Outcome.throw e, t1)
  | (Outcome.running, t1) => (Outcome.running, t1)

instance : Monad M where
  pure := M.pure
  bind := M.bind

/-- The statement `throw e`. -/
def M.throw {α : Type} (e : SDL2Exception) : M α := fun t => (Outcome.throw e, t)

/-- The driver loop ran out of fuel. -/
def M.stall {α : Type} : M α := fun t => (Outcome.running, t)

/-- Make one native call: ask the oracle and append the call to the trace. -/
def native (N : Native) (c : Call) : M Reply := fun t =>
  (Outcome.ok (N t c), t ++ [{ call := c, reply := N t c }])

/-- Leaving a scope that owns `a`: after `body` ends (normally or by an
exception) the destructor `dtor a` runs; nothing is destroyed when the
constructor itself threw, or while the body is still running. -/
def withObject {α β : Type} (ctor : M α) (dtor : α → M Unit) (body : α → M β) : M β := fun t =>
  match ctor t with
  | (Outcome.ok a, t1) =>
    match body a t1 with
    | (Outcome.ok b, t2) => (Outcome.ok b, (dtor a t2).2)
    | (Outcome.throw e, t2) => (Outcome.throw e, (dtor a t2).2)
    | (Outcome.running, t2) => (Outcome.running, t2)
  | (Outcome.throw e, t1) => (Outcome.throw e, t1)
  | (Outcome.running, t1) => (Outcome.running, t1)

/-- Addresses of objects, for `this != &other`. -/
abbrev Addr := Nat

/-- The objects of one class, by address. -/
abbrev Store (T : Type) := Addr → T

/-- Overwrite the object at address `a`. -/
def Store.set {T : Type} (σ : Store T) (a : Addr) (v : T) : Store T :=
  fun x => if x = a then v else σ x

/-! ## `Window` -/

/-- The class `Window`: its only data member is `window`. -/
structure Window where
  window : Int
  deriving DecidableEq, Repr

/-- The constructor `Window(title, x, y, w, h, flags)`. -/
def Window.ctor (N : Native) (title : String) (x y w h : Int) (flags : Nat) : M Window := do
  let r ← native N (Call.SDL_CreateWindow title x y w h flags)
  if r.ret = 0 then
    let sdlErrMsg ← native N Call.SDL_GetError
    M.throw (SDL2Exception.ofUser "SDL_CreateWindow() failed" sdlErrMsg.str)
  else
    pure { window := r.ret }

/-- The move constructor `Window(Window&& other)`: the new object and `other` afterwards. -/
def Window.moveCtor (other : Window) : M (Window × Window) :=
  let this : Window := { window := other.window }
  pure (this, { other with window := 0 })

/-- The move assignment `Window::operator=(Window&& other)` on the objects at
addresses `this` and `other`. -/
def Window.moveAssign (this other : Addr) (σ : Store Window) : M (Store Window) :=
  if this ≠ other then
    let σ1 := σ.set this { σ this with window := (σ other).window }
    pure (σ1.set other { σ1 other with window := 0 })
  else
    pure σ

/-- The destructor `~Window()`. -/
def Window.dtor (N : Native) (self : Window) : M Unit := do
  if self.window ≠ 0 then
    let _ ← native N (Call.SDL_DestroyWindow self.window)
    pure ()
  else
    pure ()

/-- The member `get()`. -/
def Window.get (self : Window) : Int :=
  self.window

/-! ## `SDL2Env` -/

/-- The class `SDL2Env`: it has no data member. -/
structure SDL2Env where
  deriving DecidableEq, Repr

/-- The constructor `SDL2Env(uint32_t flags)`. -/
def SDL2Env.ctor (N : Native) (flags : Nat) : M SDL2Env := do
  let r ← native N (Call.SDL_Init flags)
  if r.ret < 0 then
    let sdlErrMsg ← native N Call.SDL_GetError
    M.throw (SDL2Exception.ofUser "SDL_Init() failed" sdlErrMsg.str)
  else
    pure {}

/-- The destructor `~SDL2Env()`. -/
def SDL2Env.dtor (N : Native) (_self : SDL2Env) : M Unit := do
  let _ ← native N Call.SDL_Quit
  pure ()

/-! ## `Renderer` -/

/-- The class `Renderer`: its only data member is `renderer`. -/
structure Renderer where
  renderer : Int
  deriving DecidableEq, Repr

/-- The constructor `Renderer(Window& window, int index, uint32_t flags)`. -/
def Renderer.ctor (N : Native) (window : Window) (index : Int) (flags : Nat) : M Renderer := do
  let r ← native N (Call.SDL_CreateRenderer window.get index flags)
  if r.ret = 0 then
    let sdlErrMsg ← native N Call.SDL_GetError
    M.throw (SDL2Exception.ofUser "SDL_CreateRenderer() failed" sdlErrMsg.str)
  else
    pure { renderer := r.ret }

/-- The move constructor `Renderer(Renderer&& other)`: the new object and `other` afterwards. -/
def Renderer.moveCtor (other : Renderer) : M (Renderer × Renderer) :=
  let this : Renderer := { renderer := other.renderer }
  pure (this, { other with renderer := 0 })

/-- The move assignment `Renderer::operator=(Renderer&& other)` on the objects
at addresses `this` and `other`. -/
def Renderer.moveAssign (this other : Addr) (σ : Store Renderer) : M (Store Renderer) :=
  if this ≠ other then
    let σ1 := σ.set this { σ this with renderer := (σ other).renderer }
    pure (σ1.set other { σ1 other with renderer := 0 })
  else
    pure σ

/-- The destructor `~Renderer()`. -/
def Renderer.dtor (N : Native) (self : Renderer) : M Unit := do
  if self.renderer ≠ 0 then
    let _ ← native N (Call.SDL_DestroyRenderer self.renderer)
    pure ()
  else
    pure ()

/-- The member `get()`. -/
def Renderer.get (self : Renderer) : Int :=
  self.renderer

/-! ## `Surface` -/

/-- The class `Surface`: its only data member is `surface`. -/
structure Surface where
  surface : Int
  deriving DecidableEq, Repr

/-- The constructor `Surface()`. -/
def Surface.default : Surface :=
  { surface := 0 }

/-- The constructor `Surface(SDL_Surface* _surf)`. -/
def Surface.ofPtr (_surf : Int) : Surface :=
  { surface := _surf }

/-- The move constructor `Surface(Surface&& other)`: the new object and `other` afterwards. -/
def Surface.moveCtor (other : Surface) : M (Surface × Surface) :=
  let this : Surface := { surface := other.surface }
  pure (this, { other with surface := 0 })

/-- The move assignment `Surface::operator=(Surface&& other)` on the objects at
addresses `this` and `other`. -/
def Surface.moveAssign (this other : Addr) (σ : Store Surface) : M (Store Surface) :=
  if this ≠ other then
    let σ1 := σ.set this { σ this with surface := (σ other).surface }
    pure (σ1.set other { σ1 other with surface := 0 })
  else
    pure σ

/-- The destructor `~Surface()`. -/
def Surface.dtor (N : Native) (self : Surface) : M Unit := do
  if self.surface ≠ 0 then
    let _ ← native N (Call.SDL_FreeSurface self.surface)
    pure ()
  else
    pure ()

/-- The member `get()`. -/
def Surface.get (self : Surface) : Int :=
  self.surface

/-- The member `set(SDL_Surface* _surf)`. -/
def Surface.set (self : Surface) (_surf : Int) : Surface :=
  { self with surface := _surf }

/-! ## `Texture` -/

/-- The class `Texture`: its only data member is `texture`. -/
structure Texture where
  texture : Int
  deriving DecidableEq, Repr

/-- The constructor `Texture()`. -/
def Texture.default : Texture :=
  { texture := 0 }

/-- The constructor `Texture(SDL_Texture* _texture)`. -/
def Texture.ofPtr (_texture : Int) : Texture :=
  { texture := _texture }

/-- The move constructor `Texture(Texture&& other)`: the new object and `other` afterwards. -/
def Texture.moveCtor (other : Texture) : M (Texture × Texture) :=
  let this : Texture := { texture := other.texture }
  pure (this, { other with texture := 0 })

/-- The move assignment `Texture::operator=(Texture&& other)` on the objects at
addresses `this` and `other`. -/
def Texture.moveAssign (this other : Addr) (σ : Store Texture) : M (Store Texture) :=
  if this ≠ other then
    let σ1 := σ.set this { σ this with texture := (σ other).texture }
    pure (σ1.set other { σ1 other with texture := 0 })
  else
    pure σ

/-- The destructor `~Texture()`. -/
def Texture.dtor (N : Native) (self : Texture) : M Unit := do
  if self.texture ≠ 0 then
    let _ ← native N (Call.SDL_DestroyTexture self.texture)
    pure ()
  else
    pure ()

/-- The member `get()`. -/
def Texture.get (self : Texture) : Int :=
  self.texture

/-- The member `set(SDL_Texture* _texture)`. -/
def Texture.set (self : Texture) (_texture : Int) : Texture :=
  { self with texture := _texture }

/-! ## `Bmp` -/

/-- An exception that leaves a constructor body destroys the members that
were already constructed (`unwind`); a body that returns keeps them. -/
def ctorBody {α : Type} (body : M α) (unwind : M Unit) : M α := fun t =>
  match body t with
  | (Outcome.ok a, t1) => (Outcome.ok a, t1)
  | (Outcome.throw e, t1) => (Outcome.throw e, (unwind t1).2)
  | (Outcome.running, t1) => (Outcome.running, t1)

/-- The class `Bmp`: its only data member is the `Surface` called `surface`. -/
structure Bmp where
  surface : Surface
  deriving DecidableEq, Repr

/-- The constructor `Bmp(const std::string& bmpFilePath)`: the member is
initialised empty, then the body runs. -/
def Bmp.ctor (N : Native) (bmpFilePath : String) : M Bmp :=
  let surface : Surface := Surface.default
  ctorBody
    (do
      let surf ← native N (Call.SDL_LoadBMP bmpFilePath)
      if surf.ret = 0 then
        let sdlErrMsg ← native N Call.SDL_GetError
        M.throw (SDL2Exception.ofUser "SDL_LoadBMP() failed" sdlErrMsg.str)
      else
        pure { surface := surface.set surf.ret })
    (Surface.dtor N surface)

/-- The destructor `~Bmp()`: an empty body, then the member is destroyed. -/
def Bmp.dtor (N : Native) (self : Bmp) : M Unit :=
  Surface.dtor N self.surface

/-- The member `get()`. -/
def Bmp.get (self : Bmp) : Int :=
  self.surface.get

/-! ## `Timer` -/

/-- The class `Timer`: its only data member is `id`. -/
structure Timer where
  id : Int
  deriving DecidableEq, Repr

/-- The constructor `Timer(uint32_t interval, SDL_TimerCallback callback, void* param)`. -/
def Timer.ctor (N : Native) (interval : Nat) (callback : Int) (param : Int) : M Timer := do
  let r ← native N (Call.SDL_AddTimer interval callback param)
  let id := r.ret
  if id = 0 then
    let sdlErrMsg ← native N Call.SDL_GetError
    M.throw (SDL2Exception.ofUser "SDL_AddTimer() failed" sdlErrMsg.str)
  else
    pure { id := id }

/-- The move constructor `Timer(Timer&& other)`: the new object and `other` afterwards. -/
def Timer.moveCtor (other : Timer) : M (Timer × Timer) :=
  let this : Timer := { id := other.id }
  pure (this, { other with id := 0 })

/-- The move assignment `Timer::operator=(Timer&& other)` on the objects at
addresses `this` and `other`. -/
def Timer.moveAssign (this other : Addr) (σ : Store Timer) : M (Store Timer) :=
  if this ≠ other then
    let σ1 := σ.set this { σ this with id := (σ other).id }
    pure (σ1.set other { σ1 other with id := 0 })
  else
    pure σ

/-- The destructor `~Timer()`. -/
def Timer.dtor (N : Native) (self : Timer) : M Unit := do
  if self.id ≠ 0 then
    let _ ← native N (Call.SDL_RemoveTimer self.id)
    pure ()
  else
    pure ()

/-- The member `get()`. -/
def Timer.get (self : Timer) : Int :=
  self.id

/-! ## Forwarding operations of the core part -/

/-- The function `sdl_fill_rect`. -/
def sdl_fill_rect (N : Native) (dst : Int) (rect : Option Rect) (color : Nat) : M Unit := do
  let r ← native N (Call.SDL_FillRect dst rect color)
  if r.ret < 0 then
    let sdlErrMsg ← native N Call.SDL_GetError
    M.throw (SDL2Exception.ofUser "SDL_FillRect() failed" sdlErrMsg.str)
  else
    pure ()

/-- The function `sdl_window_get_surface`, which is `noexcept`. -/
def sdl_window_get_surface (N : Native) (window : Window) : M Int := do
  let r ← native N (Call.SDL_GetWindowSurface window.get)
  pure r.ret

/-- The function `sdl_update_window_surface`. -/
def sdl_update_window_surface (N : Native) (window : Window) : M Unit := do
  let r ← native N (Call.SDL_UpdateWindowSurface window.get)
  if r.ret < 0 then
    let sdlErrMsg ← native N Call.SDL_GetError
    M.throw (SDL2Exception.ofUser "SDL_UpdateWindowSurface() failed" sdlErrMsg.str)
  else
    pure ()

/-- The function `sdl_blit_surface`. -/
def sdl_blit_surface (N : Native) (src : Int) (srcRect : Option Rect) (dst : Int)
    (dstRect : Option Rect) : M Unit := do
  let r ← native N (Call.SDL_BlitSurface src srcRect dst dstRect)
  if r.ret < 0 then
    let sdlErrMsg ← native N Call.SDL_GetError
    M.throw (SDL2Exception.ofUser "SDL_BlitSurface() failed" sdlErrMsg.str)
  else
    pure ()

/-- The function `sdl_set_render_draw_color`. -/
def sdl_set_render_draw_color (N : Native) (renderer : Renderer) (r g b a : Nat) : M Unit := do
  let res ← native N (Call.SDL_SetRenderDrawColor renderer.get r g b a)
  if res.ret < 0 then
    let sdlErrMsg ← native N Call.SDL_GetError
    M.throw (SDL2Exception.ofUser "SDL_SetRenderDrawColor() failed" sdlErrMsg.str)
  else
    pure ()

/-- The function `sdl_render_clear`. -/
def sdl_render_clear (N : Native) (renderer : Renderer) : M Unit := do
  let r ← native N (Call.SDL_RenderClear renderer.get)
  if r.ret < 0 then
    let sdlErrMsg ← native N Call.SDL_GetError
    M.throw (SDL2Exception.ofUser "SDL_RenderClear() failed" sdlErrMsg.str)
  else
    pure ()

/-- The function `sdl_set_render_draw_blend_mode`. -/
def sdl_set_render_draw_blend_mode (N : Native) (renderer : Renderer) (blendMode : Nat) :
    M Unit := do
  let r ← native N (Call.SDL_SetRenderDrawBlendMode renderer.get blendMode)
  if r.ret < 0 then
    let sdlErrMsg ← native N Call.SDL_GetError
    M.throw (SDL2Exception.ofUser "SDL_SetRenderDrawBlendMode() failed" sdlErrMsg.str)
  else
    pure ()

/-- The function `sdl_render_fill_rect`. -/
def sdl_render_fill_rect (N : Native) (renderer : Renderer) (rect : Option Rect) : M Unit := do
  let r ← native N (Call.SDL_RenderFillRect renderer.get rect)
  if r.ret < 0 then
    let sdlErrMsg ← native N Call.SDL_GetError
    M.throw (SDL2Exception.ofUser "SDL_RenderFillRect() failed" sdlErrMsg.str)
  else
    pure ()

/-- The function `sdl_render_draw_rect`. -/
def sdl_render_draw_rect (N : Native) (renderer : Renderer) (rect : Option Rect) : M Unit := do
  let r ← native N (Call.SDL_RenderDrawRect renderer.get rect)
  if r.ret < 0 then
    let sdlErrMsg ← native N Call.SDL_GetError
    M.throw (SDL2Exception.ofUser "SDL_RenderDrawRect() failed" sdlErrMsg.str)
  else
    pure ()

/-- The function `sdl_render_draw_line`. -/
def sdl_render_draw_line (N : Native) (renderer : Renderer) (x1 y1 x2 y2 : Int) : M Unit := do
  let r ← native N (Call.SDL_RenderDrawLine renderer.get x1 y1 x2 y2)
  if r.ret < 0 then
    let sdlErrMsg ← native N Call.SDL_GetError
    M.throw (SDL2Exception.ofUser "SDL_RenderDrawLine() failed" sdlErrMsg.str)
  else
    pure ()

/-- The function `sdl_render_draw_lines`. -/
def sdl_render_draw_lines (N : Native) (renderer : Renderer) (points : List Point)
    (pointNum : Int) : M Unit := do
  let r ← native N (Call.SDL_RenderDrawLines renderer.get points pointNum)
  if r.ret < 0 then
    let sdlErrMsg ← native N Call.SDL_GetError
    M.throw (SDL2Exception.ofUser "SDL_RenderDrawLines() failed" sdlErrMsg.str)
  else
    pure ()

/-- The function `sdl_render_copy`. -/
def sdl_render_copy (N : Native) (renderer : Renderer) (texture : Texture)
    (srcRect dstRect : Option Rect) : M Unit := do
  let r ← native N (Call.SDL_RenderCopy renderer.get texture.get srcRect dstRect)
  if r.ret < 0 then
    let sdlErrMsg ← native N Call.SDL_GetError
    M.throw (SDL2Exception.ofUser "SDL_RenderCopy() failed" sdlErrMsg.str)
  else
    pure ()

/-- The function `sdl_render_copy_ex`. -/
def sdl_render_copy_ex (N : Native) (renderer : Renderer) (texture : Texture)
    (srcRect dstRect : Option Rect) (angle : Nat) (center : Option Point) (flip : Nat) :
    M Unit := do
  let r ← native N
    (Call.SDL_RenderCopyEx renderer.get texture.get srcRect dstRect angle center flip)
  if r.ret < 0 then
    let sdlErrMsg ← native N Call.SDL_GetError
    M.throw (SDL2Exception.ofUser "SDL_RenderCopyEx() failed" sdlErrMsg.str)
  else
    pure ()

/-- The function `sdl_render_set_scale`. -/
def sdl_render_set_scale (N : Native) (renderer : Renderer) (scaleX scaleY : Nat) : M Unit := do
  let r ← native N (Call.SDL_RenderSetScale renderer.get scaleX scaleY)
  if r.ret < 0 then
    let sdlErrMsg ← native N Call.SDL_GetError
    M.throw (SDL2Exception.ofUser "SDL_RenderSetScale() failed" sdlErrMsg.str)
  else
    pure ()

/-- The function `sdl_render_set_viewport`. -/
def sdl_render_set_viewport (N : Native) (renderer : Renderer) (rect : Option Rect) :
    M Unit := do
  let r ← native N (Call.SDL_RenderSetViewport renderer.get rect)
  if r.ret < 0 then
    let sdlErrMsg ← native N Call.SDL_GetError
    M.throw (SDL2Exception.ofUser "SDL_RenderSetViewport() failed" sdlErrMsg.str)
  else
    pure ()

/-- The function `sdl_render_present`, which is `noexcept`. -/
def sdl_render_present (N : Native) (renderer : Renderer) : M Unit := do
  let _ ← native N (Call.SDL_RenderPresent renderer.get)
  pure ()

/-- The function `sdl_create_texture_from_surface`. -/
def sdl_create_texture_from_surface (N : Native) (renderer : Renderer) (surface : Int) :
    M Texture := do
  let texture ← native N (Call.SDL_CreateTextureFromSurface renderer.get surface)
  if texture.ret = 0 then
    let sdlErrMsg ← native N Call.SDL_GetError
    M.throw (SDL2Exception.ofUser "SDL_CreateTextureFromSurface() failed" sdlErrMsg.str)
  else
    pure (Texture.ofPtr texture.ret)

/-- The function `sdl_query_texture`; the four flags say which out-pointers
are not `nullptr`, and the result is what the native call stored through them. -/
def sdl_query_texture (N : Native) (texture : Texture) (format access w h : Bool) :
    M (List Int) := do
  let r ← native N (Call.SDL_QueryTexture texture.get format access w h)
  if r.ret < 0 then
    let sdlErrMsg ← native N Call.SDL_GetError
    M.throw (SDL2Exception.ofUser "SDL_QueryTexture() failed" sdlErrMsg.str)
  else
    pure r.out

/-! ## The ttf part -/

/-- The class `SDL2TTF`: it has no data member. -/
structure SDL2TTF where
  deriving DecidableEq, Repr

/-- The constructor `SDL2TTF()`. -/
def SDL2TTF.ctor (N : Native) : M SDL2TTF := do
  let r ← native N Call.TTF_Init
  if r.ret < 0 then
    let ttfErrMsg ← native N Call.TTF_GetError
    M.throw (SDL2Exception.ofUser "TTF_Init() failed" ttfErrMsg.str)
  else
    pure {}

/-- The destructor `~SDL2TTF()`. -/
def SDL2TTF.dtor (N : Native) (_self : SDL2TTF) : M Unit := do
  let _ ← native N Call.TTF_Quit
  pure ()

/-- The class `Font`: its only data member is `font`. -/
structure Font where
  font : Int
  deriving DecidableEq, Repr

/-- The constructor `Font(const std::string& fontFilePath, int pointSize)`. -/
def Font.ctor (N : Native) (fontFilePath : String) (pointSize : Int) : M Font := do
  let r ← native N (Call.TTF_OpenFont fontFilePath pointSize)
  if r.ret = 0 then
    let ttfErrMsg ← native N Call.TTF_GetError
    M.throw (SDL2Exception.ofUser "TTF_OpenFont() failed" ttfErrMsg.str)
  else
    pure { font := r.ret }

/-- The move constructor `Font(Font&& other)`: the new object and `other` afterwards. -/
def Font.moveCtor (other : Font) : M (Font × Font) :=
  let this : Font := { font := other.font }
  pure (this, { other with font := 0 })

/-- The move assignment `Font::operator=(Font&& other)` on the objects at
addresses `this` and `other`. -/
def Font.moveAssign (this other : Addr) (σ : Store Font) : M (Store Font) :=
  if this ≠ other then
    let σ1 := σ.set this { σ this with font := (σ other).font }
    pure (σ1.set other { σ1 other with font := 0 })
  else
    pure σ

/-- The destructor `~Font()`. -/
def Font.dtor (N : Native) (self : Font) : M Unit := do
  if self.font ≠ 0 then
    let _ ← native N (Call.TTF_CloseFont self.font)
    pure ()
  else
    pure ()

/-- The member `get()`. -/
def Font.get (self : Font) : Int :=
  self.font

/-- The function `ttf_render_utf8_blended`. -/
def ttf_render_utf8_blended (N : Native) (font : Font) (text : String) (fg : Color) :
    M Surface := do
  let surf ← native N (Call.TTF_RenderUTF8_Blended font.get text fg)
  if surf.ret = 0 then
    let ttfErrMsg ← native N Call.TTF_GetError
    M.throw (SDL2Exception.ofUser "TTF_RenderUTF8_Blended() failed" ttfErrMsg.str)
  else
    pure (Surface.ofPtr surf.ret)

/-- The function `ttf_render_text_solid`. -/
def ttf_render_text_solid (N : Native) (font : Font) (text : String) (fg : Color) :
    M Surface := do
  let surf ← native N (Call.TTF_RenderText_Solid font.get text fg)
  if surf.ret = 0 then
    let ttfErrMsg ← native N Call.TTF_GetError
    M.throw (SDL2Exception.ofUser "TTF_RenderText_Solid() failed" ttfErrMsg.str)
  else
    pure (Surface.ofPtr surf.ret)

/-! ## The image part -/

/-- The function `img_load`. -/
def img_load (N : Native) (filePath : String) : M Surface := do
  let surf ← native N (Call.IMG_Load filePath)
  if surf.ret = 0 then
    let sdlErrMsg ← native N Call.SDL_GetError
    M.throw (SDL2Exception.ofUser "IMG_Load() failed" sdlErrMsg.str)
  else
    pure (Surface.ofPtr surf.ret)

/-! ## The mixer part -/

/-- The class `SDL2Mixer`: it has no data member. -/
structure SDL2Mixer where
  deriving DecidableEq, Repr

/-- The constructor `SDL2Mixer()`, whose body is empty. -/
def SDL2Mixer.ctor : M SDL2Mixer :=
  pure {}

/-- The destructor `~SDL2Mixer()`. -/
def SDL2Mixer.dtor (N : Native) (_self : SDL2Mixer) : M Unit := do
  let _ ← native N Call.Mix_Quit
  pure ()

/-- The member `do_mixer_init(int flags)`, which is `noexcept` and optional. -/
def SDL2Mixer.do_mixer_init (N : Native) (_self : SDL2Mixer) (flags : Int) : M Int := do
  let r ← native N (Call.Mix_Init flags)
  pure r.ret

/-- The class `MixOpenAudio`: it has no data member. -/
structure MixOpenAudio where
  deriving DecidableEq, Repr

/-- The constructor `MixOpenAudio(frequency, format, channels, chunksize)`. -/
def MixOpenAudio.ctor (N : Native) (frequency : Int) (format : Nat) (channels : Int)
    (chunksize : Int) : M MixOpenAudio := do
  let r ← native N (Call.Mix_OpenAudio frequency format channels chunksize)
  if r.ret < 0 then
    let mixErrMsg ← native N Call.Mix_GetError
    M.throw (SDL2Exception.ofUser "Mix_OpenAudio() failed" mixErrMsg.str)
  else
    pure {}

/-- The destructor `~MixOpenAudio()`. -/
def MixOpenAudio.dtor (N : Native) (_self : MixOpenAudio) : M Unit := do
  let _ ← native N Call.Mix_CloseAudio
  pure ()

/-- The class `MixChunk`: its only data member is `chunk`. -/
structure MixChunk where
  chunk : Int
  deriving DecidableEq, Repr

/-- The constructor `MixChunk()`. -/
def MixChunk.default : MixChunk :=
  { chunk := 0 }

/-- The constructor `MixChunk(Mix_Chunk* _chunk)`. -/
def MixChunk.ofPtr (_chunk : Int) : MixChunk :=
  { chunk := _chunk }

/-- The move constructor `MixChunk(MixChunk&& other)`: the new object and `other` afterwards. -/
def MixChunk.moveCtor (other : MixChunk) : M (MixChunk × MixChunk) :=
  let this : MixChunk := { chunk := other.chunk }
  pure (this, { other with chunk := 0 })

/-- The move assignment `MixChunk::operator=(MixChunk&& other)` on the objects
at addresses `this` and `other`. -/
def MixChunk.moveAssign (this other : Addr) (σ : Store MixChunk) : M (Store MixChunk) :=
  if this ≠ other then
    let σ1 := σ.set this { σ this with chunk := (σ other).chunk }
    pure (σ1.set other { σ1 other with chunk := 0 })
  else
    pure σ

/-- The destructor `~MixChunk()`. -/
def MixChunk.dtor (N : Native) (self : MixChunk) : M Unit := do
  if self.chunk ≠ 0 then
    let _ ← native N (Call.Mix_FreeChunk self.chunk)
    pure ()
  else
    pure ()

/-- The member `get()`. -/
def MixChunk.get (self : MixChunk) : Int :=
  self.chunk

/-- The function `sdl_rw_from_file`. -/
def sdl_rw_from_file (N : Native) (file : String) (mode : String) : M Int := do
  let ops ← native N (Call.SDL_RWFromFile file mode)
  if ops.ret = 0 then
    let sdlErrMsg ← native N Call.SDL_GetError
    M.throw (SDL2Exception.ofUser "SDL_RWFromFile() failed" sdlErrMsg.str)
  else
    pure ops.ret

/-- The function `mix_load_wav_rw`. -/
def mix_load_wav_rw (N : Native) (src : Int) (freeSrc : Int) : M MixChunk := do
  let chunk ← native N (Call.Mix_LoadWAV_RW src freeSrc)
  if chunk.ret = 0 then
    let mixErrMsg ← native N Call.Mix_GetError
    M.throw (SDL2Exception.ofUser "Mix_LoadWAV_RW() failed" mixErrMsg.str)
  else
    pure (MixChunk.ofPtr chunk.ret)

/-- The function `mix_play_channel`. -/
def mix_play_channel (N : Native) (channel : Int) (chunk : MixChunk) (loops : Int) :
    M Unit := do
  let r ← native N (Call.Mix_PlayChannel channel chunk.get loops)
  if r.ret < 0 then
    let mixErrMsg ← native N Call.Mix_GetError
    M.throw (SDL2Exception.ofUser "Mix_PlayChannel() failed" mixErrMsg.str)
  else
    pure ()

end sdl2

/-! ## The driver `usages.cpp` -/

namespace usages

open sdl2

/-- Constants of the SDL headers that the driver names; their values are not
part of this repository, so they are parameters. -/
structure Headers where
  SDL_INIT_VIDEO : Nat
  SDL_INIT_AUDIO : Nat
  SDL_WINDOWPOS_CENTERED : Int
  SDL_RENDERER_ACCELERATED : Nat
  MIX_DEFAULT_FORMAT : Nat
  SDL_QUIT : Nat

def WINDOW_TITLE : String := "Rect"

def WINDOW_WIDTH : Nat := 600

def WINDOW_HEIGHT : Nat := 480

def FRAME_RATE : Nat := 60

def FRAME_MILLI_SECONDS : Nat := 1000 / FRAME_RATE

def DEFAULT_FREQUENCY : Nat := 48000

def DEFAULT_CHANNEL_NUM : Nat := 8

def DEFAULT_CHUNK_SIZE : Nat := 2048

/-- A value read as `uint32_t`. -/
def u32 (i : Int) : Nat :=
  (i % 4294967296).toNat

/-- The function `render_bmp_with_viewport`. -/
def render_bmp_with_viewport (N : Native) (renderer : Renderer) (texture : Texture) :
    M Unit := do
  sdl_set_render_draw_color N renderer 255 255 255 255
  sdl_render_clear N renderer
  let out ← sdl_query_texture N texture false false true true
  let bmpWidth := out.getD 2 0
  let bmpHeight := out.getD 3 0
  let rect : Rect := { x := 0, y := 0, w := bmpWidth, h := bmpHeight }
  let viewport : Rect := { x := 0, y := 0, w := 300, h := 260 }
  sdl_render_set_viewport N renderer (some viewport)
  sdl_render_copy N renderer texture none (some rect)
  sdl_render_present N renderer

/-- The inner loop `while (SDL_PollEvent(&event))` of `event_loop`, at most
`fuel` polls: `true` when `SDL_QUIT` was polled (the function returns),
`false` when the queue was reported empty. -/
def poll_events (N : Native) (K : Headers) : Nat → M Bool
  | 0 => M.stall
  | fuel + 1 => do
    let r ← native N Call.SDL_PollEvent
    if r.ret ≠ 0 then
      if u32 (r.out.getD 0 0) = K.SDL_QUIT then
        pure true
      else
        poll_events N K fuel
    else
      pure false

/-- The outer loop `while (true)` of `event_loop`, at most `fuel` frames, each
draining at most `pollFuel` events. -/
def frames (N : Native) (K : Headers) (renderer : Renderer) (bmpTexture : Texture)
    (pollFuel : Nat) : Nat → M Unit
  | 0 => M.stall
  | fuel + 1 => do
    let b ← native N Call.SDL_GetTicks
    let begin_ := u32 b.ret
    let quit ← poll_events N K pollFuel
    if quit then
      pure ()
    else
      render_bmp_with_viewport N renderer bmpTexture
      let c ← native N Call.SDL_GetTicks
      let current := u32 c.ret
      let cost := u32 ((current : Int) - (begin_ : Int))
      if FRAME_MILLI_SECONDS > cost then
        let _ ← native N (Call.SDL_Delay (u32 ((FRAME_MILLI_SECONDS : Int) - (cost : Int))))
        frames N K renderer bmpTexture pollFuel fuel
      else
        frames N K renderer bmpTexture pollFuel fuel

/-- The function `event_loop`. -/
def event_loop (N : Native) (K : Headers) (fuel : Nat) (renderer : Renderer) : M Unit :=
  withObject (Bmp.ctor N "./cat.bmp") (Bmp.dtor N) fun bmp =>
  withObject (sdl_create_texture_from_surface N renderer bmp.get) (Texture.dtor N)
    fun bmpTexture =>
  frames N K renderer bmpTexture fuel fuel

/-- The block `try ... catch (const std::exception& e)`: the handler runs on a
thrown exception (every `SDL2Exception` is a `std::exception`). -/
def tryCatch {α : Type} (body : M α) (handler : SDL2Exception → M α) : M α := fun t =>
  match body t with
  | (Outcome.ok a, t1) => (Outcome.ok a, t1)
  | (Outcome.throw e, t1) => handler e t1
  | (Outcome.running, t1) => (Outcome.running, t1)

/-- The body of the `try` block of `main`. -/
def mainBody (N : Native) (K : Headers) (fuel : Nat) : M Unit :=
  withObject (SDL2Env.ctor N (K.SDL_INIT_VIDEO ||| K.SDL_INIT_AUDIO)) (SDL2Env.dtor N) fun _env =>
  withObject (SDL2TTF.ctor N) (SDL2TTF.dtor N) fun _ttf =>
  withObject SDL2Mixer.ctor (SDL2Mixer.dtor N) fun _mixer =>
  withObject
    (Window.ctor N WINDOW_TITLE K.SDL_WINDOWPOS_CENTERED K.SDL_WINDOWPOS_CENTERED
      WINDOW_WIDTH WINDOW_HEIGHT 0)
    (Window.dtor N) fun window =>
  withObject (Renderer.ctor N window (-1) K.SDL_RENDERER_ACCELERATED) (Renderer.dtor N)
    fun renderer =>
  withObject
    (MixOpenAudio.ctor N DEFAULT_FREQUENCY K.MIX_DEFAULT_FORMAT DEFAULT_CHANNEL_NUM
      DEFAULT_CHUNK_SIZE)
    (MixOpenAudio.dtor N) fun _moa => do
  let ops ← sdl_rw_from_file N "./test.ogg" "rb"
  withObject (mix_load_wav_rw N ops 1) (MixChunk.dtor N) fun chunk => do
  mix_play_channel N (-1) chunk (-1)
  event_loop N K fuel renderer

/-- The function `main`. -/
def main (N : Native) (K : Headers) (fuel : Nat) : M Int := do
  tryCatch (mainBody N K fuel) fun e => do
    let _ ← native N (Call.cerr e.what)
    let _ ← native N (Call.cerr "\n")
    pure ()
  pure 0

end usages

/-! ## The seven handle classes, side by side -/

namespace sdl2

/-- The members that every resource handle class has, and the native entry
point that its destructor calls. -/
structure HandleClass (T : Type) where
  get : T → Int
  moveCtor : T → M (T × T)
  moveAssign : Addr → Addr → Store T → M (Store T)
  dtor : Native → T → M Unit
  release : Int → Call

def Window.cls : HandleClass Window :=
  { get := Window.get, moveCtor := Window.moveCtor, moveAssign := Window.moveAssign,
    dtor := Window.dtor, release := Call.SDL_DestroyWindow }

def Renderer.cls : HandleClass Renderer :=
  { get := Renderer.get, moveCtor := Renderer.moveCtor, moveAssign := Renderer.moveAssign,
    dtor := Renderer.dtor, release := Call.SDL_DestroyRenderer }

def Surface.cls : HandleClass Surface :=
  { get := Surface.get, moveCtor := Surface.moveCtor, moveAssign := Surface.moveAssign,
    dtor := Surface.dtor, release := Call.SDL_FreeSurface }

def Texture.cls : HandleClass Texture :=
  { get := Texture.get, moveCtor := Texture.moveCtor, moveAssign := Texture.moveAssign,
    dtor := Texture.dtor, release := Call.SDL_DestroyTexture }

def Font.cls : HandleClass Font :=
  { get := Font.get, moveCtor := Font.moveCtor, moveAssign := Font.moveAssign,
    dtor := Font.dtor, release := Call.TTF_CloseFont }

def Timer.cls : HandleClass Timer :=
  { get := Timer.get, moveCtor := Timer.moveCtor, moveAssign := Timer.moveAssign,
    dtor := Timer.dtor, release := Call.SDL_RemoveTimer }

def MixChunk.cls : HandleClass MixChunk :=
  { get := MixChunk.get, moveCtor := MixChunk.moveCtor, moveAssign := MixChunk.moveAssign,
    dtor := MixChunk.dtor, release := Call.Mix_FreeChunk }

/-- The resource handle types. -/
inductive Kind where
  | window
  | renderer
  | surface
  | texture
  | font
  | timer
  | mixChunk
  deriving DecidableEq, Repr

/-- The class of each resource handle type. -/
@[reducible] def Kind.T : Kind → Type
  | Kind.window => Window
  | Kind.renderer => Renderer
  | Kind.surface => Surface
  | Kind.texture => Texture
  | Kind.font => Font
  | Kind.timer => Timer
  | Kind.mixChunk => MixChunk

/-- The members of each resource handle type. -/
def Kind.cls : (k : Kind) → HandleClass k.T
  | Kind.window => Window.cls
  | Kind.renderer => Renderer.cls
  | Kind.surface => Surface.cls
  | Kind.texture => Texture.cls
  | Kind.font => Font.cls
  | Kind.timer => Timer.cls
  | Kind.mixChunk => MixChunk.cls

/-- The trace that a computation leaves. -/
def traceOf {α : Type} (m : M α) (t : List Ev) : List Ev :=
  (m t).2

/-- The value that a computation returns, when it returns one. -/
def valueOf {α : Type} (m : M α) (t : List Ev) : Option α :=
  match (m t).1 with
  | Outcome.ok a => some a
  | Outcome.throw _ => none
  | Outcome.running => none

/-- The exception that a computation throws, when it throws one. -/
def thrownBy {α : Type} (m : M α) (t : List Ev) : Option SDL2Exception :=
  match (m t).1 with
  | Outcome.ok _ => none
  | Outcome.throw e => some e
  | Outcome.running => none

/-- The calls of a trace, without the replies. -/
def callsOf (t : List Ev) : List Call :=
  t.map Ev.call

/-- One step of a program that handles objects of one handle class: a move
construction of a new object `this` from `other`, a move assignment
`this = std::move(other)`, or the destruction of `this`. -/
inductive Op where
  | moveConstruct (this other : Addr)
  | moveAssign (this other : Addr)
  | destroy (this : Addr)
  deriving DecidableEq, Repr

/-- The objects of one handle class: the addresses whose lifetime has begun
and not ended, and the object at each address. -/
structure Objects (T : Type) where
  live : List Addr
  obj : Store T

/-- Run one step.  `none` when the step is outside the language: it uses an
object outside its lifetime, or constructs over a live object. -/
def HandleClass.exec {T : Type} (c : HandleClass T) (N : Native) :
    Op → Objects T → List Ev → Option (Objects T × List Ev)
  | Op.moveConstruct this other, s, t =>
    if other ∈ s.live ∧ this ∉ s.live then
      match c.moveCtor (s.obj other) t with
      | (Outcome.ok (n, o), t1) =>
        some ({ live := this :: s.live, obj := (s.obj.set other o).set this n }, t1)
      | (Outcome.throw _, _) => none
      | (Outcome.running, _) => none
    else none
  | Op.moveAssign this other, s, t =>
    if this ∈ s.live ∧ other ∈ s.live then
      match c.moveAssign this other s.obj t with
      | (Outcome.ok σ, t1) => some ({ s with obj := σ }, t1)
      | (Outcome.throw _, _) => none
      | (Outcome.running, _) => none
    else none
  | Op.destroy this, s, t =>
    if this ∈ s.live then
      match c.dtor N (s.obj this) t with
      | (Outcome.ok _, t1) => some ({ s with live := s.live.erase this }, t1)
      | (Outcome.throw _, _) => none
      | (Outcome.running, _) => none
    else none

/-- Run a sequence of steps. -/
def HandleClass.run {T : Type} (c : HandleClass T) (N : Native) :
    List Op → Objects T → List Ev → Option (Objects T × List Ev)
  | [], s, t => some (s, t)
  | op :: ops, s, t =>
    match c.exec N op s t with
    | some (s1, t1) => c.run N ops s1 t1
    | none => none

/-- A step is inside the language for the given live objects. -/
def Op.wellFormed (live : List Addr) : Op → Bool
  | Op.moveConstruct this other => decide (other ∈ live ∧ this ∉ live)
  | Op.moveAssign this other => decide (this ∈ live ∧ other ∈ live)
  | Op.destroy this => decide (this ∈ live)

/-- The native layer that answers every call with zero. -/
def Native.zero : Native :=
  fun _ _ => { ret := 0, out := [], str := "" }

/-- What the seven classes have in common, as far as the ownership argument
needs it: a move construction and a move assignment make no native call and
hand the handle over, the destructor releases a non-null handle and does
nothing else, and the release call determines the handle. -/
structure HandleClass.Lawful {T : Type} (c : HandleClass T) : Prop where
  moveCtor_eq : ∀ x t, ∃ n o, c.moveCtor x t = (Outcome.ok (n, o), t) ∧
    c.get n = c.get x ∧ c.get o = 0
  moveAssign_ne : ∀ a b σ t, a ≠ b → ∃ σ1, c.moveAssign a b σ t = (Outcome.ok σ1, t) ∧
    c.get (σ1 a) = c.get (σ b) ∧ c.get (σ1 b) = 0 ∧ ∀ z, z ≠ a → z ≠ b → σ1 z = σ z
  moveAssign_self : ∀ a σ t, c.moveAssign a a σ t = (Outcome.ok σ, t)
  dtor_eq : ∀ N x t, c.dtor N x t = (Outcome.ok (),
    if c.get x = 0 then t
    else t ++ [{ call := c.release (c.get x), reply := N t (c.release (c.get x)) }])
  release_inj : ∀ h1 h2, c.release h1 = c.release h2 → h1 = h2

/-- The ownership invariant: the live addresses are distinct, no two live
objects hold the same non-null handle, no handle was released twice, and no
handle that a live object holds was released. -/
def HandleClass.Owned {T : Type} (c : HandleClass T) (s : Objects T) (t : List Ev) : Prop :=
  s.live.Nodup ∧
  (∀ a ∈ s.live, ∀ b ∈ s.live, a ≠ b → c.get (s.obj a) ≠ 0 →
    c.get (s.obj a) ≠ c.get (s.obj b)) ∧
  (∀ h, (callsOf t).count (c.release h) ≤ 1) ∧
  (∀ a ∈ s.live, c.get (s.obj a) ≠ 0 → (callsOf t).count (c.release (c.get (s.obj a))) = 0)

/-- The calls that a computation adds to the trace. -/
def newCalls {α : Type} (m : M α) (t : List Ev) : List Call :=
  callsOf ((traceOf m t).drop t.length)

/-- The seven release entry points. -/
def Call.isRelease : Call → Bool
  | Call.SDL_DestroyWindow _ => true
  | Call.SDL_DestroyRenderer _ => true
  | Call.SDL_FreeSurface _ => true
  | Call.SDL_DestroyTexture _ => true
  | Call.TTF_CloseFont _ => true
  | Call.SDL_RemoveTimer _ => true
  | Call.Mix_FreeChunk _ => true
  | _ => false

/-- The name of the native entry point of a call, as the exception messages spell it. -/
def Call.name : Call → String
  | Call.SDL_Init _ => "SDL_Init"
  | Call.SDL_Quit => "SDL_Quit"
  | Call.SDL_GetError => "SDL_GetError"
  | Call.SDL_CreateWindow _ _ _ _ _ _ => "SDL_CreateWindow"
  | Call.SDL_DestroyWindow _ => "SDL_DestroyWindow"
  | Call.SDL_CreateRenderer _ _ _ => "SDL_CreateRenderer"
  | Call.SDL_DestroyRenderer _ => "SDL_DestroyRenderer"
  | Call.SDL_FreeSurface _ => "SDL_FreeSurface"
  | Call.SDL_DestroyTexture _ => "SDL_DestroyTexture"
  | Call.SDL_LoadBMP _ => "SDL_LoadBMP"
  | Call.SDL_AddTimer _ _ _ => "SDL_AddTimer"
  | Call.SDL_RemoveTimer _ => "SDL_RemoveTimer"
  | Call.SDL_FillRect _ _ _ => "SDL_FillRect"
  | Call.SDL_GetWindowSurface _ => "SDL_GetWindowSurface"
  | Call.SDL_UpdateWindowSurface _ => "SDL_UpdateWindowSurface"
  | Call.SDL_BlitSurface _ _ _ _ => "SDL_BlitSurface"
  | Call.SDL_SetRenderDrawColor _ _ _ _ _ => "SDL_SetRenderDrawColor"
  | Call.SDL_RenderClear _ => "SDL_RenderClear"
  | Call.SDL_SetRenderDrawBlendMode _ _ => "SDL_SetRenderDrawBlendMode"
  | Call.SDL_RenderFillRect _ _ => "SDL_RenderFillRect"
  | Call.SDL_RenderDrawRect _ _ => "SDL_RenderDrawRect"
  | Call.SDL_RenderDrawLine _ _ _ _ _ => "SDL_RenderDrawLine"
  | Call.SDL_RenderDrawLines _ _ _ => "SDL_RenderDrawLines"
  | Call.SDL_RenderCopy _ _ _ _ => "SDL_RenderCopy"
  | Call.SDL_RenderCopyEx _ _ _ _ _ _ _ => "SDL_RenderCopyEx"
  | Call.SDL_RenderSetScale _ _ _ => "SDL_RenderSetScale"
  | Call.SDL_RenderSetViewport _ _ => "SDL_RenderSetViewport"
  | Call.SDL_RenderPresent _ => "SDL_RenderPresent"
  | Call.SDL_CreateTextureFromSurface _ _ => "SDL_CreateTextureFromSurface"
  | Call.SDL_QueryTexture _ _ _ _ _ => "SDL_QueryTexture"
  | Call.SDL_RWFromFile _ _ => "SDL_RWFromFile"
  | Call.SDL_GetTicks => "SDL_GetTicks"
  | Call.SDL_PollEvent => "SDL_PollEvent"
  | Call.SDL_Delay _ => "SDL_Delay"
  | Call.TTF_Init => "TTF_Init"
  | Call.TTF_Quit => "TTF_Quit"
  | Call.TTF_GetError => "TTF_GetError"
  | Call.TTF_OpenFont _ _ => "TTF_OpenFont"
  | Call.TTF_CloseFont _ => "TTF_CloseFont"
  | Call.TTF_RenderUTF8_Blended _ _ _ => "TTF_RenderUTF8_Blended"
  | Call.TTF_RenderText_Solid _ _ _ => "TTF_RenderText_Solid"
  | Call.IMG_Load _ => "IMG_Load"
  | Call.Mix_Init _ => "Mix_Init"
  | Call.Mix_Quit => "Mix_Quit"
  | Call.Mix_GetError => "Mix_GetError"
  | Call.Mix_OpenAudio _ _ _ _ => "Mix_OpenAudio"
  | Call.Mix_CloseAudio => "Mix_CloseAudio"
  | Call.Mix_LoadWAV_RW _ _ => "Mix_LoadWAV_RW"
  | Call.Mix_FreeChunk _ => "Mix_FreeChunk"
  | Call.Mix_PlayChannel _ _ _ => "Mix_PlayChannel"
  | Call.cerr _ => "cerr"

/-- The three getters of the underlying error string. -/
def Call.isErrorGetter : Call → Bool
  | Call.SDL_GetError => true
  | Call.TTF_GetError => true
  | Call.Mix_GetError => true
  | _ => false

/-- A creation path around the native call `c`: it throws exactly when `c`
returns the sentinel `0`, and otherwise returns an object whose `get()` is
what `c` returned; `c` is the first call it makes. -/
def FallibleCreate {α : Type} (N : Native) (t : List Ev) (m : M α) (get : α → Int)
    (c : Call) : Prop :=
  ((thrownBy m t).isSome = true ↔ (N t c).ret = 0) ∧
  ((N t c).ret ≠ 0 → (valueOf m t).map get = some (N t c).ret) ∧
  (newCalls m t).head? = some c

/-- A creation path around the native call `c` that fails cleanly: when `c`
returns the sentinel `0` no object comes back, the calls made are `c` and the
error getter `g`, and none of the calls made is a release. -/
def FailsClean {α : Type} (N : Native) (t : List Ev) (m : M α) (c g : Call) : Prop :=
  (N t c).ret = 0 →
    valueOf m t = none ∧ newCalls m t = [c, g] ∧ g.isErrorGetter = true ∧
    ∀ x ∈ newCalls m t, x.isRelease = false

/-- A fallible forwarding operation around the native call `c` with error
getter `g`: whatever `c` returns, `c` is the one operation call made; when it
returns a non-negative value the operation returns and nothing else is
called; when it returns a negative value the operation fetches the error
string with `g` and throws the exception whose message is the name of `c`,
then `() failed, errMsg: `, then that string. -/
def Forwards {α : Type} (N : Native) (t : List Ev) (m : M α) (c g : Call) : Prop :=
  (newCalls m t).filter (fun x => !x.isErrorGetter) = [c] ∧
  g.isErrorGetter = true ∧
  ((thrownBy m t).isSome = true ↔ (N t c).ret < 0) ∧
  (0 ≤ (N t c).ret → (valueOf m t).isSome = true ∧
    traceOf m t = t ++ [{ call := c, reply := N t c }]) ∧
  ((N t c).ret < 0 →
    traceOf m t = t ++ [{ call := c, reply := N t c },
      { call := g, reply := N (t ++ [{ call := c, reply := N t c }]) g }] ∧
    (thrownBy m t).map SDL2Exception.what =
      some (c.name ++ "() failed, errMsg: " ++
        (N (t ++ [{ call := c, reply := N t c }]) g).str))

/-- An operation that cannot fail: it makes the one call `c` and returns. -/
def NeverThrows {α : Type} (N : Native) (t : List Ev) (m : M α) (c : Call) : Prop :=
  thrownBy m t = none ∧ (valueOf m t).isSome = true ∧
  traceOf m t = t ++ [{ call := c, reply := N t c }]

/-- A creation path whose objects are released exactly once: every object
`w` that `m` returns holds a non-null handle, and its destructor, whenever it
runs, makes exactly one call, the release of that handle. -/
def ReleasedOnce {α : Type} (m : M α) (dtor : α → M Unit) (get : α → Int)
    (release : Int → Call) : Prop :=
  ∀ t w, valueOf m t = some w →
    get w ≠ 0 ∧ ∀ t1, newCalls (dtor w) t1 = [release (get w)]

/-- Three `Window` objects at the addresses 1, 2 and 3, holding 10, 20 and 0. -/
def sampleWindows : Store Window :=
  fun a => if a = 1 then { window := 10 } else if a = 2 then { window := 20 } else { window := 0 }

/-- A native layer on which every call returns 5. -/
def Native.five : Native :=
  fun _ _ => { ret := 5, out := [], str := "" }

/-- Two `Surface` objects at the addresses 1 and 2: the first holds 5, the
second is empty. -/
def sampleSurfaces : Store Surface :=
  fun a => if a = 1 then Surface.ofPtr 5 else Surface.default

end sdl2

/-! ## What the driver acquires and tears down -/

namespace usages

open sdl2

/-- What a call of the driver acquires when it succeeds, named by the release
or shutdown call that gives it back.  The guard `SDL2Mixer` is constructed
right after the guard `SDL2TTF`, by a constructor with an empty body that
makes no call and cannot fail: `main` holds it from the moment `TTF_Init`
succeeded. -/
def owes (e : Ev) : List Call :=
  match e.call with
  | Call.SDL_Init _ => if e.reply.ret < 0 then [] else [Call.SDL_Quit]
  | Call.TTF_Init => if e.reply.ret < 0 then [] else [Call.TTF_Quit, Call.Mix_Quit]
  | Call.SDL_CreateWindow _ _ _ _ _ _ =>
    if e.reply.ret = 0 then [] else [Call.SDL_DestroyWindow e.reply.ret]
  | Call.SDL_CreateRenderer _ _ _ =>
    if e.reply.ret = 0 then [] else [Call.SDL_DestroyRenderer e.reply.ret]
  | Call.Mix_OpenAudio _ _ _ _ => if e.reply.ret < 0 then [] else [Call.Mix_CloseAudio]
  | Call.Mix_LoadWAV_RW _ _ => if e.reply.ret = 0 then [] else [Call.Mix_FreeChunk e.reply.ret]
  | Call.SDL_LoadBMP _ => if e.reply.ret = 0 then [] else [Call.SDL_FreeSurface e.reply.ret]
  | Call.SDL_CreateTextureFromSurface _ _ =>
    if e.reply.ret = 0 then [] else [Call.SDL_DestroyTexture e.reply.ret]
  | _ => []

/-- The guards and handles acquired along a trace, in the order of acquisition. -/
def acquired : List Ev → List Call
  | [] => []
  | e :: t => owes e ++ acquired t

/-- The release and shutdown calls. -/
def isTeardown : Call → Bool
  | Call.SDL_Quit => true
  | Call.TTF_Quit => true
  | Call.Mix_Quit => true
  | Call.Mix_CloseAudio => true
  | c => c.isRelease

/-- The release and shutdown calls made along a trace, in the order they were made. -/
def teardown (t : List Ev) : List Call :=
  (callsOf t).filter isTeardown

/-- The order in which `main` and `event_loop` construct their guards and
handles, each named by the call that gives it back: the three guards, the
window `w`, the renderer `r`, the open audio device, the chunk `c`, the
bitmap surface `s` and the texture `x`. -/
def constructionOrder (w r c s x : Int) : List Call :=
  [Call.SDL_Quit, Call.TTF_Quit, Call.Mix_Quit, Call.SDL_DestroyWindow w,
    Call.SDL_DestroyRenderer r, Call.Mix_CloseAudio, Call.Mix_FreeChunk c,
    Call.SDL_FreeSurface s, Call.SDL_DestroyTexture x]

/-- A list of acquisitions is an initial part of what follows position `i` of
the construction order. -/
def Stage (i : Nat) (l : List Call) : Prop :=
  ∃ w r c s x n, l = ((constructionOrder w r c s x).drop i).take n

/-- A computation that neither acquires nor tears down anything. -/
def Quiet {α : Type} (m : M α) : Prop :=
  ∀ t, ∃ seg, (m t).2 = t ++ seg ∧ acquired seg = [] ∧ teardown seg = []

/-- A computation that, when it ends, has torn down what it acquired, in the
reverse order, and whose acquisitions satisfy `P`. -/
def Nested {α : Type} (m : M α) (P : List Call → Prop) : Prop :=
  ∀ t, ∃ seg, (m t).2 = t ++ seg ∧
    ((m t).1 ≠ Outcome.running → teardown seg = (acquired seg).reverse ∧ P (acquired seg))

/-- A constructor: it tears nothing down, it ends, and when it returns the
object `a` its acquisitions `l` satisfy `G a l`; when it throws it acquired nothing. -/
def Acquires {α : Type} (ctor : M α) (G : α → List Call → Prop) : Prop :=
  ∀ t, ∃ seg, (ctor t).2 = t ++ seg ∧ teardown seg = [] ∧
    match (ctor t).1 with
    | Outcome.ok a => G a (acquired seg)
    | Outcome.throw _ => acquired seg = []
    | Outcome.running => False

/-- A destructor: it acquires nothing and tears down `l`, last acquired first. -/
def Releases (dtor : M Unit) (l : List Call) : Prop :=
  ∀ t, ∃ seg, (dtor t).2 = t ++ seg ∧ acquired seg = [] ∧ teardown seg = l.reverse

/-- Values of the header constants, for the examples. -/
def Headers.sample : Headers :=
  { SDL_INIT_VIDEO := 32, SDL_INIT_AUDIO := 16, SDL_WINDOWPOS_CENTERED := 805240832,
    SDL_RENDERER_ACCELERATED := 2, MIX_DEFAULT_FORMAT := 32784, SDL_QUIT := 256 }

/-- A native layer for the examples: the creation calls return the addresses
101 to 106, the event queue holds a quit event (type 256), a texture is 64 by
48, and every other call returns zero. -/
def Native.sample : Native := fun _ c =>
  match c with
  | Call.SDL_PollEvent => { ret := 1, out := [256], str := "" }
  | Call.SDL_QueryTexture _ _ _ _ _ => { ret := 0, out := [0, 0, 64, 48], str := "" }
  | Call.SDL_CreateWindow _ _ _ _ _ _ => { ret := 101, out := [], str := "" }
  | Call.SDL_CreateRenderer _ _ _ => { ret := 102, out := [], str := "" }
  | Call.SDL_RWFromFile _ _ => { ret := 103, out := [], str := "" }
  | Call.Mix_LoadWAV_RW _ _ => { ret := 104, out := [], str := "" }
  | Call.SDL_LoadBMP _ => { ret := 105, out := [], str := "" }
  | Call.SDL_CreateTextureFromSurface _ _ => { ret := 106, out := [], str := "" }
  | _ => { ret := 0, out := [], str := "" }

end usages

/-! ## The driver loop, step by step -/

namespace usages

open sdl2

/-- The cost of a frame: `uint32_t cost = current - begin`. -/
def frameCost (begin_ current : Nat) : Nat :=
  u32 ((current : Int) - (begin_ : Int))

/-- The argument of `SDL_Delay` for a frame of the given cost, `none` when the
condition `FRAME_MILLI_SECONDS > cost` fails and the loop does not sleep. -/
def frameSleep (cost : Nat) : Option Nat :=
  if FRAME_MILLI_SECONDS > cost then
    some (u32 ((FRAME_MILLI_SECONDS : Int) - (cost : Int)))
  else
    none

/-- The end of an iteration of `event_loop`, after the frame was rendered:
the second reading of the tick counter, the cost, and the sleep. -/
def sleep_remainder (N : Native) (begin_ : Nat) : M Unit := do
  let c ← native N Call.SDL_GetTicks
  let current := u32 c.ret
  let cost := u32 ((current : Int) - (begin_ : Int))
  if FRAME_MILLI_SECONDS > cost then
    let _ ← native N (Call.SDL_Delay (u32 ((FRAME_MILLI_SECONDS : Int) - (cost : Int))))
    pure ()
  else
    pure ()

end usages

/-! ## The order of polls and frames -/

namespace usages

open sdl2

/-- The calls that `render_bmp_with_viewport` makes to render a frame. -/
def isRenderCall : Call → Bool
  | Call.SDL_SetRenderDrawColor _ _ _ _ _ => true
  | Call.SDL_RenderClear _ => true
  | Call.SDL_QueryTexture _ _ _ _ _ => true
  | Call.SDL_RenderSetViewport _ _ => true
  | Call.SDL_RenderCopy _ _ _ _ => true
  | Call.SDL_RenderPresent _ => true
  | _ => false

/-- The call `SDL_PollEvent`. -/
def isPoll : Call → Bool
  | Call.SDL_PollEvent => true
  | _ => false

/-- The call `SDL_RenderPresent`, which ends a frame. -/
def isPresent : Call → Bool
  | Call.SDL_RenderPresent _ => true
  | _ => false

/-- A poll that reported an empty queue. -/
def isEmptyPoll (e : Ev) : Bool :=
  isPoll e.call && decide (e.reply.ret = 0)

/-- A poll that returned a quit event. -/
def isQuitPoll (K : Headers) (e : Ev) : Bool :=
  isPoll e.call && decide (e.reply.ret ≠ 0) &&
    decide (u32 (e.reply.out.getD 0 0) = K.SDL_QUIT)

/-- Where the loop stands, as far as the trace tells: events are being
drained, the queue was reported empty and no frame was presented since, a
frame was presented, or a quit event was polled. -/
inductive Phase where
  | draining
  | drained
  | presented
  | returned
  deriving DecidableEq, Repr

/-- One event seen in a phase: the phase after it, or `none` when the event
may not happen in that phase.  Nothing may happen after a quit event was
polled; a poll leads to the phase that its reply tells; a call that renders
may happen only while the queue was reported empty and no frame was presented
since; any other call leaves the phase as it is. -/
def watch (K : Headers) (ph : Phase) (e : Ev) : Option Phase :=
  if ph = Phase.returned then none
  else if isPoll e.call = true then
    if e.reply.ret = 0 then some Phase.drained
    else if u32 (e.reply.out.getD 0 0) = K.SDL_QUIT then some Phase.returned
    else some Phase.draining
  else if isRenderCall e.call = true then
    if ph = Phase.drained then
      if isPresent e.call = true then some Phase.presented else some Phase.drained
    else none
  else some ph

/-- A sequence of events seen from a phase. -/
def watchAll (K : Headers) : Phase → List Ev → Option Phase
  | ph, [] => some ph
  | ph, e :: t =>
    match watch K ph e with
    | some p => watchAll K p t
    | none => none

/-- A computation whose events may all happen, seen from the phase `ph`, and
whose outcome and final phase satisfy `P`. -/
def Moves (K : Headers) {α : Type} (m : M α) (ph : Phase)
    (P : Outcome α → Phase → Prop) : Prop :=
  ∀ t, ∃ seg ph1, (m t).2 = t ++ seg ∧ watchAll K ph seg = some ph1 ∧ P (m t).1 ph1

end usages

/-! ## Exceptions that reach `main` -/

namespace usages

open sdl2

/-- A computation whose exceptions are all composed from a user message and an
underlying error string. -/
def Composed {α : Type} (m : M α) : Prop :=
  ∀ t e, (m t).1 = Outcome.throw e → ∃ u s, e = SDL2Exception.ofUser u s

end usages

/-! ## Scripted input -/

namespace usages

open sdl2

/-- The number of polls in a trace. -/
def pollsIn (t : List Ev) : Nat :=
  (t.filter (fun e => isPoll e.call)).length

/-- A reply that the wrapper around the call takes for a failure: a negative
status, or a null pointer (a zero id for `SDL_AddTimer`).  The calls that no
wrapper tests never fail. -/
def failed (c : Call) (r : Reply) : Bool :=
  match c with
  | Call.SDL_Init _ => decide (r.ret < 0)
  | Call.TTF_Init => decide (r.ret < 0)
  | Call.Mix_OpenAudio _ _ _ _ => decide (r.ret < 0)
  | Call.Mix_PlayChannel _ _ _ => decide (r.ret < 0)
  | Call.SDL_FillRect _ _ _ => decide (r.ret < 0)
  | Call.SDL_UpdateWindowSurface _ => decide (r.ret < 0)
  | Call.SDL_BlitSurface _ _ _ _ => decide (r.ret < 0)
  | Call.SDL_SetRenderDrawColor _ _ _ _ _ => decide (r.ret < 0)
  | Call.SDL_RenderClear _ => decide (r.ret < 0)
  | Call.SDL_SetRenderDrawBlendMode _ _ => decide (r.ret < 0)
  | Call.SDL_RenderFillRect _ _ => decide (r.ret < 0)
  | Call.SDL_RenderDrawRect _ _ => decide (r.ret < 0)
  | Call.SDL_RenderDrawLine _ _ _ _ _ => decide (r.ret < 0)
  | Call.SDL_RenderDrawLines _ _ _ => decide (r.ret < 0)
  | Call.SDL_RenderCopy _ _ _ _ => decide (r.ret < 0)
  | Call.SDL_RenderCopyEx _ _ _ _ _ _ _ => decide (r.ret < 0)
  | Call.SDL_RenderSetScale _ _ _ => decide (r.ret < 0)
  | Call.SDL_RenderSetViewport _ _ => decide (r.ret < 0)
  | Call.SDL_QueryTexture _ _ _ _ _ => decide (r.ret < 0)
  | Call.SDL_CreateWindow _ _ _ _ _ _ => decide (r.ret = 0)
  | Call.SDL_CreateRenderer _ _ _ => decide (r.ret = 0)
  | Call.SDL_LoadBMP _ => decide (r.ret = 0)
  | Call.SDL_AddTimer _ _ _ => decide (r.ret = 0)
  | Call.SDL_CreateTextureFromSurface _ _ => decide (r.ret = 0)
  | Call.SDL_RWFromFile _ _ => decide (r.ret = 0)
  | Call.TTF_OpenFont _ _ => decide (r.ret = 0)
  | Call.TTF_RenderUTF8_Blended _ _ _ => decide (r.ret = 0)
  | Call.TTF_RenderText_Solid _ _ _ => decide (r.ret = 0)
  | Call.IMG_Load _ => decide (r.ret = 0)
  | Call.Mix_LoadWAV_RW _ _ => decide (r.ret = 0)
  | _ => false

/-- A native layer on which every call succeeds. -/
def Succeeds (N : Native) : Prop :=
  ∀ t c, failed c (N t c) = false

/-- A native layer that plays a script of poll results: the poll made after
`k` earlier polls finds the entry `k` of the script, which is an event of the
given type, or `none` when the queue is empty at that moment.  A plain
sequence of input events is a script without `none`. -/
def Plays (N : Native) (script : List (Option Nat)) : Prop :=
  ∀ t,
    match script[pollsIn t]? with
    | some (some ty) =>
      (N t Call.SDL_PollEvent).ret ≠ 0 ∧ u32 ((N t Call.SDL_PollEvent).out.getD 0 0) = ty
    | some none => (N t Call.SDL_PollEvent).ret = 0
    | none => True

/-- A computation that returns and polls nothing. -/
def Passes {α : Type} (m : M α) : Prop :=
  ∀ t, ∃ a seg, m t = (Outcome.ok a, t ++ seg) ∧ pollsIn seg = 0

/-- A constructor that returns and polls nothing; the object `a` it returns
and its acquisitions `l` satisfy `G a l`. -/
def Opens {α : Type} (ctor : M α) (G : α → List Call → Prop) : Prop :=
  ∀ t, ∃ a seg, ctor t = (Outcome.ok a, t ++ seg) ∧ pollsIn seg = 0 ∧ G a (acquired seg)

/-- A computation that, started before any poll, returns with acquisitions
that satisfy `P`. -/
def Runs {α : Type} (m : M α) (P : List Call → Prop) : Prop :=
  ∀ t, pollsIn t = 0 → ∃ b seg, m t = (Outcome.ok b, t ++ seg) ∧ P (acquired seg)

/-- A list of acquisitions is all that follows position `i` of the
construction order, with handles that are not null. -/
def Complete (i : Nat) (l : List Call) : Prop :=
  ∃ w r c s x, w ≠ 0 ∧ r ≠ 0 ∧ c ≠ 0 ∧ s ≠ 0 ∧ x ≠ 0 ∧
    l = (constructionOrder w r c s x).drop i

/-- A native layer that succeeds on every call and plays the given script:
the creation calls return the addresses 101 to 111, a texture is 64 by 48,
the tick counter is the number of calls made, and the poll made after `k`
earlier polls returns the event of entry `k`, or reports an empty queue when
that entry is `none` or the script is over. -/
def Native.scripted (script : List (Option Nat)) : Native := fun t c =>
  match c with
  | Call.SDL_PollEvent =>
    match script[pollsIn t]? with
    | some (some ty) => { ret := 1, out := [ty], str := "" }
    | _ => { ret := 0, out := [], str := "" }
  | Call.SDL_GetTicks => { ret := t.length, out := [], str := "" }
  | Call.SDL_QueryTexture _ _ _ _ _ => { ret := 0, out := [0, 0, 64, 48], str := "" }
  | Call.SDL_CreateWindow _ _ _ _ _ _ => { ret := 101, out := [], str := "" }
  | Call.SDL_CreateRenderer _ _ _ => { ret := 102, out := [], str := "" }
  | Call.SDL_RWFromFile _ _ => { ret := 103, out := [], str := "" }
  | Call.Mix_LoadWAV_RW _ _ => { ret := 104, out := [], str := "" }
  | Call.SDL_LoadBMP _ => { ret := 105, out := [], str := "" }
  | Call.SDL_CreateTextureFromSurface _ _ => { ret := 106, out := [], str := "" }
  | Call.SDL_AddTimer _ _ _ => { ret := 107, out := [], str := "" }
  | Call.TTF_OpenFont _ _ => { ret := 108, out := [], str := "" }
  | Call.TTF_RenderUTF8_Blended _ _ _ => { ret := 109, out := [], str := "" }
  | Call.TTF_RenderText_Solid _ _ _ => { ret := 110, out := [], str := "" }
  | Call.IMG_Load _ => { ret := 111, out := [], str := "" }
  | _ => { ret := 0, out := [], str := "" }

end usages

/-! ## Theorems: the handle classes -/

namespace sdl2

theorem Kind.cls_moveCtor (k : Kind) (x : k.T) (t : List Ev) :
    ∃ n o, (k.cls).moveCtor x t = (Outcome.ok (n, o), t) ∧
      (k.cls).get n = (k.cls).get x ∧ (k.cls).get o = 0 := by
  cases k <;> exact ⟨_, _, rfl, rfl, rfl⟩

theorem Kind.cls_moveAssign_ne (k : Kind) (a b : Addr) (σ : Store k.T) (t : List Ev)
    (hab : a ≠ b) :
    ∃ σ1, (k.cls).moveAssign a b σ t = (Outcome.ok σ1, t) ∧
      (k.cls).get (σ1 a) = (k.cls).get (σ b) ∧ (k.cls).get (σ1 b) = 0 ∧
      ∀ z, z ≠ a → z ≠ b → σ1 z = σ z := by
  cases k <;>
  · simp only [Kind.cls, Window.cls, Renderer.cls, Surface.cls, Texture.cls, Font.cls,
      Timer.cls, MixChunk.cls, Window.moveAssign, Renderer.moveAssign, Surface.moveAssign,
      Texture.moveAssign, Font.moveAssign, Timer.moveAssign, MixChunk.moveAssign, if_pos hab]
    refine ⟨_, rfl, ?_, ?_, ?_⟩
    · simp [Store.set, hab, Window.get, Renderer.get, Surface.get, Texture.get, Font.get,
        Timer.get, MixChunk.get]
    · simp [Store.set, Window.get, Renderer.get, Surface.get, Texture.get, Font.get,
        Timer.get, MixChunk.get]
    · intro z hz1 hz2
      simp [Store.set, hz1, hz2]

theorem Kind.cls_moveAssign_self (k : Kind) (a : Addr) (σ : Store k.T) (t : List Ev) :
    (k.cls).moveAssign a a σ t = (Outcome.ok σ, t) := by
  cases k <;>
  simp [Kind.cls, Window.cls, Renderer.cls, Surface.cls, Texture.cls, Font.cls,
      Timer.cls, MixChunk.cls, Window.moveAssign, Renderer.moveAssign, Surface.moveAssign,
      Texture.moveAssign, Font.moveAssign, Timer.moveAssign, MixChunk.moveAssign, pure, M.pure]

theorem Kind.cls_dtor (k : Kind) (N : Native) (x : k.T) (t : List Ev) :
    (k.cls).dtor N x t = (Outcome.ok (),
      if (k.cls).get x = 0 then t
      else t ++ [{ call := (k.cls).release ((k.cls).get x),
                   reply := N t ((k.cls).release ((k.cls).get x)) }]) := by
  cases k <;>
  · simp only [Kind.cls, Window.cls, Renderer.cls, Surface.cls, Texture.cls, Font.cls,
      Timer.cls, MixChunk.cls, Window.dtor, Renderer.dtor, Surface.dtor, Texture.dtor,
      Font.dtor, Timer.dtor, MixChunk.dtor, Window.get, Renderer.get, Surface.get, Texture.get,
      Font.get, Timer.get, MixChunk.get]
    split_ifs <;> simp_all [bind, M.bind, pure, M.pure, native]

theorem Kind.cls_release_inj (k : Kind) (h1 h2 : Int)
    (h : (k.cls).release h1 = (k.cls).release h2) : h1 = h2 := by
  cases k <;>
  simpa [Kind.cls, Window.cls, Renderer.cls, Surface.cls, Texture.cls, Font.cls,
      Timer.cls, MixChunk.cls] using h

theorem Kind.cls_lawful (k : Kind) : (k.cls).Lawful :=
  { moveCtor_eq := Kind.cls_moveCtor k
    moveAssign_ne := Kind.cls_moveAssign_ne k
    moveAssign_self := Kind.cls_moveAssign_self k
    dtor_eq := Kind.cls_dtor k
    release_inj := Kind.cls_release_inj k }

theorem callsOf_append_single (t : List Ev) (e : Ev) : callsOf (t ++ [e]) = callsOf t ++ [e.call] := by
  simp [callsOf]

theorem HandleClass.Owned_moveConstruct {T : Type} (c : HandleClass T) (hc : c.Lawful)
    (N : Native) (this other : Addr) (s s1 : Objects T) (t t1 : List Ev)
    (hinv : c.Owned s t) (hex : c.exec N (Op.moveConstruct this other) s t = some (s1, t1)) :
    c.Owned s1 t1 := by
  obtain ⟨hnd, hdis, hcnt, hrel⟩ := hinv
  obtain ⟨n, o, hmc, hn, ho⟩ := hc.moveCtor_eq (s.obj other) t
  simp only [HandleClass.exec, hmc] at hex
  split_ifs at hex with hwf
  obtain ⟨hol, htl⟩ := hwf
  simp only [Option.some.injEq, Prod.mk.injEq] at hex
  obtain ⟨rfl, rfl⟩ := hex
  have hne : other ≠ this := fun h => htl (h ▸ hol)
  have key : ∀ a, c.get (((s.obj.set other o).set this n) a) =
      if a = this then c.get (s.obj other) else if a = other then 0 else c.get (s.obj a) := by
    intro a
    by_cases h1 : a = this
    · simp [Store.set, h1, hn]
    · by_cases h2 : a = other
      · simp [Store.set, h1, h2, ho, hne]
      · simp [Store.set, h1, h2]
  refine ⟨List.nodup_cons.mpr ⟨htl, hnd⟩, ?_, hcnt, ?_⟩
  · intro a ha b hb hab hnz
    simp only [key] at hnz ⊢
    simp only [List.mem_cons] at ha hb
    by_cases ha1 : a = this
    · subst ha1
      simp only [if_true] at hnz ⊢
      have hb1 : b ≠ a := fun h => hab h.symm
      have hbl : b ∈ s.live := by
        rcases hb with h | h
        · exact absurd h hb1
        · exact h
      simp only [if_neg hb1]
      by_cases hb2 : b = other
      · simpa [hb2] using hnz
      · simp only [if_neg hb2]
        exact hdis other hol b hbl (fun h => hb2 h.symm) hnz
    · have hal : a ∈ s.live := by
        rcases ha with h | h
        · exact absurd h ha1
        · exact h
      simp only [if_neg ha1] at hnz ⊢
      by_cases ha2 : a = other
      · simp [ha2] at hnz
      · simp only [if_neg ha2] at hnz ⊢
        by_cases hb1 : b = this
        · simp only [hb1, if_true]
          exact hdis a hal other hol ha2 hnz
        · have hbl : b ∈ s.live := by
            rcases hb with h | h
            · exact absurd h hb1
            · exact h
          simp only [if_neg hb1]
          by_cases hb2 : b = other
          · simpa [hb2] using hnz
          · simp only [if_neg hb2]
            exact hdis a hal b hbl hab hnz
  · intro a ha hnz
    simp only [key] at hnz ⊢
    simp only [List.mem_cons] at ha
    by_cases ha1 : a = this
    · simp only [ha1, if_true] at hnz ⊢
      exact hrel other hol hnz
    · have hal : a ∈ s.live := by
        rcases ha with h | h
        · exact absurd h ha1
        · exact h
      simp only [if_neg ha1] at hnz ⊢
      by_cases ha2 : a = other
      · simp [ha2] at hnz
      · simp only [if_neg ha2] at hnz ⊢
        exact hrel a hal hnz

theorem HandleClass.Owned_moveAssign {T : Type} (c : HandleClass T) (hc : c.Lawful)
    (N : Native) (this other : Addr) (s s1 : Objects T) (t t1 : List Ev)
    (hinv : c.Owned s t) (hex : c.exec N (Op.moveAssign this other) s t = some (s1, t1)) :
    c.Owned s1 t1 := by
  by_cases hsame : this = other
  · subst hsame
    simp only [HandleClass.exec, hc.moveAssign_self] at hex
    split_ifs at hex
    simp only [Option.some.injEq, Prod.mk.injEq] at hex
    obtain ⟨rfl, rfl⟩ := hex
    exact hinv
  · obtain ⟨hnd, hdis, hcnt, hrel⟩ := hinv
    obtain ⟨σ1, hma, h1, h2, h3⟩ := hc.moveAssign_ne this other s.obj t hsame
    simp only [HandleClass.exec, hma] at hex
    split_ifs at hex with hwf
    obtain ⟨htl, hol⟩ := hwf
    simp only [Option.some.injEq, Prod.mk.injEq] at hex
    obtain ⟨rfl, rfl⟩ := hex
    have key : ∀ a, c.get (σ1 a) =
        if a = this then c.get (s.obj other) else if a = other then 0 else c.get (s.obj a) := by
      intro a
      by_cases ha1 : a = this
      · simp [ha1, h1]
      · by_cases ha2 : a = other
        · simp [ha2, h2, Ne.symm hsame]
        · simp [ha1, ha2, h3 a ha1 ha2]
    refine ⟨hnd, ?_, hcnt, ?_⟩
    · intro a hal b hbl hab hnz
      simp only [key] at hnz ⊢
      by_cases ha1 : a = this
      · subst ha1
        simp only [if_true] at hnz ⊢
        have hb1 : b ≠ a := fun h => hab h.symm
        simp only [if_neg hb1]
        by_cases hb2 : b = other
        · simpa [hb2] using hnz
        · simp only [if_neg hb2]
          exact hdis other hol b hbl (fun h => hb2 h.symm) hnz
      · simp only [if_neg ha1] at hnz ⊢
        by_cases ha2 : a = other
        · simp [ha2] at hnz
        · simp only [if_neg ha2] at hnz ⊢
          by_cases hb1 : b = this
          · simp only [hb1, if_true]
            exact hdis a hal other hol ha2 hnz
          · simp only [if_neg hb1]
            by_cases hb2 : b = other
            · simpa [hb2] using hnz
            · simp only [if_neg hb2]
              exact hdis a hal b hbl hab hnz
    · intro a hal hnz
      simp only [key] at hnz ⊢
      by_cases ha1 : a = this
      · simp only [ha1, if_true] at hnz ⊢
        exact hrel other hol hnz
      · simp only [if_neg ha1] at hnz ⊢
        by_cases ha2 : a = other
        · simp [ha2] at hnz
        · simp only [if_neg ha2] at hnz ⊢
          exact hrel a hal hnz

theorem HandleClass.Owned_destroy {T : Type} (c : HandleClass T) (hc : c.Lawful)
    (N : Native) (this : Addr) (s s1 : Objects T) (t t1 : List Ev)
    (hinv : c.Owned s t) (hex : c.exec N (Op.destroy this) s t = some (s1, t1)) :
    c.Owned s1 t1 := by
  obtain ⟨hnd, hdis, hcnt, hrel⟩ := hinv
  simp only [HandleClass.exec, hc.dtor_eq] at hex
  split_ifs at hex with htl hz
  · simp only [Option.some.injEq, Prod.mk.injEq] at hex
    obtain ⟨rfl, rfl⟩ := hex
    refine ⟨hnd.erase this, ?_, hcnt, ?_⟩
    · intro a ha b hb hab hnz
      exact hdis a (List.mem_of_mem_erase ha) b (List.mem_of_mem_erase hb) hab hnz
    · intro a ha hnz
      exact hrel a (List.mem_of_mem_erase ha) hnz
  · simp only [Option.some.injEq, Prod.mk.injEq] at hex
    obtain ⟨rfl, rfl⟩ := hex
    have hcount : ∀ h r, (callsOf (t ++ [Ev.mk (c.release (c.get (s.obj this))) r])).count
          (c.release h) =
        (callsOf t).count (c.release h) + if h = c.get (s.obj this) then 1 else 0 := by
      intro h r
      rw [callsOf_append_single, List.count_append]
      by_cases hh : h = c.get (s.obj this)
      · simp [hh]
      · have : c.release (c.get (s.obj this)) ≠ c.release h :=
          fun e => hh (hc.release_inj _ _ e).symm
        simp [hh, List.count_singleton, this]
    refine ⟨hnd.erase this, ?_, ?_, ?_⟩
    · intro a ha b hb hab hnz
      exact hdis a (List.mem_of_mem_erase ha) b (List.mem_of_mem_erase hb) hab hnz
    · intro h
      rw [hcount]
      by_cases hh : h = c.get (s.obj this)
      · simp only [hh, if_true]
        rw [hrel this htl hz]
      · simp only [if_neg hh, Nat.add_zero]
        exact hcnt h
    · intro a ha hnz
      have hal : a ∈ s.live := List.mem_of_mem_erase ha
      have hat : a ≠ this := fun h => by
        subst h
        exact (List.Nodup.not_mem_erase hnd) ha
      rw [hcount]
      have : c.get (s.obj a) ≠ c.get (s.obj this) := hdis a hal this htl hat hnz
      simp only [if_neg this, Nat.add_zero]
      exact hrel a hal hnz

theorem HandleClass.Owned_exec {T : Type} (c : HandleClass T) (hc : c.Lawful)
    (N : Native) (op : Op) (s s1 : Objects T) (t t1 : List Ev)
    (hinv : c.Owned s t) (hex : c.exec N op s t = some (s1, t1)) : c.Owned s1 t1 := by
  cases op with
  | moveConstruct this other => exact c.Owned_moveConstruct hc N this other s s1 t t1 hinv hex
  | moveAssign this other => exact c.Owned_moveAssign hc N this other s s1 t t1 hinv hex
  | destroy this => exact c.Owned_destroy hc N this s s1 t t1 hinv hex

theorem HandleClass.Owned_run {T : Type} (c : HandleClass T) (hc : c.Lawful)
    (N : Native) (ops : List Op) (s s1 : Objects T) (t t1 : List Ev)
    (hinv : c.Owned s t) (hrun : c.run N ops s t = some (s1, t1)) : c.Owned s1 t1 := by
  induction ops generalizing s t with
  | nil =>
    simp only [HandleClass.run, Option.some.injEq, Prod.mk.injEq] at hrun
    obtain ⟨rfl, rfl⟩ := hrun
    exact hinv
  | cons op ops ih =>
    simp only [HandleClass.run] at hrun
    cases hex : c.exec N op s t with
    | none => simp [hex] at hrun
    | some p =>
      obtain ⟨s2, t2⟩ := p
      simp only [hex] at hrun
      exact ih s2 t2 (c.Owned_exec hc N op s s2 t t2 hinv hex) hrun

/-- A sequence of steps that stays inside the language runs to the end. -/
theorem HandleClass.exec_isSome {T : Type} (c : HandleClass T) (hc : c.Lawful)
    (N : Native) (op : Op) (s : Objects T) (t : List Ev) (hwf : op.wellFormed s.live = true) :
    (c.exec N op s t).isSome = true := by
  cases op with
  | moveConstruct this other =>
    obtain ⟨n, o, hmc, -, -⟩ := hc.moveCtor_eq (s.obj other) t
    simp only [Op.wellFormed, decide_eq_true_eq] at hwf
    simp [HandleClass.exec, hmc, hwf]
  | moveAssign this other =>
    simp only [Op.wellFormed, decide_eq_true_eq] at hwf
    by_cases hsame : this = other
    · subst hsame
      simp [HandleClass.exec, hc.moveAssign_self, hwf]
    · obtain ⟨σ1, hma, -, -, -⟩ := hc.moveAssign_ne this other s.obj t hsame
      simp [HandleClass.exec, hma, hwf]
  | destroy this =>
    simp only [Op.wellFormed, decide_eq_true_eq] at hwf
    simp [HandleClass.exec, hc.dtor_eq, hwf]

/-- C1, counterexample: `a` holds 10 and `b` holds 20; after `a = std::move(b)` the
trace is still empty, so `SDL_DestroyWindow(10)` was not called once but never. -/
theorem C1_counterexample :
    (sampleWindows 1).get = 10 ∧ (sampleWindows 2).get = 20 ∧
    traceOf (Window.moveAssign 1 2 sampleWindows) [] = [] ∧
    ¬ (newCalls (Window.moveAssign 1 2 sampleWindows) []).count (Call.SDL_DestroyWindow 10) = 1 := by
  refine ⟨rfl, rfl, rfl, ?_⟩
  simp [newCalls, traceOf, Window.moveAssign, pure, M.pure, callsOf]

/-- C1, as amended: for every resource handle type and distinct objects `this`
and `other`, the move assignment makes no native call (so the handle that
`this` held is not released); afterwards `this` holds what `other` held and
`other` holds null. -/
theorem C1_move_assign_makes_no_call (k : Kind) (this other : Addr) (σ : Store k.T)
    (t : List Ev) (hne : this ≠ other) :
    traceOf ((k.cls).moveAssign this other σ) t = t ∧
    newCalls ((k.cls).moveAssign this other σ) t = [] ∧
    ∃ σ1, valueOf ((k.cls).moveAssign this other σ) t = some σ1 ∧
      (k.cls).get (σ1 this) = (k.cls).get (σ other) ∧ (k.cls).get (σ1 other) = 0 := by
  obtain ⟨σ1, h, h1, h2, -⟩ := Kind.cls_moveAssign_ne k this other σ t hne
  refine ⟨by simp [traceOf, h], by simp [newCalls, traceOf, h, callsOf], σ1, ?_, h1, h2⟩
  simp [valueOf, h]

/-- C1 as amended, an instance: assigning the window at address 2 to the window
at address 1 makes no call. -/
theorem C1_move_assign_makes_no_call_witness :
    (1 : Addr) ≠ 2 ∧ newCalls ((Kind.window.cls).moveAssign 1 2 sampleWindows) [] = [] :=
  ⟨by decide, (C1_move_assign_makes_no_call Kind.window 1 2 sampleWindows [] (by decide)).2.1⟩

/-- C2: for every resource handle type, after a move construction from `x` the
new object holds what `x` held and `x` holds null; after a move assignment
from `other` into a distinct object `this`, `this` holds what `other` held and
`other` holds null. -/
theorem C2_move_transfers_handle (k : Kind) (x : k.T) (this other : Addr) (σ : Store k.T)
    (t : List Ev) (hne : this ≠ other) :
    (∃ n o, valueOf ((k.cls).moveCtor x) t = some (n, o) ∧
      (k.cls).get o = 0 ∧ (k.cls).get n = (k.cls).get x) ∧
    (∃ σ1, valueOf ((k.cls).moveAssign this other σ) t = some σ1 ∧
      (k.cls).get (σ1 other) = 0 ∧ (k.cls).get (σ1 this) = (k.cls).get (σ other)) := by
  obtain ⟨n, o, h, hn, ho⟩ := Kind.cls_moveCtor k x t
  obtain ⟨σ1, h', h1, h2, -⟩ := Kind.cls_moveAssign_ne k this other σ t hne
  exact ⟨⟨n, o, by simp [valueOf, h], ho, hn⟩, ⟨σ1, by simp [valueOf, h'], h2, h1⟩⟩

/-- C2, an instance: a timer holding the id 7 is move-assigned from address 1
to address 2; afterwards address 1 holds 0 and address 2 holds 7. -/
theorem C2_move_transfers_handle_witness :
    (2 : Addr) ≠ 1 ∧
    ∃ σ1, valueOf ((Kind.timer.cls).moveAssign 2 1 (fun _ => { id := 7 })) [] = some σ1 ∧
      (Kind.timer.cls).get (σ1 1) = 0 ∧ (Kind.timer.cls).get (σ1 2) = 7 :=
  ⟨by decide,
    (C2_move_transfers_handle Kind.timer { id := 7 } 2 1 (fun _ => { id := 7 }) [] (by decide)).2⟩

theorem ReleasedOnce_of_shape {α : Type} (N : Native) (c g : Call) (u : String)
    (f : Reply → α) (dtor : α → M Unit) (get : α → Int) (release : Int → Call)
    (hget : ∀ r, get (f r) = r.ret)
    (hd : ∀ w t1, get w ≠ 0 → newCalls (dtor w) t1 = [release (get w)]) :
    ReleasedOnce
      (do
        let r ← native N c
        if r.ret = 0 then
          let e ← native N g
          M.throw (SDL2Exception.ofUser u e.str)
        else
          pure (f r)) dtor get release := by
  intro t w h
  by_cases h0 : (N t c).ret = 0
  · simp [valueOf, bind, M.bind, native, M.throw, h0] at h
  · simp only [valueOf, bind, M.bind, native, pure, M.pure, h0, if_false, Option.some.injEq] at h
    subst h
    have : get (f (N t c)) ≠ 0 := by rw [hget]; exact h0
    exact ⟨this, fun t1 => hd _ t1 this⟩

/-- C3, counterexample: the `Surface` at address 1 is the one that `img_load`
returned, holding 5, and it is never moved from; the empty `Surface` at
address 2 is move-assigned into it, and both are destroyed.  No call was made:
`SDL_FreeSurface(5)` was called not once but never. -/
theorem C3_counterexample :
    valueOf (img_load Native.five "cat.png") [] = some (sampleSurfaces 1) ∧
    (sampleSurfaces 1).get = 5 ∧ sampleSurfaces 2 = Surface.default ∧
    ∃ s t, (Kind.surface.cls).run Native.five
        [Op.moveAssign 1 2, Op.destroy 2, Op.destroy 1]
        { live := [1, 2], obj := sampleSurfaces } [] = some (s, t) ∧
      s.live = [] ∧ callsOf t = [] ∧ ¬ (callsOf t).count (Call.SDL_FreeSurface 5) = 1 := by
  have hsome : ((Kind.surface.cls).run Native.five
      [Op.moveAssign 1 2, Op.destroy 2, Op.destroy 1]
      { live := [1, 2], obj := sampleSurfaces } []).isSome = true := by decide
  obtain ⟨⟨s, t⟩, hst⟩ := Option.isSome_iff_exists.mp hsome
  have hl : (((Kind.surface.cls).run Native.five
      [Op.moveAssign 1 2, Op.destroy 2, Op.destroy 1]
      { live := [1, 2], obj := sampleSurfaces } []).map (fun p => (p.1.live, callsOf p.2))) =
      some ([], []) := by decide
  rw [hst] at hl
  simp only [Option.map_some', Option.some.injEq, Prod.mk.injEq] at hl
  refine ⟨by decide, rfl, rfl, s, t, hst, hl.1, hl.2, ?_⟩
  rw [hl.2]
  decide

/-- C3, as amended: for every resource handle type, the destructor of an
object with a non-null handle makes exactly one call, the matching release of
the handle the object then holds, and the destructor of an object with a null
handle makes no call; so the destructor of a moved-from object (after a move
construction, or after a move assignment into a distinct object) makes no
call, and neither does the destructor of a default-constructed `Surface`,
`Texture` or `MixChunk`.  An object destroyed as its creation path returned it
holds a non-null handle, and its destructor makes exactly one release call.
An object whose handle was overwritten releases only what it holds when it is
destroyed: a move assignment into it makes no call, and its destructor then
releases the handle that the source held, or nothing when the source was
empty; after `set(p)` on a `Surface` or `Texture` the destructor releases `p`,
or nothing when `p` is null.  The handle it held before is not released. -/
theorem C3_destructor_releases_once (k : Kind) (N : Native) (x : k.T) (t : List Ev) :
    ((k.cls).get x ≠ 0 → newCalls ((k.cls).dtor N x) t = [(k.cls).release ((k.cls).get x)]) ∧
    ((k.cls).get x = 0 → newCalls ((k.cls).dtor N x) t = []) ∧
    thrownBy ((k.cls).dtor N x) t = none ∧
    (∀ n o, valueOf ((k.cls).moveCtor x) t = some (n, o) →
      newCalls ((k.cls).dtor N o) t = [] ∧
      ((k.cls).get x ≠ 0 → newCalls ((k.cls).dtor N n) t = [(k.cls).release ((k.cls).get x)])) ∧
    (∀ this other σ σ1, this ≠ other →
      valueOf ((k.cls).moveAssign this other σ) t = some σ1 →
      newCalls ((k.cls).dtor N (σ1 other)) t = []) ∧
    (∀ this other σ σ1, this ≠ other →
      valueOf ((k.cls).moveAssign this other σ) t = some σ1 →
      newCalls ((k.cls).moveAssign this other σ) t = [] ∧
      ((k.cls).get (σ other) = 0 → newCalls ((k.cls).dtor N (σ1 this)) t = []) ∧
      ((k.cls).get (σ other) ≠ 0 →
        newCalls ((k.cls).dtor N (σ1 this)) t = [(k.cls).release ((k.cls).get (σ other))])) ∧
    (∀ (s : Surface) (p : Int), (p = 0 → newCalls (Surface.dtor N (s.set p)) t = []) ∧
      (p ≠ 0 → newCalls (Surface.dtor N (s.set p)) t = [Call.SDL_FreeSurface p])) ∧
    (∀ (s : Texture) (p : Int), (p = 0 → newCalls (Texture.dtor N (s.set p)) t = []) ∧
      (p ≠ 0 → newCalls (Texture.dtor N (s.set p)) t = [Call.SDL_DestroyTexture p])) ∧
    newCalls (Surface.dtor N Surface.default) t = [] ∧
    newCalls (Texture.dtor N Texture.default) t = [] ∧
    newCalls (MixChunk.dtor N MixChunk.default) t = [] ∧
    (∀ title x y w h flags, ReleasedOnce (Window.ctor N title x y w h flags) (Window.dtor N)
      Window.get Call.SDL_DestroyWindow) ∧
    (∀ window index flags, ReleasedOnce (Renderer.ctor N window index flags) (Renderer.dtor N)
      Renderer.get Call.SDL_DestroyRenderer) ∧
    (∀ file ptsize, ReleasedOnce (Font.ctor N file ptsize) (Font.dtor N) Font.get
      Call.TTF_CloseFont) ∧
    (∀ interval callback param, ReleasedOnce (Timer.ctor N interval callback param)
      (Timer.dtor N) Timer.get Call.SDL_RemoveTimer) ∧
    (∀ renderer surface, ReleasedOnce (sdl_create_texture_from_surface N renderer surface)
      (Texture.dtor N) Texture.get Call.SDL_DestroyTexture) ∧
    (∀ file, ReleasedOnce (img_load N file) (Surface.dtor N) Surface.get Call.SDL_FreeSurface) ∧
    (∀ font text fg, ReleasedOnce (ttf_render_utf8_blended N font text fg) (Surface.dtor N)
      Surface.get Call.SDL_FreeSurface) ∧
    (∀ font text fg, ReleasedOnce (ttf_render_text_solid N font text fg) (Surface.dtor N)
      Surface.get Call.SDL_FreeSurface) ∧
    (∀ src freeSrc, ReleasedOnce (mix_load_wav_rw N src freeSrc) (MixChunk.dtor N)
      MixChunk.get Call.Mix_FreeChunk) := by
  have hd : ∀ y : k.T, ((k.cls).get y ≠ 0 →
        newCalls ((k.cls).dtor N y) t = [(k.cls).release ((k.cls).get y)]) ∧
      ((k.cls).get y = 0 → newCalls ((k.cls).dtor N y) t = []) := by
    intro y
    constructor
    · intro h
      simp [newCalls, traceOf, Kind.cls_dtor, h, callsOf]
    · intro h
      simp [newCalls, traceOf, Kind.cls_dtor, h, callsOf]
  refine ⟨(hd x).1, (hd x).2, by simp [thrownBy, Kind.cls_dtor], ?_, ?_, ?_, ?_, ?_, ?_, ?_, ?_, ?_⟩
  · intro n o h
    obtain ⟨n1, o1, h1, hn, ho⟩ := Kind.cls_moveCtor k x t
    simp only [valueOf, h1, Option.some.injEq, Prod.mk.injEq] at h
    obtain ⟨rfl, rfl⟩ := h
    refine ⟨(hd _).2 ho, fun hx => ?_⟩
    have := (hd n1).1 (by rw [hn]; exact hx)
    rw [this, hn]
  · intro this other σ σ1 hne h
    obtain ⟨σ2, h2, -, hz, -⟩ := Kind.cls_moveAssign_ne k this other σ t hne
    simp only [valueOf, h2, Option.some.injEq] at h
    subst h
    exact (hd _).2 hz
  · intro this other σ σ1 hne h
    obtain ⟨σ2, h2, ha, -, -⟩ := Kind.cls_moveAssign_ne k this other σ t hne
    simp only [valueOf, h2, Option.some.injEq] at h
    subst h
    refine ⟨by simp [newCalls, traceOf, h2, callsOf], fun h0 => ?_, fun h0 => ?_⟩
    · exact (hd _).2 (by rw [ha]; exact h0)
    · have := (hd (σ2 this)).1 (by rw [ha]; exact h0)
      rw [this, ha]
  · intro s p
    constructor
    · intro h
      simp [newCalls, traceOf, Surface.dtor, Surface.set, pure, M.pure, callsOf, h]
    · intro h
      simp [newCalls, traceOf, Surface.dtor, Surface.set, bind, M.bind, native, pure, M.pure,
        callsOf, h]
  · intro s p
    constructor
    · intro h
      simp [newCalls, traceOf, Texture.dtor, Texture.set, pure, M.pure, callsOf, h]
    · intro h
      simp [newCalls, traceOf, Texture.dtor, Texture.set, bind, M.bind, native, pure, M.pure,
        callsOf, h]
  · simp [newCalls, traceOf, Surface.dtor, Surface.default, pure, M.pure, callsOf]
  · simp [newCalls, traceOf, Texture.dtor, Texture.default, pure, M.pure, callsOf]
  · simp [newCalls, traceOf, MixChunk.dtor, MixChunk.default, pure, M.pure, callsOf]
  · have hk : ∀ (j : Kind) (w : j.T) (t1 : List Ev), (j.cls).get w ≠ 0 →
        newCalls ((j.cls).dtor N w) t1 = [(j.cls).release ((j.cls).get w)] := by
      intro j w t1 h
      simp [newCalls, traceOf, Kind.cls_dtor, h, callsOf]
    refine ⟨?_, ?_, ?_, ?_, ?_, ?_, ?_, ?_, ?_⟩
    · intro title x y w h flags
      exact ReleasedOnce_of_shape N _ _ _ _ _ _ _ (fun _ => rfl) (hk Kind.window)
    · intro window index flags
      exact ReleasedOnce_of_shape N _ _ _ _ _ _ _ (fun _ => rfl) (hk Kind.renderer)
    · intro file ptsize
      exact ReleasedOnce_of_shape N _ _ _ _ _ _ _ (fun _ => rfl) (hk Kind.font)
    · intro interval callback param
      exact ReleasedOnce_of_shape N _ _ _ _ _ _ _ (fun _ => rfl) (hk Kind.timer)
    · intro renderer surface
      exact ReleasedOnce_of_shape N _ _ _ _ _ _ _ (fun _ => rfl) (hk Kind.texture)
    · intro file
      exact ReleasedOnce_of_shape N _ _ _ _ _ _ _ (fun _ => rfl) (hk Kind.surface)
    · intro font text fg
      exact ReleasedOnce_of_shape N _ _ _ _ _ _ _ (fun _ => rfl) (hk Kind.surface)
    · intro font text fg
      exact ReleasedOnce_of_shape N _ _ _ _ _ _ _ (fun _ => rfl) (hk Kind.surface)
    · intro src freeSrc
      exact ReleasedOnce_of_shape N _ _ _ _ _ _ _ (fun _ => rfl) (hk Kind.mixChunk)

/-- C4: single owner.  Take live objects of one handle type among which no two
hold the same non-null handle (as when they hold pairwise distinct non-null
handles), and an empty trace.  After any sequence of move constructions, move
assignments (self-assignment included) and destructions that the program can
run, still no two live objects hold the same non-null handle, and no handle
has been passed to the release function more than once. -/
theorem C4_single_owner (k : Kind) (N : Native) (ops : List Op) (s0 s : Objects k.T)
    (t : List Ev) (hnd : s0.live.Nodup)
    (hdis : ∀ a ∈ s0.live, ∀ b ∈ s0.live, a ≠ b → (k.cls).get (s0.obj a) ≠ 0 →
      (k.cls).get (s0.obj a) ≠ (k.cls).get (s0.obj b))
    (hrun : (k.cls).run N ops s0 [] = some (s, t)) :
    (∀ a ∈ s.live, ∀ b ∈ s.live, a ≠ b → (k.cls).get (s.obj a) ≠ 0 →
      (k.cls).get (s.obj a) ≠ (k.cls).get (s.obj b)) ∧
    (∀ h, (callsOf t).count ((k.cls).release h) ≤ 1) := by
  have h0 : (k.cls).Owned s0 [] := ⟨hnd, hdis, by simp [callsOf], by simp [callsOf]⟩
  have h1 := (k.cls).Owned_run (Kind.cls_lawful k) N ops s0 s [] t h0 hrun
  exact ⟨h1.2.1, h1.2.2.1⟩

/-- C4, an instance: two windows holding 10 and 20; a third is move-constructed
from the first, the second is assigned to itself and then from the third, and
all three are destroyed.  The run ends, and no handle was released twice. -/
theorem C4_single_owner_witness :
    ∃ s t, (Kind.window.cls).run Native.zero
        [Op.moveConstruct 3 1, Op.moveAssign 2 2, Op.moveAssign 2 3, Op.destroy 1,
          Op.destroy 2, Op.destroy 3]
        { live := [1, 2], obj := sampleWindows } [] = some (s, t) ∧
      s.live = [] ∧ callsOf t = [Call.SDL_DestroyWindow 10] ∧
      ∀ h, (callsOf t).count ((Kind.window.cls).release h) ≤ 1 := by
  have hsome : ((Kind.window.cls).run Native.zero
      [Op.moveConstruct 3 1, Op.moveAssign 2 2, Op.moveAssign 2 3, Op.destroy 1,
        Op.destroy 2, Op.destroy 3]
      { live := [1, 2], obj := sampleWindows } []).isSome = true := by decide
  obtain ⟨⟨s, t⟩, hst⟩ := Option.isSome_iff_exists.mp hsome
  have hl : (((Kind.window.cls).run Native.zero
      [Op.moveConstruct 3 1, Op.moveAssign 2 2, Op.moveAssign 2 3, Op.destroy 1,
        Op.destroy 2, Op.destroy 3]
      { live := [1, 2], obj := sampleWindows } []).map (fun p => (p.1.live, callsOf p.2))) =
      some ([], [Call.SDL_DestroyWindow 10]) := by decide
  rw [hst] at hl
  simp only [Option.map_some', Option.some.injEq, Prod.mk.injEq] at hl
  exact ⟨s, t, hst, hl.1, hl.2,
    (C4_single_owner Kind.window Native.zero _ { live := [1, 2], obj := sampleWindows } s t
      (by decide) (by decide) hst).2⟩

/-! ## Theorems: exceptions, creation paths, forwarding operations, guards -/

theorem c_str_of_noNul (s : String) (h : noNul s) : c_str s = s := by
  unfold c_str
  have : s.data.takeWhile (fun c => c ≠ Char.ofNat 0) = s.data := by
    rw [List.takeWhile_eq_self_iff]
    intro c hc
    have : c ≠ Char.ofNat 0 := fun e => h (e ▸ hc)
    simpa using this
  rw [this]

theorem noNul_append (a b : String) (ha : noNul a) (hb : noNul b) : noNul (a ++ b) := by
  unfold noNul at *
  simp [String.data_append, ha, hb]

/-- C5: every fallible creation path throws `SDL2Exception` exactly when its
native creation call returns the sentinel (a null pointer, or 0 for the timer
id), and otherwise returns an object whose `get()` is the non-null handle that
the native call returned. -/
theorem C5_creation_fails_iff_sentinel (N : Native) (t : List Ev) :
    (∀ title x y w h flags, FallibleCreate N t (Window.ctor N title x y w h flags) Window.get
      (Call.SDL_CreateWindow title x y w h flags)) ∧
    (∀ window index flags, FallibleCreate N t (Renderer.ctor N window index flags) Renderer.get
      (Call.SDL_CreateRenderer window.get index flags)) ∧
    (∀ file ptsize, FallibleCreate N t (Font.ctor N file ptsize) Font.get
      (Call.TTF_OpenFont file ptsize)) ∧
    (∀ interval callback param, FallibleCreate N t (Timer.ctor N interval callback param)
      Timer.get (Call.SDL_AddTimer interval callback param)) ∧
    (∀ file, FallibleCreate N t (Bmp.ctor N file) Bmp.get (Call.SDL_LoadBMP file)) ∧
    (∀ renderer surface, FallibleCreate N t (sdl_create_texture_from_surface N renderer surface)
      Texture.get (Call.SDL_CreateTextureFromSurface renderer.get surface)) ∧
    (∀ file, FallibleCreate N t (img_load N file) Surface.get (Call.IMG_Load file)) ∧
    (∀ font text fg, FallibleCreate N t (ttf_render_utf8_blended N font text fg) Surface.get
      (Call.TTF_RenderUTF8_Blended font.get text fg)) ∧
    (∀ font text fg, FallibleCreate N t (ttf_render_text_solid N font text fg) Surface.get
      (Call.TTF_RenderText_Solid font.get text fg)) ∧
    (∀ src freeSrc, FallibleCreate N t (mix_load_wav_rw N src freeSrc) MixChunk.get
      (Call.Mix_LoadWAV_RW src freeSrc)) := by
  refine ⟨?_, ?_, ?_, ?_, ?_, ?_, ?_, ?_, ?_, ?_⟩
  · intro title x y w h flags
    unfold FallibleCreate
    by_cases h0 : (N t (Call.SDL_CreateWindow title x y w h flags)).ret = 0 <;>
    simp [Window.ctor, Window.get, thrownBy, valueOf, newCalls, traceOf, callsOf, bind, M.bind,
      native, M.throw, pure, M.pure, h0]
  · intro window index flags
    unfold FallibleCreate
    by_cases h0 : (N t (Call.SDL_CreateRenderer window.get index flags)).ret = 0 <;>
    simp [Renderer.ctor, Renderer.get, thrownBy, valueOf, newCalls, traceOf, callsOf, bind,
      M.bind, native, M.throw, pure, M.pure, h0]
  · intro file ptsize
    unfold FallibleCreate
    by_cases h0 : (N t (Call.TTF_OpenFont file ptsize)).ret = 0 <;>
    simp [Font.ctor, Font.get, thrownBy, valueOf, newCalls, traceOf, callsOf, bind, M.bind,
      native, M.throw, pure, M.pure, h0]
  · intro interval callback param
    unfold FallibleCreate
    by_cases h0 : (N t (Call.SDL_AddTimer interval callback param)).ret = 0 <;>
    simp [Timer.ctor, Timer.get, thrownBy, valueOf, newCalls, traceOf, callsOf, bind, M.bind,
      native, M.throw, pure, M.pure, h0]
  · intro file
    unfold FallibleCreate
    by_cases h0 : (N t (Call.SDL_LoadBMP file)).ret = 0 <;>
    simp [Bmp.ctor, Bmp.get, ctorBody, Surface.dtor, Surface.default, Surface.set, Surface.get,
      thrownBy, valueOf, newCalls, traceOf, callsOf, bind, M.bind, native, M.throw, pure,
      M.pure, h0]
  · intro renderer surface
    unfold FallibleCreate
    by_cases h0 : (N t (Call.SDL_CreateTextureFromSurface renderer.get surface)).ret = 0 <;>
    simp [sdl_create_texture_from_surface, Texture.ofPtr, Texture.get, thrownBy, valueOf,
      newCalls, traceOf, callsOf, bind, M.bind, native, M.throw, pure, M.pure, h0]
  · intro file
    unfold FallibleCreate
    by_cases h0 : (N t (Call.IMG_Load file)).ret = 0 <;>
    simp [img_load, Surface.ofPtr, Surface.get, thrownBy, valueOf, newCalls, traceOf, callsOf,
      bind, M.bind, native, M.throw, pure, M.pure, h0]
  · intro font text fg
    unfold FallibleCreate
    by_cases h0 : (N t (Call.TTF_RenderUTF8_Blended font.get text fg)).ret = 0 <;>
    simp [ttf_render_utf8_blended, Surface.ofPtr, Surface.get, thrownBy, valueOf, newCalls,
      traceOf, callsOf, bind, M.bind, native, M.throw, pure, M.pure, h0]
  · intro font text fg
    unfold FallibleCreate
    by_cases h0 : (N t (Call.TTF_RenderText_Solid font.get text fg)).ret = 0 <;>
    simp [ttf_render_text_solid, Surface.ofPtr, Surface.get, thrownBy, valueOf, newCalls,
      traceOf, callsOf, bind, M.bind, native, M.throw, pure, M.pure, h0]
  · intro src freeSrc
    unfold FallibleCreate
    by_cases h0 : (N t (Call.Mix_LoadWAV_RW src freeSrc)).ret = 0 <;>
    simp [mix_load_wav_rw, MixChunk.ofPtr, MixChunk.get, thrownBy, valueOf, newCalls, traceOf,
      callsOf, bind, M.bind, native, M.throw, pure, M.pure, h0]

/-- C6: when the native creation call of a creation path returns the sentinel,
no object comes back and the only calls made are the creation call and the
error getter: no release function is called.  For `Bmp` this includes the
destructor of the still empty `Surface` member, which runs and calls nothing. -/
theorem C6_failed_creation_releases_nothing (N : Native) (t : List Ev) :
    (∀ title x y w h flags, FailsClean N t (Window.ctor N title x y w h flags)
      (Call.SDL_CreateWindow title x y w h flags) Call.SDL_GetError) ∧
    (∀ window index flags, FailsClean N t (Renderer.ctor N window index flags)
      (Call.SDL_CreateRenderer window.get index flags) Call.SDL_GetError) ∧
    (∀ file ptsize, FailsClean N t (Font.ctor N file ptsize)
      (Call.TTF_OpenFont file ptsize) Call.TTF_GetError) ∧
    (∀ interval callback param, FailsClean N t (Timer.ctor N interval callback param)
      (Call.SDL_AddTimer interval callback param) Call.SDL_GetError) ∧
    (∀ file, FailsClean N t (Bmp.ctor N file) (Call.SDL_LoadBMP file) Call.SDL_GetError) ∧
    (∀ renderer surface, FailsClean N t (sdl_create_texture_from_surface N renderer surface)
      (Call.SDL_CreateTextureFromSurface renderer.get surface) Call.SDL_GetError) ∧
    (∀ file, FailsClean N t (img_load N file) (Call.IMG_Load file) Call.SDL_GetError) ∧
    (∀ font text fg, FailsClean N t (ttf_render_utf8_blended N font text fg)
      (Call.TTF_RenderUTF8_Blended font.get text fg) Call.TTF_GetError) ∧
    (∀ font text fg, FailsClean N t (ttf_render_text_solid N font text fg)
      (Call.TTF_RenderText_Solid font.get text fg) Call.TTF_GetError) ∧
    (∀ src freeSrc, FailsClean N t (mix_load_wav_rw N src freeSrc)
      (Call.Mix_LoadWAV_RW src freeSrc) Call.Mix_GetError) := by
  refine ⟨?_, ?_, ?_, ?_, ?_, ?_, ?_, ?_, ?_, ?_⟩ <;>
  · intros
    intro h0
    simp [Window.ctor, Renderer.ctor, Font.ctor, Timer.ctor, Bmp.ctor, ctorBody, Surface.dtor,
      Surface.default, sdl_create_texture_from_surface, img_load, ttf_render_utf8_blended,
      ttf_render_text_solid, mix_load_wav_rw, thrownBy, valueOf, newCalls, traceOf, callsOf,
      bind, M.bind, native, M.throw, pure, M.pure, h0, Call.isRelease, Call.isErrorGetter]

/-- C6, an instance: with the native layer that answers every call with zero,
`Bmp("./cat.bmp")` calls `SDL_LoadBMP` and `SDL_GetError` and nothing else. -/
theorem C6_failed_creation_releases_nothing_witness :
    (Native.zero [] (Call.SDL_LoadBMP "./cat.bmp")).ret = 0 ∧
    newCalls (Bmp.ctor Native.zero "./cat.bmp") [] =
      [Call.SDL_LoadBMP "./cat.bmp", Call.SDL_GetError] :=
  ⟨rfl, ((C6_failed_creation_releases_nothing Native.zero []).2.2.2.2.1 "./cat.bmp" rfl).2.1⟩

theorem Forwards_of_shape {α : Type} (N : Native) (t : List Ev) (c g : Call) (u : String)
    (f : Reply → α) (hg : g.isErrorGetter = true) (hc : c.isErrorGetter = false)
    (hu : u = c.name ++ "() failed") :
    Forwards N t
      (do
        let r ← native N c
        if r.ret < 0 then
          let e ← native N g
          M.throw (SDL2Exception.ofUser u e.str)
        else
          pure (f r)) c g := by
  unfold Forwards
  subst hu
  by_cases h0 : (N t c).ret < 0
  · have h1 : ¬ 0 ≤ (N t c).ret := not_le.mpr h0
    simp [thrownBy, valueOf, newCalls, traceOf, callsOf, bind, M.bind, native, M.throw, pure,
      M.pure, h0, h1, hg, hc, SDL2Exception.ofUser, SDL2Exception.what, String.append_assoc]
  · have h1 : 0 ≤ (N t c).ret := not_lt.mp h0
    simp [thrownBy, valueOf, newCalls, traceOf, callsOf, bind, M.bind, native, M.throw, pure,
      M.pure, h0, h1, hg, hc]

/-- C8: every fallible forwarding operation makes exactly one operation call,
with the arguments it was given; it returns when that call returns a
non-negative value, and when the call returns a negative value it fetches the
error string and throws the exception whose message is the name of that call,
then `() failed, errMsg: `, then the error string.  `sdl_render_present` and
`sdl_window_get_surface` make their one call and never throw. -/
theorem C8_forwarding_throws_iff_negative (N : Native) (t : List Ev) :
    (∀ dst rect color, Forwards N t (sdl_fill_rect N dst rect color)
      (Call.SDL_FillRect dst rect color) Call.SDL_GetError) ∧
    (∀ window, Forwards N t (sdl_update_window_surface N window)
      (Call.SDL_UpdateWindowSurface window.get) Call.SDL_GetError) ∧
    (∀ src srcRect dst dstRect, Forwards N t (sdl_blit_surface N src srcRect dst dstRect)
      (Call.SDL_BlitSurface src srcRect dst dstRect) Call.SDL_GetError) ∧
    (∀ renderer r g b a, Forwards N t (sdl_set_render_draw_color N renderer r g b a)
      (Call.SDL_SetRenderDrawColor renderer.get r g b a) Call.SDL_GetError) ∧
    (∀ renderer, Forwards N t (sdl_render_clear N renderer)
      (Call.SDL_RenderClear renderer.get) Call.SDL_GetError) ∧
    (∀ renderer blendMode, Forwards N t (sdl_set_render_draw_blend_mode N renderer blendMode)
      (Call.SDL_SetRenderDrawBlendMode renderer.get blendMode) Call.SDL_GetError) ∧
    (∀ renderer rect, Forwards N t (sdl_render_fill_rect N renderer rect)
      (Call.SDL_RenderFillRect renderer.get rect) Call.SDL_GetError) ∧
    (∀ renderer rect, Forwards N t (sdl_render_draw_rect N renderer rect)
      (Call.SDL_RenderDrawRect renderer.get rect) Call.SDL_GetError) ∧
    (∀ renderer x1 y1 x2 y2, Forwards N t (sdl_render_draw_line N renderer x1 y1 x2 y2)
      (Call.SDL_RenderDrawLine renderer.get x1 y1 x2 y2) Call.SDL_GetError) ∧
    (∀ renderer points pointNum, Forwards N t (sdl_render_draw_lines N renderer points pointNum)
      (Call.SDL_RenderDrawLines renderer.get points pointNum) Call.SDL_GetError) ∧
    (∀ renderer texture srcRect dstRect,
      Forwards N t (sdl_render_copy N renderer texture srcRect dstRect)
      (Call.SDL_RenderCopy renderer.get texture.get srcRect dstRect) Call.SDL_GetError) ∧
    (∀ renderer texture srcRect dstRect angle center flip,
      Forwards N t (sdl_render_copy_ex N renderer texture srcRect dstRect angle center flip)
      (Call.SDL_RenderCopyEx renderer.get texture.get srcRect dstRect angle center flip)
      Call.SDL_GetError) ∧
    (∀ renderer scaleX scaleY, Forwards N t (sdl_render_set_scale N renderer scaleX scaleY)
      (Call.SDL_RenderSetScale renderer.get scaleX scaleY) Call.SDL_GetError) ∧
    (∀ renderer rect, Forwards N t (sdl_render_set_viewport N renderer rect)
      (Call.SDL_RenderSetViewport renderer.get rect) Call.SDL_GetError) ∧
    (∀ texture format access w h, Forwards N t (sdl_query_texture N texture format access w h)
      (Call.SDL_QueryTexture texture.get format access w h) Call.SDL_GetError) ∧
    (∀ channel chunk loops, Forwards N t (mix_play_channel N channel chunk loops)
      (Call.Mix_PlayChannel channel chunk.get loops) Call.Mix_GetError) ∧
    (∀ renderer, NeverThrows N t (sdl_render_present N renderer)
      (Call.SDL_RenderPresent renderer.get)) ∧
    (∀ window, NeverThrows N t (sdl_window_get_surface N window)
      (Call.SDL_GetWindowSurface window.get)) := by
  refine ⟨?_, ?_, ?_, ?_, ?_, ?_, ?_, ?_, ?_, ?_, ?_, ?_, ?_, ?_, ?_, ?_, ?_, ?_⟩
  · intro dst rect color
    exact Forwards_of_shape N t _ _ _ (fun _ => ()) rfl rfl rfl
  · intro window
    exact Forwards_of_shape N t _ _ _ (fun _ => ()) rfl rfl rfl
  · intro src srcRect dst dstRect
    exact Forwards_of_shape N t _ _ _ (fun _ => ()) rfl rfl rfl
  · intro renderer r g b a
    exact Forwards_of_shape N t _ _ _ (fun _ => ()) rfl rfl rfl
  · intro renderer
    exact Forwards_of_shape N t _ _ _ (fun _ => ()) rfl rfl rfl
  · intro renderer blendMode
    exact Forwards_of_shape N t _ _ _ (fun _ => ()) rfl rfl rfl
  · intro renderer rect
    exact Forwards_of_shape N t _ _ _ (fun _ => ()) rfl rfl rfl
  · intro renderer rect
    exact Forwards_of_shape N t _ _ _ (fun _ => ()) rfl rfl rfl
  · intro renderer x1 y1 x2 y2
    exact Forwards_of_shape N t _ _ _ (fun _ => ()) rfl rfl rfl
  · intro renderer points pointNum
    exact Forwards_of_shape N t _ _ _ (fun _ => ()) rfl rfl rfl
  · intro renderer texture srcRect dstRect
    exact Forwards_of_shape N t _ _ _ (fun _ => ()) rfl rfl rfl
  · intro renderer texture srcRect dstRect angle center flip
    exact Forwards_of_shape N t _ _ _ (fun _ => ()) rfl rfl rfl
  · intro renderer scaleX scaleY
    exact Forwards_of_shape N t _ _ _ (fun _ => ()) rfl rfl rfl
  · intro renderer rect
    exact Forwards_of_shape N t _ _ _ (fun _ => ()) rfl rfl rfl
  · intro texture format access w h
    exact Forwards_of_shape N t _ _ _ (fun r => r.out) rfl rfl rfl
  · intro channel chunk loops
    exact Forwards_of_shape N t _ _ _ (fun _ => ()) rfl rfl rfl
  · intro renderer
    simp [NeverThrows, sdl_render_present, thrownBy, valueOf, traceOf, bind, M.bind, native,
      pure, M.pure]
  · intro window
    simp [NeverThrows, sdl_window_get_surface, thrownBy, valueOf, traceOf, bind, M.bind, native,
      pure, M.pure]

/-- C9, counterexample: the constructor of the audio guard makes no call at
all, so it does not call `Mix_Init`, and it returns; and `do_mixer_init`, the
only member that calls `Mix_Init`, does not throw when `Mix_Init(8)` returns 0,
that is, when it reports that nothing was initialised. -/
theorem C9_counterexample :
    newCalls SDL2Mixer.ctor [] = [] ∧ (valueOf SDL2Mixer.ctor []).isSome = true ∧
    (Native.zero [] (Call.Mix_Init 8)).ret = 0 ∧
    thrownBy (SDL2Mixer.do_mixer_init Native.zero {} 8) [] = none := by
  refine ⟨rfl, rfl, rfl, rfl⟩

/-- C9, as amended: the constructor of `SDL2Env` calls `SDL_Init` with the flags
it was given, and the constructor of `SDL2TTF` calls `TTF_Init`, which takes no
flags; each throws exactly when that call returns a negative value.  The
constructor of `SDL2Mixer` makes no call and cannot fail; `Mix_Init` is called
only by the optional member `do_mixer_init`, which hands back what `Mix_Init`
returned and never throws.  The destructor of each guard makes exactly one
call, the matching shutdown (`SDL_Quit`, `TTF_Quit`, `Mix_Quit`), whatever
happened before. -/
theorem C9_guards_init_and_quit (N : Native) (t : List Ev) :
    (∀ flags, Forwards N t (SDL2Env.ctor N flags) (Call.SDL_Init flags) Call.SDL_GetError) ∧
    Forwards N t (SDL2TTF.ctor N) Call.TTF_Init Call.TTF_GetError ∧
    SDL2Mixer.ctor t = (Outcome.ok {}, t) ∧
    (∀ self flags,
      NeverThrows N t (SDL2Mixer.do_mixer_init N self flags) (Call.Mix_Init flags) ∧
      valueOf (SDL2Mixer.do_mixer_init N self flags) t = some (N t (Call.Mix_Init flags)).ret) ∧
    (∀ self, NeverThrows N t (SDL2Env.dtor N self) Call.SDL_Quit) ∧
    (∀ self, NeverThrows N t (SDL2TTF.dtor N self) Call.TTF_Quit) ∧
    (∀ self, NeverThrows N t (SDL2Mixer.dtor N self) Call.Mix_Quit) := by
  refine ⟨?_, ?_, rfl, ?_, ?_, ?_, ?_⟩
  · intro flags
    exact Forwards_of_shape N t _ _ _ (fun _ => ({} : SDL2Env)) rfl rfl rfl
  · exact Forwards_of_shape N t _ _ _ (fun _ => ({} : SDL2TTF)) rfl rfl rfl
  · intro self flags
    simp [NeverThrows, SDL2Mixer.do_mixer_init, thrownBy, valueOf, traceOf, bind, M.bind,
      native, pure, M.pure]
  · intro self
    simp [NeverThrows, SDL2Env.dtor, thrownBy, valueOf, traceOf, bind, M.bind, native, pure,
      M.pure]
  · intro self
    simp [NeverThrows, SDL2TTF.dtor, thrownBy, valueOf, traceOf, bind, M.bind, native, pure,
      M.pure]
  · intro self
    simp [NeverThrows, SDL2Mixer.dtor, thrownBy, valueOf, traceOf, bind, M.bind, native, pure,
      M.pure]

end sdl2

/-! ## Theorems: the driver -/

namespace usages

open sdl2

theorem acquired_append (s t : List Ev) : acquired (s ++ t) = acquired s ++ acquired t := by
  induction s with
  | nil => simp [acquired]
  | cons e s ih => simp [acquired, ih]

theorem teardown_append (s t : List Ev) : teardown (s ++ t) = teardown s ++ teardown t := by
  simp [teardown, callsOf]

theorem acquired_nil : acquired [] = [] := rfl

theorem teardown_nil : teardown [] = [] := rfl

theorem acquired_single (e : Ev) : acquired [e] = owes e := by
  simp [acquired]

theorem teardown_single (e : Ev) :
    teardown [e] = if isTeardown e.call = true then [e.call] else [] := by
  simp [teardown, callsOf, List.filter_cons]

theorem Quiet_pure {α : Type} (a : α) : Quiet (pure a : M α) :=
  fun t => ⟨[], by simp [pure, M.pure], rfl, rfl⟩

theorem Quiet_throw {α : Type} (e : SDL2Exception) : Quiet (M.throw e : M α) :=
  fun t => ⟨[], by simp [M.throw], rfl, rfl⟩

theorem Quiet_stall {α : Type} : Quiet (M.stall : M α) :=
  fun t => ⟨[], by simp [M.stall], rfl, rfl⟩

theorem Quiet_native (N : Native) (c : Call) (h1 : ∀ r, owes { call := c, reply := r } = [])
    (h2 : isTeardown c = false) : Quiet (native N c) :=
  fun t => ⟨[{ call := c, reply := N t c }], by simp [native], by simp [acquired_single, h1],
    by simp [teardown_single, h2]⟩

theorem Quiet_bind {α β : Type} (m : M α) (f : α → M β) (hm : Quiet m)
    (hf : ∀ a, Quiet (f a)) : Quiet (m >>= f) := by
  intro t
  obtain ⟨s1, h1, ha1, ht1⟩ := hm t
  cases hmt : m t with
  | mk o t1 =>
    rw [hmt] at h1
    simp only at h1
    subst h1
    cases o with
    | ok a =>
      obtain ⟨s2, h2, ha2, ht2⟩ := hf a (t ++ s1)
      refine ⟨s1 ++ s2, ?_, ?_, ?_⟩
      · simp [bind, M.bind, hmt, h2]
      · simp [acquired_append, ha1, ha2]
      · simp [teardown_append, ht1, ht2]
    | throw e => exact ⟨s1, by simp [bind, M.bind, hmt], ha1, ht1⟩
    | running => exact ⟨s1, by simp [bind, M.bind, hmt], ha1, ht1⟩

theorem Nested_of_Quiet {α : Type} (m : M α) (P : List Call → Prop) (hm : Quiet m)
    (hP : P []) : Nested m P := by
  intro t
  obtain ⟨s1, h1, ha1, ht1⟩ := hm t
  exact ⟨s1, h1, fun _ => by simp [ha1, ht1, hP]⟩

theorem Nested_mono {α : Type} (m : M α) (P Q : List Call → Prop) (hm : Nested m P)
    (hPQ : ∀ l, P l → Q l) : Nested m Q := by
  intro t
  obtain ⟨s1, h1, h⟩ := hm t
  exact ⟨s1, h1, fun hr => ⟨(h hr).1, hPQ _ (h hr).2⟩⟩

theorem Nested_bind_left {α β : Type} (m : M α) (f : α → M β) (P : List Call → Prop)
    (hm : Quiet m) (hP : P []) (hf : ∀ a, Nested (f a) P) : Nested (m >>= f) P := by
  intro t
  obtain ⟨s1, h1, ha1, ht1⟩ := hm t
  cases hmt : m t with
  | mk o t1 =>
    rw [hmt] at h1
    simp only at h1
    subst h1
    cases o with
    | ok a =>
      obtain ⟨s2, h2, h⟩ := hf a (t ++ s1)
      refine ⟨s1 ++ s2, by simp [bind, M.bind, hmt, h2], ?_⟩
      intro hr
      have hr2 : (f a (t ++ s1)).1 ≠ Outcome.running := by
        simpa [bind, M.bind, hmt] using hr
      simp [acquired_append, teardown_append, ha1, ht1, (h hr2).1, (h hr2).2]
    | throw e =>
      exact ⟨s1, by simp [bind, M.bind, hmt], fun _ => by simp [ha1, ht1, hP]⟩
    | running =>
      exact ⟨s1, by simp [bind, M.bind, hmt], fun _ => by simp [ha1, ht1, hP]⟩

theorem Nested_bind_right {α β : Type} (m : M α) (f : α → M β) (P : List Call → Prop)
    (hm : Nested m P) (hf : ∀ a, Quiet (f a)) : Nested (m >>= f) P := by
  intro t
  obtain ⟨s1, h1, h⟩ := hm t
  cases hmt : m t with
  | mk o t1 =>
    rw [hmt] at h1 h
    simp only at h1 h
    subst h1
    cases o with
    | ok a =>
      obtain ⟨s2, h2, ha2, ht2⟩ := hf a (t ++ s1)
      refine ⟨s1 ++ s2, by simp [bind, M.bind, hmt, h2], ?_⟩
      intro _
      have h' := h (by simp)
      simp [acquired_append, teardown_append, ha2, ht2, h'.1, h'.2]
    | throw e =>
      exact ⟨s1, by simp [bind, M.bind, hmt], fun _ => h (by simp)⟩
    | running =>
      exact ⟨s1, by simp [bind, M.bind, hmt], fun hr => absurd (by simp [bind, M.bind, hmt]) hr⟩

theorem Nested_tryCatch {α : Type} (m : M α) (handler : SDL2Exception → M α)
    (P : List Call → Prop) (hm : Nested m P) (hh : ∀ e, Quiet (handler e)) :
    Nested (tryCatch m handler) P := by
  intro t
  obtain ⟨s1, h1, h⟩ := hm t
  cases hmt : m t with
  | mk o t1 =>
    rw [hmt] at h1 h
    simp only at h1 h
    subst h1
    cases o with
    | ok a => exact ⟨s1, by simp [tryCatch, hmt], fun _ => h (by simp)⟩
    | throw e =>
      obtain ⟨s2, h2, ha2, ht2⟩ := hh e (t ++ s1)
      refine ⟨s1 ++ s2, by simp [tryCatch, hmt, h2], ?_⟩
      intro _
      have h' := h (by simp)
      simp [acquired_append, teardown_append, ha2, ht2, h'.1, h'.2]
    | running =>
      exact ⟨s1, by simp [tryCatch, hmt], fun hr => absurd (by simp [tryCatch, hmt]) hr⟩

theorem Nested_withObject {α β : Type} (ctor : M α) (dtor : α → M Unit) (body : α → M β)
    (G : α → List Call → Prop) (P : List Call → Prop) (hc : Acquires ctor G)
    (hd : ∀ a l, G a l → Releases (dtor a) l) (hb : ∀ a, Nested (body a) P) :
    Nested (withObject ctor dtor body)
      (fun l => l = [] ∨ ∃ a l1 l2, G a l1 ∧ P l2 ∧ l = l1 ++ l2) := by
  intro t
  obtain ⟨s1, h1, ht1, hG⟩ := hc t
  cases hct : ctor t with
  | mk o t1 =>
    rw [hct] at h1 hG
    simp only at h1 hG
    subst h1
    cases o with
    | ok a =>
      simp only at hG
      obtain ⟨s2, h2, hB⟩ := hb a (t ++ s1)
      cases hbt : body a (t ++ s1) with
      | mk o2 t2 =>
        rw [hbt] at h2 hB
        simp only at h2 hB
        subst h2
        obtain ⟨s3, h3, ha3, ht3⟩ := hd a _ hG (t ++ s1 ++ s2)
        simp only [List.append_assoc] at h3
        cases o2 with
        | ok b =>
          refine ⟨s1 ++ s2 ++ s3, by simp [withObject, hct, hbt, h3], fun _ => ?_⟩
          have h' := hB (by simp)
          refine ⟨by simp [acquired_append, teardown_append, ht1, ha3, ht3, h'.1], ?_⟩
          exact Or.inr ⟨a, _, _, hG, h'.2, by simp [acquired_append, ha3]⟩
        | throw e =>
          refine ⟨s1 ++ s2 ++ s3, by simp [withObject, hct, hbt, h3], fun _ => ?_⟩
          have h' := hB (by simp)
          refine ⟨by simp [acquired_append, teardown_append, ht1, ha3, ht3, h'.1], ?_⟩
          exact Or.inr ⟨a, _, _, hG, h'.2, by simp [acquired_append, ha3]⟩
        | running =>
          exact ⟨s1 ++ s2, by simp [withObject, hct, hbt],
            fun hr => absurd (by simp [withObject, hct, hbt]) hr⟩
    | throw e =>
      simp only at hG
      exact ⟨s1, by simp [withObject, hct], fun _ => by simp [hG, ht1]⟩
    | running => exact absurd hG (by simp)

theorem Quiet_fallible {α : Type} (N : Native) (c g : Call) (p : Reply → Prop)
    [DecidablePred p] (u : String) (f : Reply → α) (hc : Quiet (native N c))
    (hg : Quiet (native N g)) :
    Quiet (do
      let r ← native N c
      if p r then
        let e ← native N g
        M.throw (SDL2Exception.ofUser u e.str)
      else
        pure (f r)) := by
  refine Quiet_bind _ _ hc (fun r => ?_)
  split_ifs
  · exact Quiet_bind _ _ hg (fun e => Quiet_throw _)
  · exact Quiet_pure _

theorem Quiet_SDL_GetError (N : Native) : Quiet (native N Call.SDL_GetError) :=
  Quiet_native N _ (fun _ => rfl) rfl

theorem Quiet_Mix_GetError (N : Native) : Quiet (native N Call.Mix_GetError) :=
  Quiet_native N _ (fun _ => rfl) rfl

theorem Quiet_render_bmp_with_viewport (N : Native) (renderer : Renderer) (texture : Texture) :
    Quiet (render_bmp_with_viewport N renderer texture) := by
  unfold render_bmp_with_viewport
  refine Quiet_bind _ _ ?_ (fun _ => Quiet_bind _ _ ?_ (fun _ => Quiet_bind _ _ ?_ (fun out =>
    Quiet_bind _ _ ?_ (fun _ => Quiet_bind _ _ ?_ (fun _ => ?_)))))
  · exact Quiet_fallible N _ _ (fun r => r.ret < 0) _ (fun _ => ())
      (Quiet_native N _ (fun _ => rfl) rfl) (Quiet_SDL_GetError N)
  · exact Quiet_fallible N _ _ (fun r => r.ret < 0) _ (fun _ => ())
      (Quiet_native N _ (fun _ => rfl) rfl) (Quiet_SDL_GetError N)
  · exact Quiet_fallible N _ _ (fun r => r.ret < 0) _ (fun r => r.out)
      (Quiet_native N _ (fun _ => rfl) rfl) (Quiet_SDL_GetError N)
  · exact Quiet_fallible N _ _ (fun r => r.ret < 0) _ (fun _ => ())
      (Quiet_native N _ (fun _ => rfl) rfl) (Quiet_SDL_GetError N)
  · exact Quiet_fallible N _ _ (fun r => r.ret < 0) _ (fun _ => ())
      (Quiet_native N _ (fun _ => rfl) rfl) (Quiet_SDL_GetError N)
  · exact Quiet_bind _ _ (Quiet_native N _ (fun _ => rfl) rfl) (fun _ => Quiet_pure _)

theorem Quiet_poll_events (N : Native) (K : Headers) (fuel : Nat) :
    Quiet (poll_events N K fuel) := by
  induction fuel with
  | zero => exact Quiet_stall
  | succ fuel ih =>
    unfold poll_events
    refine Quiet_bind _ _ (Quiet_native N _ (fun _ => rfl) rfl) (fun r => ?_)
    split_ifs
    · exact Quiet_pure _
    · exact ih
    · exact Quiet_pure _

theorem Quiet_frames (N : Native) (K : Headers) (renderer : Renderer) (bmpTexture : Texture)
    (pollFuel fuel : Nat) : Quiet (frames N K renderer bmpTexture pollFuel fuel) := by
  induction fuel with
  | zero => exact Quiet_stall
  | succ fuel ih =>
    unfold frames
    refine Quiet_bind _ _ (Quiet_native N _ (fun _ => rfl) rfl) (fun b => ?_)
    refine Quiet_bind _ _ (Quiet_poll_events N K pollFuel) (fun quit => ?_)
    split_ifs
    · exact Quiet_pure _
    · refine Quiet_bind _ _ (Quiet_render_bmp_with_viewport N renderer bmpTexture) (fun _ => ?_)
      refine Quiet_bind _ _ (Quiet_native N _ (fun _ => rfl) rfl) (fun c => ?_)
      dsimp only
      split_ifs
      · exact Quiet_bind _ _ (Quiet_native N _ (fun _ => rfl) rfl) (fun _ => ih)
      · exact ih

theorem Acquires_fallible {α : Type} (N : Native) (c g : Call) (p : Reply → Prop)
    [DecidablePred p] (u : String) (f : Reply → α) (G : α → List Call → Prop)
    (hc : isTeardown c = false) (hg : isTeardown g = false)
    (hgo : ∀ r, owes { call := g, reply := r } = [])
    (hp : ∀ r, p r → owes { call := c, reply := r } = [])
    (hn : ∀ r, ¬ p r → G (f r) (owes { call := c, reply := r })) :
    Acquires (do
      let r ← native N c
      if p r then
        let e ← native N g
        M.throw (SDL2Exception.ofUser u e.str)
      else
        pure (f r)) G := by
  intro t
  by_cases h : p (N t c)
  · refine ⟨[{ call := c, reply := N t c },
      { call := g, reply := N (t ++ [{ call := c, reply := N t c }]) g }], ?_, ?_, ?_⟩
    · simp [bind, M.bind, native, M.throw, h]
    · simp [teardown, callsOf, hc, hg]
    · simp [bind, M.bind, native, M.throw, h, acquired, hgo, hp _ h]
  · refine ⟨[{ call := c, reply := N t c }], ?_, ?_, ?_⟩
    · simp [bind, M.bind, native, pure, M.pure, h]
    · simp [teardown, callsOf, hc]
    · simpa [bind, M.bind, native, pure, M.pure, h, acquired] using hn _ h

theorem Releases_native (N : Native) (c : Call) (hc : isTeardown c = true)
    (ho : ∀ r, owes { call := c, reply := r } = []) :
    Releases (do
      let _ ← native N c
      pure ()) [c] := by
  intro t
  refine ⟨[{ call := c, reply := N t c }], ?_, ?_, ?_⟩
  · simp [bind, M.bind, native, pure, M.pure]
  · simp [acquired, ho]
  · simp [teardown, callsOf, hc]

theorem Acquires_SDL2Env (N : Native) (flags : Nat) :
    Acquires (SDL2Env.ctor N flags) (fun _ l => l = [Call.SDL_Quit]) := by
  unfold SDL2Env.ctor
  refine Acquires_fallible N (Call.SDL_Init flags) Call.SDL_GetError (fun r => r.ret < 0) _
    (fun _ => ({} : SDL2Env)) _ rfl rfl (fun _ => rfl) ?_ ?_
  · intro r h
    simp [owes, h]
  · intro r h
    simp [owes, h]

theorem Releases_SDL2Env (N : Native) (a : SDL2Env) :
    Releases (SDL2Env.dtor N a) [Call.SDL_Quit] :=
  Releases_native N _ rfl (fun _ => rfl)

theorem Acquires_Window (N : Native) (title : String) (x y w h : Int) (flags : Nat) :
    Acquires (Window.ctor N title x y w h flags)
      (fun a l => a.window ≠ 0 ∧ l = [Call.SDL_DestroyWindow a.window]) := by
  unfold Window.ctor
  refine Acquires_fallible N (Call.SDL_CreateWindow title x y w h flags) Call.SDL_GetError
    (fun r => r.ret = 0) _ (fun r => ({ window := r.ret } : Window)) _
    rfl rfl (fun _ => rfl) ?_ ?_
  · intro r h
    simp [owes, h]
  · intro r h
    simp [owes, h]

theorem Releases_Window (N : Native) (a : Window) (h : a.window ≠ 0) :
    Releases (Window.dtor N a) [Call.SDL_DestroyWindow a.window] := by
  unfold Window.dtor
  rw [if_pos h]
  exact Releases_native N _ rfl (fun _ => rfl)

theorem Acquires_Renderer (N : Native) (window : Window) (index : Int) (flags : Nat) :
    Acquires (Renderer.ctor N window index flags)
      (fun a l => a.renderer ≠ 0 ∧ l = [Call.SDL_DestroyRenderer a.renderer]) := by
  unfold Renderer.ctor
  refine Acquires_fallible N (Call.SDL_CreateRenderer window.get index flags) Call.SDL_GetError
    (fun r => r.ret = 0) _ (fun r => ({ renderer := r.ret } : Renderer)) _
    rfl rfl (fun _ => rfl) ?_ ?_
  · intro r h
    simp [owes, h]
  · intro r h
    simp [owes, h]

theorem Releases_Renderer (N : Native) (a : Renderer) (h : a.renderer ≠ 0) :
    Releases (Renderer.dtor N a) [Call.SDL_DestroyRenderer a.renderer] := by
  unfold Renderer.dtor
  rw [if_pos h]
  exact Releases_native N _ rfl (fun _ => rfl)

theorem Acquires_MixOpenAudio (N : Native) (frequency : Int) (format : Nat)
    (channels chunksize : Int) :
    Acquires (MixOpenAudio.ctor N frequency format channels chunksize)
      (fun _ l => l = [Call.Mix_CloseAudio]) := by
  unfold MixOpenAudio.ctor
  refine Acquires_fallible N (Call.Mix_OpenAudio frequency format channels chunksize)
    Call.Mix_GetError (fun r => r.ret < 0) _ (fun _ => ({} : MixOpenAudio)) _
    rfl rfl (fun _ => rfl) ?_ ?_
  · intro r h
    simp [owes, h]
  · intro r h
    simp [owes, h]

theorem Releases_MixOpenAudio (N : Native) (a : MixOpenAudio) :
    Releases (MixOpenAudio.dtor N a) [Call.Mix_CloseAudio] :=
  Releases_native N _ rfl (fun _ => rfl)

theorem Acquires_mix_load_wav_rw (N : Native) (src freeSrc : Int) :
    Acquires (mix_load_wav_rw N src freeSrc)
      (fun a l => a.chunk ≠ 0 ∧ l = [Call.Mix_FreeChunk a.chunk]) := by
  unfold mix_load_wav_rw
  refine Acquires_fallible N (Call.Mix_LoadWAV_RW src freeSrc) Call.Mix_GetError
    (fun r => r.ret = 0) _ (fun r => MixChunk.ofPtr r.ret) _
    rfl rfl (fun _ => rfl) ?_ ?_
  · intro r h
    simp [owes, h]
  · intro r h
    simp [owes, h, MixChunk.ofPtr]

theorem Releases_MixChunk (N : Native) (a : MixChunk) (h : a.chunk ≠ 0) :
    Releases (MixChunk.dtor N a) [Call.Mix_FreeChunk a.chunk] := by
  unfold MixChunk.dtor
  rw [if_pos h]
  exact Releases_native N _ rfl (fun _ => rfl)

theorem Acquires_ctorBody {α : Type} (body : M α) (unwind : M Unit)
    (G : α → List Call → Prop) (hu : ∀ t, (unwind t).2 = t) (hb : Acquires body G) :
    Acquires (ctorBody body unwind) G := by
  intro t
  obtain ⟨seg, h1, h2, h3⟩ := hb t
  cases hbt : body t with
  | mk o t1 =>
    rw [hbt] at h1 h3
    simp only at h1 h3
    subst h1
    cases o with
    | ok a => exact ⟨seg, by simp [ctorBody, hbt], h2, by simpa [ctorBody, hbt] using h3⟩
    | throw e => exact ⟨seg, by simp [ctorBody, hbt, hu], h2, by simpa [ctorBody, hbt] using h3⟩
    | running => exact absurd h3 (by simp)

theorem Acquires_Bmp (N : Native) (file : String) :
    Acquires (Bmp.ctor N file)
      (fun a l => a.surface.surface ≠ 0 ∧ l = [Call.SDL_FreeSurface a.surface.surface]) := by
  unfold Bmp.ctor
  refine Acquires_ctorBody _ _ _ (fun t => by simp [Surface.dtor, Surface.default, pure, M.pure])
    ?_
  refine Acquires_fallible N (Call.SDL_LoadBMP file) Call.SDL_GetError (fun r => r.ret = 0) _
    (fun r => ({ surface := Surface.default.set r.ret } : Bmp)) _
    rfl rfl (fun _ => rfl) ?_ ?_
  · intro r h
    simp [owes, h]
  · intro r h
    simp [owes, h, Surface.set]

theorem Releases_Bmp (N : Native) (a : Bmp) (h : a.surface.surface ≠ 0) :
    Releases (Bmp.dtor N a) [Call.SDL_FreeSurface a.surface.surface] := by
  unfold Bmp.dtor Surface.dtor
  rw [if_pos h]
  exact Releases_native N _ rfl (fun _ => rfl)

theorem Acquires_texture (N : Native) (renderer : Renderer) (surface : Int) :
    Acquires (sdl_create_texture_from_surface N renderer surface)
      (fun a l => a.texture ≠ 0 ∧ l = [Call.SDL_DestroyTexture a.texture]) := by
  unfold sdl_create_texture_from_surface
  refine Acquires_fallible N (Call.SDL_CreateTextureFromSurface renderer.get surface)
    Call.SDL_GetError (fun r => r.ret = 0) _ (fun r => Texture.ofPtr r.ret) _
    rfl rfl (fun _ => rfl) ?_ ?_
  · intro r h
    simp [owes, h]
  · intro r h
    simp [owes, h, Texture.ofPtr]

theorem Releases_Texture (N : Native) (a : Texture) (h : a.texture ≠ 0) :
    Releases (Texture.dtor N a) [Call.SDL_DestroyTexture a.texture] := by
  unfold Texture.dtor
  rw [if_pos h]
  exact Releases_native N _ rfl (fun _ => rfl)

theorem Nested_ttf_mixer {β : Type} (N : Native) (body : SDL2TTF → SDL2Mixer → M β)
    (P : List Call → Prop) (hb : ∀ a b, Nested (body a b) P) :
    Nested
      (withObject (SDL2TTF.ctor N) (SDL2TTF.dtor N) fun ttf =>
        withObject SDL2Mixer.ctor (SDL2Mixer.dtor N) fun mixer => body ttf mixer)
      (fun l => l = [] ∨ ∃ l2, P l2 ∧ l = Call.TTF_Quit :: Call.Mix_Quit :: l2) := by
  intro t
  by_cases h : (N t Call.TTF_Init).ret < 0
  · refine ⟨[{ call := Call.TTF_Init, reply := N t Call.TTF_Init },
      { call := Call.TTF_GetError,
        reply := N (t ++ [{ call := Call.TTF_Init, reply := N t Call.TTF_Init }])
          Call.TTF_GetError }], ?_, fun _ => ?_⟩
    · simp [withObject, SDL2TTF.ctor, bind, M.bind, native, M.throw, h]
    · simp [teardown, callsOf, isTeardown, Call.isRelease, acquired, owes, h]
  · obtain ⟨s1, hc, ha1, ht1⟩ : ∃ s1, SDL2TTF.ctor N t = (Outcome.ok {}, t ++ s1) ∧
        acquired s1 = [Call.TTF_Quit, Call.Mix_Quit] ∧ teardown s1 = [] :=
      ⟨[{ call := Call.TTF_Init, reply := N t Call.TTF_Init }],
        by simp [SDL2TTF.ctor, bind, M.bind, native, pure, M.pure, h],
        by simp [acquired, owes, h],
        by simp [teardown, callsOf, isTeardown, Call.isRelease]⟩
    obtain ⟨s2, h2, hB⟩ := hb {} {} (t ++ s1)
    cases hbt : body {} {} (t ++ s1) with
    | mk o t2 =>
      rw [hbt] at h2 hB
      simp only at h2 hB
      subst h2
      have hfin : ∀ u : List Ev, ∃ s3,
          (SDL2TTF.dtor N {} ((SDL2Mixer.dtor N {} u).2)).2 = u ++ s3 ∧
          acquired s3 = [] ∧ teardown s3 = [Call.Mix_Quit, Call.TTF_Quit] := by
        intro u
        refine ⟨[{ call := Call.Mix_Quit, reply := N u Call.Mix_Quit },
          { call := Call.TTF_Quit,
            reply := N (u ++ [{ call := Call.Mix_Quit, reply := N u Call.Mix_Quit }])
              Call.TTF_Quit }], ?_, ?_, ?_⟩
        · simp [SDL2TTF.dtor, SDL2Mixer.dtor, bind, M.bind, native, pure, M.pure]
        · simp [acquired, owes]
        · simp [teardown, callsOf, isTeardown]
      obtain ⟨s3, h3, ha3, ht3⟩ := hfin (t ++ s1 ++ s2)
      simp only [List.append_assoc] at h3
      cases o with
      | ok b =>
        refine ⟨s1 ++ s2 ++ s3, ?_, fun _ => ?_⟩
        · simp [withObject, hc, SDL2Mixer.ctor, pure, M.pure, hbt, h3]
        · have h' := hB (by simp)
          refine ⟨?_, Or.inr ⟨acquired s2, h'.2, ?_⟩⟩
          · simp [acquired_append, teardown_append, ha1, ht1, ha3, ht3, h'.1]
          · simp [acquired_append, ha1, ha3]
      | throw e =>
        refine ⟨s1 ++ s2 ++ s3, ?_, fun _ => ?_⟩
        · simp [withObject, hc, SDL2Mixer.ctor, pure, M.pure, hbt, h3]
        · have h' := hB (by simp)
          refine ⟨?_, Or.inr ⟨acquired s2, h'.2, ?_⟩⟩
          · simp [acquired_append, teardown_append, ha1, ht1, ha3, ht3, h'.1]
          · simp [acquired_append, ha1, ha3]
      | running =>
        refine ⟨s1 ++ s2, ?_, fun hr => ?_⟩
        · simp [withObject, hc, SDL2Mixer.ctor, pure, M.pure, hbt]
        · exact absurd (by simp [withObject, hc, SDL2Mixer.ctor, pure, M.pure, hbt]) hr

theorem Stage_nil (i : Nat) : Stage i [] :=
  ⟨0, 0, 0, 0, 0, 0, by simp⟩

theorem Nested_event_loop (N : Native) (K : Headers) (fuel : Nat) (renderer : Renderer) :
    Nested (event_loop N K fuel renderer) (Stage 7) := by
  unfold event_loop
  refine Nested_mono _ _ _
    (Nested_withObject _ _ _ _ (Stage 8) (Acquires_Bmp N _)
      (fun a l h => by
        obtain ⟨h1, rfl⟩ := h
        exact Releases_Bmp N a h1)
      (fun bmp => ?_)) ?_
  · refine Nested_mono _ _ _
      (Nested_withObject _ _ _ _ (fun l => l = []) (Acquires_texture N _ _)
        (fun a l h => by
          obtain ⟨h1, rfl⟩ := h
          exact Releases_Texture N a h1)
        (fun tex => Nested_of_Quiet _ _ (Quiet_frames N K renderer tex fuel fuel) rfl)) ?_
    rintro l (rfl | ⟨a, l1, l2, ⟨-, rfl⟩, rfl, rfl⟩)
    · exact Stage_nil 8
    · exact ⟨0, 0, 0, 0, a.texture, 1, rfl⟩
  · rintro l (rfl | ⟨a, l1, l2, ⟨-, rfl⟩, ⟨w, r, c, s, x, n, rfl⟩, rfl⟩)
    · exact Stage_nil 7
    · exact ⟨w, r, c, a.surface.surface, x, n + 1, rfl⟩

theorem Nested_mainBody (N : Native) (K : Headers) (fuel : Nat) :
    Nested (mainBody N K fuel) (Stage 0) := by
  unfold mainBody
  refine Nested_mono _ _ _
    (Nested_withObject _ _ _ _ (Stage 1) (Acquires_SDL2Env N _)
      (fun a l h => by
        subst h
        exact Releases_SDL2Env N a)
      (fun _ => ?_)) ?_
  · refine Nested_mono _ _ _ (Nested_ttf_mixer N _ (Stage 3) (fun _ _ => ?_)) ?_
    · refine Nested_mono _ _ _
        (Nested_withObject _ _ _ _ (Stage 4) (Acquires_Window N _ _ _ _ _ _)
          (fun a l h => by
            obtain ⟨h1, rfl⟩ := h
            exact Releases_Window N a h1)
          (fun window => ?_)) ?_
      · refine Nested_mono _ _ _
          (Nested_withObject _ _ _ _ (Stage 5) (Acquires_Renderer N _ _ _)
            (fun a l h => by
              obtain ⟨h1, rfl⟩ := h
              exact Releases_Renderer N a h1)
            (fun renderer => ?_)) ?_
        · refine Nested_mono _ _ _
            (Nested_withObject _ _ _ _ (Stage 6) (Acquires_MixOpenAudio N _ _ _ _)
              (fun a l h => by
                subst h
                exact Releases_MixOpenAudio N a)
              (fun _ => ?_)) ?_
          · refine Nested_bind_left _ _ _
              (Quiet_fallible N _ _ (fun r => r.ret = 0) _ (fun r => r.ret)
                (Quiet_native N _ (fun _ => rfl) rfl) (Quiet_SDL_GetError N))
              (Stage_nil 6) (fun ops => ?_)
            refine Nested_mono _ _ _
              (Nested_withObject _ _ _ _ (Stage 7) (Acquires_mix_load_wav_rw N _ _)
                (fun a l h => by
                  obtain ⟨h1, rfl⟩ := h
                  exact Releases_MixChunk N a h1)
                (fun chunk => ?_)) ?_
            · refine Nested_bind_left _ _ _
                (Quiet_fallible N _ _ (fun r => r.ret < 0) _ (fun _ => ())
                  (Quiet_native N _ (fun _ => rfl) rfl) (Quiet_Mix_GetError N))
                (Stage_nil 7) (fun _ => Nested_event_loop N K fuel renderer)
            · rintro l (rfl | ⟨a, l1, l2, ⟨-, rfl⟩, ⟨w, r, c, s, x, n, rfl⟩, rfl⟩)
              · exact Stage_nil 6
              · exact ⟨w, r, a.chunk, s, x, n + 1, rfl⟩
          · rintro l (rfl | ⟨a, l1, l2, rfl, ⟨w, r, c, s, x, n, rfl⟩, rfl⟩)
            · exact Stage_nil 5
            · exact ⟨w, r, c, s, x, n + 1, rfl⟩
        · rintro l (rfl | ⟨a, l1, l2, ⟨-, rfl⟩, ⟨w, r, c, s, x, n, rfl⟩, rfl⟩)
          · exact Stage_nil 4
          · exact ⟨w, a.renderer, c, s, x, n + 1, rfl⟩
      · rintro l (rfl | ⟨a, l1, l2, ⟨-, rfl⟩, ⟨w, r, c, s, x, n, rfl⟩, rfl⟩)
        · exact Stage_nil 3
        · exact ⟨a.window, r, c, s, x, n + 1, rfl⟩
    · rintro l (rfl | ⟨l2, ⟨w, r, c, s, x, n, rfl⟩, rfl⟩)
      · exact Stage_nil 1
      · exact ⟨w, r, c, s, x, n + 2, rfl⟩
  · rintro l (rfl | ⟨a, l1, l2, rfl, ⟨w, r, c, s, x, n, rfl⟩, rfl⟩)
    · exact Stage_nil 0
    · exact ⟨w, r, c, s, x, n + 1, rfl⟩

theorem Nested_main (N : Native) (K : Headers) (fuel : Nat) :
    Nested (main N K fuel) (Stage 0) := by
  unfold main
  refine Nested_bind_right _ _ _ (Nested_tryCatch _ _ _ (Nested_mainBody N K fuel) (fun e => ?_))
    (fun _ => Quiet_pure _)
  exact Quiet_bind _ _ (Quiet_native N _ (fun _ => rfl) rfl)
    (fun _ => Quiet_bind _ _ (Quiet_native N _ (fun _ => rfl) rfl) (fun _ => Quiet_pure _))

/-- C10: whenever `main` ends, by the quit event or because any wrapped call
failed at any point, the release and shutdown calls it made are exactly the
guards and handles it had acquired, in the reverse order of acquisition; and
what it had acquired is an initial part of the construction order (the three
guards, the window, the renderer, the audio device, the chunk, the bitmap
surface, the texture).  So the texture is destroyed before the renderer, the
renderer before the window, the chunk before `Mix_CloseAudio`, every handle
before `Mix_Quit`, `TTF_Quit` and `SDL_Quit`, and `SDL_Quit` is the last of
these calls. -/
theorem C10_teardown_reverses_acquisition (N : Native) (K : Headers) (fuel : Nat)
    (hdone : (main N K fuel []).1 ≠ Outcome.running) :
    teardown (traceOf (main N K fuel) []) = (acquired (traceOf (main N K fuel) [])).reverse ∧
    (∃ w r c s x n,
      acquired (traceOf (main N K fuel) []) = (constructionOrder w r c s x).take n ∧
      teardown (traceOf (main N K fuel) []) = ((constructionOrder w r c s x).take n).reverse) ∧
    (acquired (traceOf (main N K fuel) []) ≠ [] →
      (teardown (traceOf (main N K fuel) [])).getLast? = some Call.SDL_Quit) := by
  obtain ⟨seg, h1, h⟩ := Nested_main N K fuel []
  obtain ⟨h2, w, r, c, s, x, n, h3⟩ := h hdone
  simp only [List.nil_append] at h1
  simp only [List.drop_zero] at h3
  have e : traceOf (main N K fuel) [] = seg := h1
  rw [e]
  refine ⟨h2, ⟨w, r, c, s, x, n, h3, by rw [h2, h3]⟩, fun hne => ?_⟩
  rw [h2, h3]
  rw [h3] at hne
  cases n with
  | zero => simp at hne
  | succ n => simp [constructionOrder, List.getLast?_reverse]

/-- C10, an instance: with the sample native layer every acquisition succeeds
and the first poll returns the quit event; `main` returns, and the teardown is
the texture, the bitmap surface, the chunk, the audio device, the renderer,
the window, and then `Mix_Quit`, `TTF_Quit`, `SDL_Quit`. -/
theorem C10_teardown_reverses_acquisition_witness :
    (main Native.sample Headers.sample 3 []).1 ≠ Outcome.running ∧
    teardown (traceOf (main Native.sample Headers.sample 3) []) =
      [Call.SDL_DestroyTexture 106, Call.SDL_FreeSurface 105, Call.Mix_FreeChunk 104,
        Call.Mix_CloseAudio, Call.SDL_DestroyRenderer 102, Call.SDL_DestroyWindow 101,
        Call.Mix_Quit, Call.TTF_Quit, Call.SDL_Quit] ∧
    teardown (traceOf (main Native.sample Headers.sample 3) []) =
      (acquired (traceOf (main Native.sample Headers.sample 3) [])).reverse :=
  ⟨by decide, by decide,
    (C10_teardown_reverses_acquisition Native.sample Headers.sample 3 (by decide)).1⟩

end usages

/-! ## Theorems: the frame budget -/

namespace usages
open sdl2

theorem u32_lt (i : Int) : u32 i < 4294967296 := by
  unfold u32
  have h1 : 0 ≤ i % 4294967296 := Int.emod_nonneg _ (by norm_num)
  have h2 : i % 4294967296 < 4294967296 := Int.emod_lt_of_pos _ (by norm_num)
  omega

theorem u32_cast (i : Int) : ((u32 i : Nat) : Int) = i % 4294967296 := by
  unfold u32
  exact Int.toNat_of_nonneg (Int.emod_nonneg _ (by norm_num))

theorem M.bind_assoc {α β γ : Type} (m : M α) (f : α → M β) (g : β → M γ) :
    M.bind (M.bind m f) g = M.bind m (fun a => M.bind (f a) g) := by
  funext t
  simp only [M.bind]
  cases h : m t with
  | mk o t1 => cases o <;> simp

theorem M.pure_bind {α β : Type} (a : α) (f : α → M β) : M.bind (M.pure a) f = f a := by
  funext t
  simp [M.bind, M.pure]

theorem M.ite_bind {α β : Type} (c : Prop) [Decidable c] (m1 m2 : M α) (f : α → M β) :
    M.bind (if c then m1 else m2) f = if c then M.bind m1 f else M.bind m2 f := by
  split_ifs <;> rfl

theorem frames_succ (N : Native) (K : Headers) (renderer : Renderer) (bmpTexture : Texture)
    (pollFuel fuel : Nat) :
    frames N K renderer bmpTexture pollFuel (fuel + 1) =
      (do
        let b ← native N Call.SDL_GetTicks
        let quit ← poll_events N K pollFuel
        if quit then
          pure ()
        else
          render_bmp_with_viewport N renderer bmpTexture
          sleep_remainder N (u32 b.ret)
          frames N K renderer bmpTexture pollFuel fuel) := by
  simp only [frames, sleep_remainder, bind, pure, M.bind_assoc, M.pure_bind, M.ite_bind]

/-- C14: the frame budget `FRAME_MILLI_SECONDS` is 1000 / 60 = 16.  For tick
readings `begin_` and `current` below 2^32 the frame cost is
`(current - begin_) mod 2^32`: the difference when the counter did not wrap,
and `current + 2^32 - begin_` when it wrapped between the two readings.  When
the cost is below 16 the loop sleeps `16 - cost`, a value from 1 to 16; when
the cost is 16 or more it does not sleep.  The end of an iteration makes
exactly these calls: the second reading, then the sleep if there is one; and
an iteration of `frames` is the first reading, the polls, the frame, and that
end of the iteration. -/
theorem C14_frame_budget (N : Native) (K : Headers) (renderer : Renderer)
    (bmpTexture : Texture) (pollFuel fuel : Nat) (t : List Ev) (begin_ current : Nat)
    (hb : begin_ < 4294967296) (hc : current < 4294967296) :
    FRAME_MILLI_SECONDS = 16 ∧
    ((frameCost begin_ current : Nat) : Int) = ((current : Int) - (begin_ : Int)) % 4294967296 ∧
    (current < begin_ → frameCost begin_ current = current + 4294967296 - begin_) ∧
    (begin_ ≤ current → frameCost begin_ current = current - begin_) ∧
    (frameCost begin_ current < 16 →
      frameSleep (frameCost begin_ current) = some (16 - frameCost begin_ current) ∧
      1 ≤ 16 - frameCost begin_ current ∧ 16 - frameCost begin_ current ≤ 16) ∧
    (16 ≤ frameCost begin_ current → frameSleep (frameCost begin_ current) = none) ∧
    newCalls (sleep_remainder N begin_) t =
      Call.SDL_GetTicks ::
        ((frameSleep (frameCost begin_ (u32 (N t Call.SDL_GetTicks).ret))).map
          Call.SDL_Delay).toList ∧
    frames N K renderer bmpTexture pollFuel (fuel + 1) =
      (do
        let b ← native N Call.SDL_GetTicks
        let quit ← poll_events N K pollFuel
        if quit then
          pure ()
        else
          render_bmp_with_viewport N renderer bmpTexture
          sleep_remainder N (u32 b.ret)
          frames N K renderer bmpTexture pollFuel fuel) := by
  have hF : FRAME_MILLI_SECONDS = 16 := by decide
  have hcast := u32_cast ((current : Int) - (begin_ : Int))
  have hcost : ((frameCost begin_ current : Nat) : Int) =
      ((current : Int) - (begin_ : Int)) % 4294967296 := hcast
  refine ⟨hF, hcost, ?_, ?_, ?_, ?_, ?_, frames_succ N K renderer bmpTexture pollFuel fuel⟩
  · intro h
    omega
  · intro h
    omega
  · intro h
    have h2 := u32_cast ((FRAME_MILLI_SECONDS : Int) - (frameCost begin_ current : Int))
    refine ⟨?_, by omega, by omega⟩
    unfold frameSleep
    rw [if_pos (by omega)]
    rw [hF] at h2 ⊢
    congr 1
    omega
  · intro h
    unfold frameSleep
    rw [if_neg (by omega)]
  · unfold sleep_remainder frameSleep frameCost
    simp only [newCalls, traceOf, callsOf, bind, M.bind, native, pure, M.pure]
    split_ifs <;> simp [M.bind, native, M.pure]

/-- C14, an instance: the first reading is 4294967291, the counter wraps, and
the second reading is 3; the cost is 8 and the loop sleeps 8. -/
theorem C14_frame_budget_witness :
    (4294967291 : Nat) < 4294967296 ∧ (3 : Nat) < 4294967296 ∧
    frameCost 4294967291 3 = 8 ∧ frameSleep (frameCost 4294967291 3) = some 8 := by
  have h := C14_frame_budget Native.sample Headers.sample { renderer := 102 }
    { texture := 106 } 1 0 [] 4294967291 3 (by norm_num) (by norm_num)
  have hc : frameCost 4294967291 3 = 8 := (h.2.2.1 (by norm_num)).trans (by norm_num)
  have h5 := (h.2.2.2.2.1 (by rw [hc]; norm_num)).1
  rw [hc] at h5 ⊢
  exact ⟨by norm_num, by norm_num, rfl, h5⟩

end usages

/-! ## Theorems: polls come before frames -/

namespace usages
open sdl2

theorem watchAll_append (K : Headers) (ph : Phase) (s1 s2 : List Ev) :
    watchAll K ph (s1 ++ s2) =
      match watchAll K ph s1 with
      | some p => watchAll K p s2
      | none => none := by
  induction s1 generalizing ph with
  | nil => simp [watchAll]
  | cons e s1 ih =>
    simp only [List.cons_append, watchAll]
    cases watch K ph e with
    | none => rfl
    | some p => exact ih p

theorem watchAll_returned (K : Headers) (s : List Ev) (p : Phase)
    (h : watchAll K Phase.returned s = some p) : s = [] := by
  cases s with
  | nil => rfl
  | cons e s => simp [watchAll, watch] at h

theorem Moves_pure (K : Headers) {α : Type} (a : α) (ph : Phase) :
    Moves K (pure a : M α) ph (fun o p => o = Outcome.ok a ∧ p = ph) :=
  fun t => ⟨[], ph, by simp [pure, M.pure], rfl, by simp [pure, M.pure]⟩

theorem Moves_stall (K : Headers) {α : Type} (ph : Phase) :
    Moves K (M.stall : M α) ph (fun o p => o = Outcome.running ∧ p = ph) :=
  fun t => ⟨[], ph, by simp [M.stall], rfl, by simp [M.stall]⟩

theorem Moves_throw (K : Headers) {α : Type} (e : SDL2Exception) (ph : Phase) :
    Moves K (M.throw e : M α) ph (fun o p => o = Outcome.throw e ∧ p = ph) :=
  fun t => ⟨[], ph, by simp [M.throw], rfl, by simp [M.throw]⟩

theorem Moves_mono (K : Headers) {α : Type} (m : M α) (ph : Phase)
    (P Q : Outcome α → Phase → Prop) (hm : Moves K m ph P) (hPQ : ∀ o p, P o p → Q o p) :
    Moves K m ph Q := by
  intro t
  obtain ⟨seg, p, h1, h2, h3⟩ := hm t
  exact ⟨seg, p, h1, h2, hPQ _ _ h3⟩

theorem Moves_native (K : Headers) (N : Native) (c : Call) (ph : Phase) (g : Reply → Phase)
    (h : ∀ r, watch K ph { call := c, reply := r } = some (g r)) :
    Moves K (native N c) ph (fun o p => ∃ r, o = Outcome.ok r ∧ p = g r) :=
  fun t => ⟨[{ call := c, reply := N t c }], g (N t c), by simp [native],
    by simp [watchAll, h], ⟨N t c, by simp [native], rfl⟩⟩

theorem Moves_bind (K : Headers) {α β : Type} (m : M α) (f : α → M β) (ph : Phase)
    (P : Outcome α → Phase → Prop) (Q : Outcome β → Phase → Prop) (hm : Moves K m ph P)
    (hf : ∀ a p, P (Outcome.ok a) p → Moves K (f a) p Q)
    (ht : ∀ e p, P (Outcome.throw e) p → Q (Outcome.throw e) p)
    (hr : ∀ p, P Outcome.running p → Q Outcome.running p) :
    Moves K (m >>= f) ph Q := by
  intro t
  obtain ⟨s1, p1, h1, hw1, hP⟩ := hm t
  cases hmt : m t with
  | mk o t1 =>
    rw [hmt] at h1 hP
    simp only at h1 hP
    subst h1
    cases o with
    | ok a =>
      obtain ⟨s2, p2, h2, hw2, hQ⟩ := hf a p1 hP (t ++ s1)
      refine ⟨s1 ++ s2, p2, by simp [bind, M.bind, hmt, h2], ?_, ?_⟩
      · rw [watchAll_append, hw1]
        exact hw2
      · simpa [bind, M.bind, hmt] using hQ
    | throw e => exact ⟨s1, p1, by simp [bind, M.bind, hmt], hw1, by
        simpa [bind, M.bind, hmt] using ht e p1 hP⟩
    | running => exact ⟨s1, p1, by simp [bind, M.bind, hmt], hw1, by
        simpa [bind, M.bind, hmt] using hr p1 hP⟩

theorem Moves_render_call (K : Headers) (N : Native) (c : Call) (u : String)
    (hc : isRenderCall c = true) (hp : isPresent c = false) (hq : isPoll c = false)
    {α : Type} (f : Reply → α) :
    Moves K
      (do
        let r ← native N c
        if r.ret < 0 then
          let e ← native N Call.SDL_GetError
          M.throw (SDL2Exception.ofUser u e.str)
        else
          pure (f r)) Phase.drained
      (fun o p => p = Phase.drained ∧ o ≠ Outcome.running) := by
  refine Moves_bind K _ _ _ _ _
    (Moves_native K N c Phase.drained (fun _ => Phase.drained) (fun r => by
      simp [watch, hc, hp, hq]))
    (fun r p hr => ?_) (fun e p h => by simp at h) (fun p h => by simp at h)
  obtain ⟨_, -, rfl⟩ := hr
  split_ifs
  · refine Moves_bind K _ _ _ _ _
      (Moves_native K N Call.SDL_GetError Phase.drained (fun _ => Phase.drained) (fun r => by
        simp [watch, isPoll, isRenderCall]))
      (fun r p hr => ?_) (fun e p h => by simp at h) (fun p h => by simp at h)
    obtain ⟨_, -, rfl⟩ := hr
    exact Moves_mono K _ _ _ _ (Moves_throw K _ _) (fun o p h => by simp [h.1, h.2])
  · exact Moves_mono K _ _ _ _ (Moves_pure K _ _) (fun o p h => by simp [h.1, h.2])

theorem Moves_render_bmp_with_viewport (K : Headers) (N : Native) (renderer : Renderer)
    (texture : Texture) :
    Moves K (render_bmp_with_viewport N renderer texture) Phase.drained
      (fun o p => (o = Outcome.ok () ∧ p = Phase.presented) ∨
        (∃ e, o = Outcome.throw e ∧ p = Phase.drained)) := by
  have step : ∀ {α : Type} (m : M α) (f : α → M Unit),
      Moves K m Phase.drained (fun o p => p = Phase.drained ∧ o ≠ Outcome.running) →
      (∀ a, Moves K (f a) Phase.drained
        (fun o p => (o = Outcome.ok () ∧ p = Phase.presented) ∨
          (∃ e, o = Outcome.throw e ∧ p = Phase.drained))) →
      Moves K (m >>= f) Phase.drained
        (fun o p => (o = Outcome.ok () ∧ p = Phase.presented) ∨
          (∃ e, o = Outcome.throw e ∧ p = Phase.drained)) := by
    intro α m f hm hf
    refine Moves_bind K _ _ _ _ _ hm (fun a p h => ?_) (fun e p h => Or.inr ⟨e, rfl, h.1⟩)
      (fun p h => absurd rfl h.2)
    rw [h.1]
    exact hf a
  unfold render_bmp_with_viewport
  refine step _ _ (Moves_render_call K N _ _ (by rfl) (by rfl) (by rfl) _) (fun _ => ?_)
  refine step _ _ (Moves_render_call K N _ _ (by rfl) (by rfl) (by rfl) _) (fun _ => ?_)
  refine step _ _ (Moves_render_call K N _ _ (by rfl) (by rfl) (by rfl) _) (fun out => ?_)
  refine step _ _ (Moves_render_call K N _ _ (by rfl) (by rfl) (by rfl) _) (fun _ => ?_)
  refine step _ _ (Moves_render_call K N _ _ (by rfl) (by rfl) (by rfl) _) (fun _ => ?_)
  refine Moves_bind K _ _ _ _ _
    (Moves_native K N _ Phase.drained (fun _ => Phase.presented) (fun r => by
      simp [watch, isPoll, isRenderCall, isPresent]))
    (fun r p hr => ?_) (fun e p h => by simp at h) (fun p h => by simp at h)
  obtain ⟨_, -, rfl⟩ := hr
  exact Moves_mono K _ _ _ _ (Moves_pure K _ _) (fun o p h => Or.inl ⟨h.1, h.2⟩)

theorem Moves_poll_events (K : Headers) (N : Native) (fuel : Nat) (ph : Phase)
    (hph : ph ≠ Phase.returned) :
    Moves K (poll_events N K fuel) ph
      (fun o p => (o = Outcome.ok true ∧ p = Phase.returned) ∨
        (o = Outcome.ok false ∧ p = Phase.drained) ∨
        (o = Outcome.running ∧ p ≠ Phase.returned)) := by
  induction fuel generalizing ph with
  | zero =>
    exact Moves_mono K _ _ _ _ (Moves_stall K ph) (fun o p h => Or.inr (Or.inr ⟨h.1, by
      rw [h.2]; exact hph⟩))
  | succ fuel ih =>
    unfold poll_events
    refine Moves_bind K _ _ _ _ _
      (Moves_native K N Call.SDL_PollEvent ph
        (fun r => if r.ret = 0 then Phase.drained
          else if u32 (r.out.getD 0 0) = K.SDL_QUIT then Phase.returned else Phase.draining)
        (fun r => by
          simp only [watch, if_neg hph, isPoll, if_true]
          split_ifs <;> rfl))
      (fun r p hr => ?_) (fun e p h => by simp at h) (fun p h => by simp at h)
    obtain ⟨r', h1, rfl⟩ := hr
    simp only [Outcome.ok.injEq] at h1
    subst h1
    by_cases h0 : r.ret = 0
    · simp only [h0, ne_eq, not_true_eq_false, if_false, if_true]
      exact Moves_mono K _ _ _ _ (Moves_pure K _ _) (fun o p h => Or.inr (Or.inl ⟨h.1, h.2⟩))
    · simp only [h0, ne_eq, not_false_eq_true, if_true, if_false]
      by_cases hq : u32 (r.out.getD 0 0) = K.SDL_QUIT
      · simp only [hq, if_true]
        exact Moves_mono K _ _ _ _ (Moves_pure K _ _) (fun o p h => Or.inl ⟨h.1, h.2⟩)
      · simp only [hq, if_false]
        exact ih Phase.draining (by decide)

theorem Moves_sleep_remainder (K : Headers) (N : Native) (begin_ : Nat) (ph : Phase)
    (hph : ph ≠ Phase.returned) :
    Moves K (sleep_remainder N begin_) ph (fun o p => o = Outcome.ok () ∧ p = ph) := by
  unfold sleep_remainder
  refine Moves_bind K _ _ _ _ _
    (Moves_native K N Call.SDL_GetTicks ph (fun _ => ph) (fun r => by
      simp [watch, hph, isPoll, isRenderCall]))
    (fun r p hr => ?_) (fun e p h => by simp at h) (fun p h => by simp at h)
  obtain ⟨_, -, hp⟩ := hr
  rw [hp]
  dsimp only
  split_ifs
  · refine Moves_bind K _ _ _ _ _
      (Moves_native K N _ ph (fun _ => ph) (fun r => by
        simp [watch, hph, isPoll, isRenderCall]))
      (fun r p hr => ?_) (fun e p h => by simp at h) (fun p h => by simp at h)
    obtain ⟨_, -, hp⟩ := hr
    rw [hp]
    exact Moves_pure K _ _
  · exact Moves_pure K _ _

theorem Moves_frames (K : Headers) (N : Native) (renderer : Renderer) (bmpTexture : Texture)
    (pollFuel fuel : Nat) (ph : Phase) (hph : ph ≠ Phase.returned) :
    Moves K (frames N K renderer bmpTexture pollFuel fuel) ph
      (fun o p => (o = Outcome.ok () ∧ p = Phase.returned) ∨
        (∃ e, o = Outcome.throw e ∧ p = Phase.drained) ∨
        (o = Outcome.running ∧ p ≠ Phase.returned)) := by
  induction fuel generalizing ph with
  | zero =>
    exact Moves_mono K _ _ _ _ (Moves_stall K ph) (fun o p h => Or.inr (Or.inr ⟨h.1, by
      rw [h.2]; exact hph⟩))
  | succ fuel ih =>
    rw [frames_succ]
    refine Moves_bind K _ _ _ _ _
      (Moves_native K N Call.SDL_GetTicks ph (fun _ => ph) (fun r => by
        simp [watch, hph, isPoll, isRenderCall]))
      (fun b p hr => ?_) (fun e p h => by simp at h) (fun p h => by simp at h)
    obtain ⟨_, -, hp⟩ := hr
    rw [hp]
    refine Moves_bind K _ _ _ _ _ (Moves_poll_events K N pollFuel ph hph)
      (fun quit p hq => ?_) (fun e p h => by simp at h)
      (fun p h => by
        rcases h with h | h | h
        · simp at h
        · simp at h
        · exact Or.inr (Or.inr ⟨rfl, h.2⟩))
    rcases hq with ⟨h1, rfl⟩ | ⟨h1, rfl⟩ | ⟨h1, -⟩
    · simp only [Outcome.ok.injEq] at h1
      subst h1
      simp only [if_true]
      exact Moves_mono K _ _ _ _ (Moves_pure K _ _) (fun o p h => Or.inl ⟨h.1, h.2⟩)
    · simp only [Outcome.ok.injEq] at h1
      subst h1
      simp only [Bool.false_eq_true, if_false]
      refine Moves_bind K _ _ _ _ _ (Moves_render_bmp_with_viewport K N renderer bmpTexture)
        (fun _ p h => ?_)
        (fun e p h => by
          rcases h with h | ⟨e', h, rfl⟩
          · simp at h
          · exact Or.inr (Or.inl ⟨e, rfl, rfl⟩))
        (fun p h => by
          rcases h with h | ⟨e', h, -⟩
          · simp at h
          · simp at h)
      rcases h with ⟨-, rfl⟩ | ⟨e', h, -⟩
      · refine Moves_bind K _ _ _ _ _
          (Moves_sleep_remainder K N _ Phase.presented (by decide))
          (fun _ p h => ?_) (fun e p h => by simp at h) (fun p h => by simp at h)
        rw [h.2]
        exact ih Phase.presented (by decide)
      · simp at h
    · simp at h1

theorem isPoll_of_isRenderCall (c : Call) (h : isRenderCall c = true) : isPoll c = false := by
  cases c <;> simp [isRenderCall, isPoll] at h ⊢

theorem isRenderCall_of_isPresent (c : Call) (h : isPresent c = true) :
    isRenderCall c = true := by
  cases c <;> simp [isRenderCall, isPresent] at h ⊢

theorem watchAll_before_render (K : Headers) (ph0 ph1 : Phase) (pre post : List Ev) (e : Ev)
    (h : watchAll K ph0 (pre ++ e :: post) = some ph1) (he : isRenderCall e.call = true) :
    watchAll K ph0 pre = some Phase.drained := by
  rw [watchAll_append] at h
  cases hp : watchAll K ph0 pre with
  | none => simp [hp] at h
  | some p =>
    simp only [hp, watchAll] at h
    have hpoll := isPoll_of_isRenderCall _ he
    by_cases hd : p = Phase.drained
    · rw [hd]
    · exfalso
      by_cases hr : p = Phase.returned
      · simp [watch, hr] at h
      · simp [watch, hr, hd, he, hpoll] at h

theorem watchAll_after_quit (K : Headers) (ph0 ph1 : Phase) (pre post : List Ev) (q : Ev)
    (h : watchAll K ph0 (pre ++ q :: post) = some ph1) (hq : isQuitPoll K q = true) :
    post = [] ∧ ph1 = Phase.returned := by
  rw [watchAll_append] at h
  simp only [isQuitPoll, Bool.and_eq_true, decide_eq_true_eq] at hq
  obtain ⟨⟨hq1, hq2⟩, hq3⟩ := hq
  cases hp : watchAll K ph0 pre with
  | none => simp [hp] at h
  | some p =>
    simp only [hp, watchAll] at h
    by_cases hr : p = Phase.returned
    · simp [watch, hr] at h
    · have hw : watch K p q = some Phase.returned := by
        simp only [watch, if_neg hr, hq1, if_true, if_neg hq2, hq3]
      simp only [hw] at h
      have hpost := watchAll_returned K post ph1 h
      subst hpost
      simp only [watchAll, Option.some.injEq] at h
      exact ⟨rfl, h.symm⟩

theorem watchAll_since_empty (K : Headers) (pre : List Ev) (ph0 : Phase)
    (h : watchAll K ph0 pre = some Phase.drained) :
    (ph0 = Phase.drained ∧ ∀ x ∈ pre, isPoll x.call = false ∧ isPresent x.call = false) ∨
    ∃ p1 ep p2, pre = p1 ++ ep :: p2 ∧ isEmptyPoll ep = true ∧
      ∀ x ∈ p2, isPoll x.call = false ∧ isPresent x.call = false := by
  induction pre generalizing ph0 with
  | nil =>
    simp only [watchAll, Option.some.injEq] at h
    exact Or.inl ⟨h, by simp⟩
  | cons e rest ih =>
    simp only [watchAll] at h
    cases hw : watch K ph0 e with
    | none => simp [hw] at h
    | some p =>
      simp only [hw] at h
      rcases ih p h with ⟨hp, hclean⟩ | ⟨p1, ep, p2, hsplit, hep, hclean⟩
      · subst hp
        by_cases hpoll : isPoll e.call = true
        · refine Or.inr ⟨[], e, rest, rfl, ?_, hclean⟩
          by_cases hr : ph0 = Phase.returned
          · simp [watch, hr] at hw
          · simp only [watch, if_neg hr, hpoll, if_true] at hw
            split_ifs at hw with h0 h1
            · simp [isEmptyPoll, hpoll, h0]
            · simp at hw
            · simp at hw
        · have hpoll' : isPoll e.call = false := by simpa using hpoll
          by_cases hpres : isPresent e.call = true
          · exfalso
            have hrc := isRenderCall_of_isPresent _ hpres
            by_cases hr : ph0 = Phase.returned
            · simp [watch, hr] at hw
            · have hw' : watch K ph0 e =
                  if ph0 = Phase.drained then some Phase.presented else none := by
                simp [watch, hr, hpoll', hrc, hpres]
              rw [hw'] at hw
              split_ifs at hw
              simp at hw
          · have hpres' : isPresent e.call = false := by simpa using hpres
            have hph : ph0 = Phase.drained := by
              by_cases hr : ph0 = Phase.returned
              · simp [watch, hr] at hw
              · simp only [watch, if_neg hr, hpoll', hpres'] at hw
                split_ifs at hw with h1 h2 <;> simp_all
            refine Or.inl ⟨hph, ?_⟩
            intro x hx
            rcases List.mem_cons.mp hx with rfl | hx
            · exact ⟨hpoll', hpres'⟩
            · exact hclean x hx
      · exact Or.inr ⟨e :: p1, ep, p2, by simp [hsplit], hep, hclean⟩

theorem watchAll_returned_last (K : Headers) (seg : List Ev) (ph0 : Phase)
    (h : watchAll K ph0 seg = some Phase.returned) (h0 : ph0 ≠ Phase.returned) :
    ∃ pre q, seg = pre ++ [q] ∧ isQuitPoll K q = true := by
  induction seg generalizing ph0 with
  | nil =>
    simp only [watchAll, Option.some.injEq] at h
    exact absurd h h0
  | cons e rest ih =>
    simp only [watchAll] at h
    cases hw : watch K ph0 e with
    | none => simp [hw] at h
    | some p =>
      simp only [hw] at h
      by_cases hp : p = Phase.returned
      · subst hp
        have hrest := watchAll_returned K rest _ h
        subst hrest
        refine ⟨[], e, rfl, ?_⟩
        simp only [watch, if_neg h0] at hw
        split_ifs at hw with h1 h2 h3 h4 h5 h6 <;> simp_all [isQuitPoll]
      · obtain ⟨pre, q, hsplit, hq⟩ := ih p h hp
        exact ⟨e :: pre, q, by simp [hsplit], hq⟩

/-- C13: along any run of the driver loop `frames`, from any earlier trace
and with any fuel, every call that renders a frame comes after a poll that
reported an empty queue, with no other poll and no presented frame in between
(each frame follows a completed drain of the queue), and no poll before it
returned a quit event.  A poll that returns a quit event is the last call of
the loop, which then returns; and the loop returns only that way. -/
theorem C13_poll_before_render (N : Native) (K : Headers) (renderer : Renderer)
    (bmpTexture : Texture) (pollFuel fuel : Nat) (t : List Ev) :
    ∃ seg, (frames N K renderer bmpTexture pollFuel fuel t).2 = t ++ seg ∧
      (∀ pre e post, seg = pre ++ e :: post → isRenderCall e.call = true →
        (∃ p1 ep p2, pre = p1 ++ ep :: p2 ∧ isEmptyPoll ep = true ∧
          ∀ x ∈ p2, isPoll x.call = false ∧ isPresent x.call = false) ∧
        ∀ x ∈ pre, isQuitPoll K x = false) ∧
      (∀ pre q post, seg = pre ++ q :: post → isQuitPoll K q = true →
        post = [] ∧ (frames N K renderer bmpTexture pollFuel fuel t).1 = Outcome.ok ()) ∧
      ((frames N K renderer bmpTexture pollFuel fuel t).1 = Outcome.ok () →
        ∃ pre q, seg = pre ++ [q] ∧ isQuitPoll K q = true) := by
  obtain ⟨seg, ph1, h1, hw, hP⟩ :=
    Moves_frames K N renderer bmpTexture pollFuel fuel Phase.draining (by decide) t
  have hquit : ∀ pre q post, seg = pre ++ q :: post → isQuitPoll K q = true →
      post = [] ∧ ph1 = Phase.returned := by
    intro pre q post hs hq
    rw [hs] at hw
    exact watchAll_after_quit K _ _ pre post q hw hq
  refine ⟨seg, h1, ?_, ?_, ?_⟩
  · intro pre e post hs he
    have hpre : watchAll K Phase.draining pre = some Phase.drained := by
      rw [hs] at hw
      exact watchAll_before_render K _ _ pre post e hw he
    refine ⟨?_, ?_⟩
    · rcases watchAll_since_empty K pre Phase.draining hpre with ⟨h, -⟩ | h
      · exact absurd h (by decide)
      · exact h
    · intro x hx
      by_contra hxq
      have hxq' : isQuitPoll K x = true := by simpa using hxq
      obtain ⟨a, b, hab⟩ := List.append_of_mem hx
      have := (hquit a x (b ++ e :: post) (by rw [hs, hab]; simp) hxq').1
      simp at this
  · intro pre q post hs hq
    obtain ⟨hpost, hph⟩ := hquit pre q post hs hq
    refine ⟨hpost, ?_⟩
    rcases hP with ⟨h, -⟩ | ⟨e, -, h⟩ | ⟨-, h⟩
    · exact h
    · rw [hph] at h
      exact absurd h (by decide)
    · exact absurd hph h
  · intro hok
    rcases hP with ⟨-, h⟩ | ⟨e, h, -⟩ | ⟨h, -⟩
    · rw [h] at hw
      exact watchAll_returned_last K seg Phase.draining hw (by decide)
    · rw [hok] at h
      simp at h
    · rw [hok] at h
      simp at h

end usages

/-! ## Theorems: the exit status of `main` -/

namespace usages
open sdl2

theorem Composed_pure {α : Type} (a : α) : Composed (pure a : M α) := by
  intro t e h
  simp [pure, M.pure] at h

theorem Composed_stall {α : Type} : Composed (M.stall : M α) := by
  intro t e h
  simp [M.stall] at h

theorem Composed_native (N : Native) (c : Call) : Composed (native N c) := by
  intro t e h
  simp [native] at h

theorem Composed_throw {α : Type} (u s : String) :
    Composed (M.throw (SDL2Exception.ofUser u s) : M α) := by
  intro t e h
  simp only [M.throw, Outcome.throw.injEq] at h
  exact ⟨u, s, h.symm⟩

theorem Composed_bind {α β : Type} (m : M α) (f : α → M β) (hm : Composed m)
    (hf : ∀ a, Composed (f a)) : Composed (m >>= f) := by
  intro t e h
  cases hmt : m t with
  | mk o t1 =>
    cases o with
    | ok a =>
      simp only [bind, M.bind, hmt] at h
      exact hf a t1 e h
    | throw e1 =>
      simp only [bind, M.bind, hmt, Outcome.throw.injEq] at h
      subst h
      exact hm t e1 (by rw [hmt])
    | running => simp [bind, M.bind, hmt] at h

theorem Composed_withObject {α β : Type} (ctor : M α) (dtor : α → M Unit) (body : α → M β)
    (hc : Composed ctor) (hb : ∀ a, Composed (body a)) :
    Composed (withObject ctor dtor body) := by
  intro t e h
  cases hct : ctor t with
  | mk o t1 =>
    cases o with
    | ok a =>
      cases hbt : body a t1 with
      | mk o2 t2 =>
        cases o2 with
        | ok b => simp [withObject, hct, hbt] at h
        | throw e2 =>
          simp only [withObject, hct, hbt, Outcome.throw.injEq] at h
          subst h
          exact hb a t1 e2 (by rw [hbt])
        | running => simp [withObject, hct, hbt] at h
    | throw e1 =>
      simp only [withObject, hct, Outcome.throw.injEq] at h
      subst h
      exact hc t e1 (by rw [hct])
    | running => simp [withObject, hct] at h

theorem Composed_ctorBody {α : Type} (body : M α) (unwind : M Unit) (hb : Composed body) :
    Composed (ctorBody body unwind) := by
  intro t e h
  cases hbt : body t with
  | mk o t1 =>
    cases o with
    | ok a => simp [ctorBody, hbt] at h
    | throw e1 =>
      simp only [ctorBody, hbt, Outcome.throw.injEq] at h
      subst h
      exact hb t e1 (by rw [hbt])
    | running => simp [ctorBody, hbt] at h

theorem Composed_fallible {α : Type} (N : Native) (c g : Call) (p : Reply → Prop)
    [DecidablePred p] (u : String) (f : Reply → α) :
    Composed (do
      let r ← native N c
      if p r then
        let e ← native N g
        M.throw (SDL2Exception.ofUser u e.str)
      else
        pure (f r)) := by
  refine Composed_bind _ _ (Composed_native N c) (fun r => ?_)
  split_ifs
  · exact Composed_bind _ _ (Composed_native N g) (fun e => Composed_throw _ _)
  · exact Composed_pure _

theorem Composed_render_bmp_with_viewport (N : Native) (renderer : Renderer)
    (texture : Texture) : Composed (render_bmp_with_viewport N renderer texture) := by
  unfold render_bmp_with_viewport
  refine Composed_bind _ _ ?_ (fun _ => Composed_bind _ _ ?_ (fun _ => Composed_bind _ _ ?_
    (fun out => Composed_bind _ _ ?_ (fun _ => Composed_bind _ _ ?_ (fun _ => ?_)))))
  · exact Composed_fallible N _ _ (fun r => r.ret < 0) _ (fun _ => ())
  · exact Composed_fallible N _ _ (fun r => r.ret < 0) _ (fun _ => ())
  · exact Composed_fallible N _ _ (fun r => r.ret < 0) _ (fun r => r.out)
  · exact Composed_fallible N _ _ (fun r => r.ret < 0) _ (fun _ => ())
  · exact Composed_fallible N _ _ (fun r => r.ret < 0) _ (fun _ => ())
  · exact Composed_bind _ _ (Composed_native N _) (fun _ => Composed_pure _)

theorem Composed_poll_events (N : Native) (K : Headers) (fuel : Nat) :
    Composed (poll_events N K fuel) := by
  induction fuel with
  | zero => exact Composed_stall
  | succ fuel ih =>
    unfold poll_events
    refine Composed_bind _ _ (Composed_native N _) (fun r => ?_)
    split_ifs
    · exact Composed_pure _
    · exact ih
    · exact Composed_pure _

theorem Composed_sleep_remainder (N : Native) (begin_ : Nat) :
    Composed (sleep_remainder N begin_) := by
  unfold sleep_remainder
  refine Composed_bind _ _ (Composed_native N _) (fun c => ?_)
  dsimp only
  split_ifs
  · exact Composed_bind _ _ (Composed_native N _) (fun _ => Composed_pure _)
  · exact Composed_pure _

theorem Composed_frames (N : Native) (K : Headers) (renderer : Renderer)
    (bmpTexture : Texture) (pollFuel fuel : Nat) :
    Composed (frames N K renderer bmpTexture pollFuel fuel) := by
  induction fuel with
  | zero => exact Composed_stall
  | succ fuel ih =>
    rw [frames_succ]
    refine Composed_bind _ _ (Composed_native N _) (fun b => ?_)
    refine Composed_bind _ _ (Composed_poll_events N K pollFuel) (fun quit => ?_)
    split_ifs
    · exact Composed_pure _
    · exact Composed_bind _ _ (Composed_render_bmp_with_viewport N renderer bmpTexture)
        (fun _ => Composed_bind _ _ (Composed_sleep_remainder N _) (fun _ => ih))

theorem Composed_event_loop (N : Native) (K : Headers) (fuel : Nat) (renderer : Renderer) :
    Composed (event_loop N K fuel renderer) := by
  unfold event_loop
  refine Composed_withObject _ _ _ ?_ (fun bmp => Composed_withObject _ _ _ ?_
    (fun tex => Composed_frames N K renderer tex fuel fuel))
  · unfold Bmp.ctor
    exact Composed_ctorBody _ _ (Composed_fallible N _ _ (fun r => r.ret = 0) _
      (fun r => ({ surface := Surface.default.set r.ret } : Bmp)))
  · unfold sdl_create_texture_from_surface
    exact Composed_fallible N _ _ (fun r => r.ret = 0) _ (fun r => Texture.ofPtr r.ret)

theorem Composed_mainBody (N : Native) (K : Headers) (fuel : Nat) :
    Composed (mainBody N K fuel) := by
  unfold mainBody
  refine Composed_withObject _ _ _ ?_ (fun _ => Composed_withObject _ _ _ ?_ (fun _ =>
    Composed_withObject _ _ _ ?_ (fun _ => Composed_withObject _ _ _ ?_ (fun window =>
    Composed_withObject _ _ _ ?_ (fun renderer => Composed_withObject _ _ _ ?_ (fun _ =>
    Composed_bind _ _ ?_ (fun ops => Composed_withObject _ _ _ ?_ (fun chunk =>
    Composed_bind _ _ ?_ (fun _ => Composed_event_loop N K fuel renderer)))))))))
  · unfold SDL2Env.ctor
    exact Composed_fallible N _ _ (fun r => r.ret < 0) _ (fun _ => ({} : SDL2Env))
  · unfold SDL2TTF.ctor
    exact Composed_fallible N _ _ (fun r => r.ret < 0) _ (fun _ => ({} : SDL2TTF))
  · exact Composed_pure _
  · unfold Window.ctor
    exact Composed_fallible N _ _ (fun r => r.ret = 0) _ (fun r => ({ window := r.ret } : Window))
  · unfold Renderer.ctor
    exact Composed_fallible N _ _ (fun r => r.ret = 0) _
      (fun r => ({ renderer := r.ret } : Renderer))
  · unfold MixOpenAudio.ctor
    exact Composed_fallible N _ _ (fun r => r.ret < 0) _ (fun _ => ({} : MixOpenAudio))
  · unfold sdl_rw_from_file
    exact Composed_fallible N _ _ (fun r => r.ret = 0) _ (fun r => r.ret)
  · unfold mix_load_wav_rw
    exact Composed_fallible N _ _ (fun r => r.ret = 0) _ (fun r => MixChunk.ofPtr r.ret)
  · unfold mix_play_channel
    exact Composed_fallible N _ _ (fun r => r.ret < 0) _ (fun _ => ())

/-- C12: `main` never ends by an exception and never returns anything but 0:
its outcome is the exit status 0, or it is still running, which happens only
while its `try` block is still running.  When the `try` block returns, `main`
returns 0 and makes no further call.  When the `try` block throws, the
exception is composed from a user message and an underlying error string,
`main` writes its `what()` and then a newline to the error stream, makes no
other call, and returns 0. -/
theorem C12_main_returns_zero (N : Native) (K : Headers) (fuel : Nat) (t : List Ev) :
    ((main N K fuel t).1 = Outcome.ok 0 ∨ (main N K fuel t).1 = Outcome.running) ∧
    ((main N K fuel t).1 = Outcome.running ↔ (mainBody N K fuel t).1 = Outcome.running) ∧
    ((mainBody N K fuel t).1 = Outcome.ok () →
      (main N K fuel t).1 = Outcome.ok 0 ∧
      traceOf (main N K fuel) t = traceOf (mainBody N K fuel) t) ∧
    (∀ e, (mainBody N K fuel t).1 = Outcome.throw e →
      (main N K fuel t).1 = Outcome.ok 0 ∧
      (∃ u s, e = SDL2Exception.ofUser u s ∧ e.what = u ++ ", errMsg: " ++ s) ∧
      newCalls (main N K fuel) t =
        newCalls (mainBody N K fuel) t ++ [Call.cerr e.what, Call.cerr "\n"]) := by
  cases hb : mainBody N K fuel t with
  | mk o t1 =>
    cases o with
    | ok a =>
      refine ⟨Or.inl ?_, ?_, ?_, ?_⟩
      · simp [main, tryCatch, bind, M.bind, pure, M.pure, hb]
      · simp [main, tryCatch, bind, M.bind, pure, M.pure, hb]
      · intro _
        simp [main, tryCatch, bind, M.bind, pure, M.pure, hb, traceOf]
      · intro e h
        simp at h
    | throw e1 =>
      refine ⟨Or.inl ?_, ?_, ?_, ?_⟩
      · simp [main, tryCatch, bind, M.bind, pure, M.pure, hb, native]
      · simp [main, tryCatch, bind, M.bind, pure, M.pure, hb, native]
      · intro h
        simp at h
      · intro e h
        simp only [Outcome.throw.injEq] at h
        subst h
        obtain ⟨u, s, hus⟩ := Composed_mainBody N K fuel t e1 (by rw [hb])
        refine ⟨by simp [main, tryCatch, bind, M.bind, pure, M.pure, hb, native],
          ⟨u, s, hus, by
            rw [hus]
            simp [SDL2Exception.ofUser, SDL2Exception.what]⟩, ?_⟩
        obtain ⟨seg, hseg, -⟩ := Nested_mainBody N K fuel t
        rw [hb] at hseg
        simp only at hseg
        subst hseg
        simp only [newCalls, traceOf, main, tryCatch, bind, M.bind, pure, M.pure, hb, native,
          callsOf, List.append_assoc, List.drop_left, List.map_append, List.map_cons,
          List.map_nil]
        rfl
    | running =>
      refine ⟨Or.inr ?_, ?_, ?_, ?_⟩
      · simp [main, tryCatch, bind, M.bind, pure, M.pure, hb]
      · simp [main, tryCatch, bind, M.bind, pure, M.pure, hb]
      · intro h
        simp at h
      · intro e h
        simp at h

end usages

/-! ## Theorems: a script that ends in a quit event -/

namespace usages
open sdl2

theorem pollsIn_append (s t : List Ev) : pollsIn (s ++ t) = pollsIn s + pollsIn t := by
  simp [pollsIn]

theorem pollsIn_single (e : Ev) : pollsIn [e] = if isPoll e.call = true then 1 else 0 := by
  simp only [pollsIn, List.filter_cons, List.filter_nil]
  split_ifs <;> rfl

theorem Passes_pure {α : Type} (a : α) : Passes (pure a : M α) :=
  fun t => ⟨a, [], by simp [pure, M.pure], rfl⟩

theorem Passes_native (N : Native) (c : Call) (hc : isPoll c = false) : Passes (native N c) :=
  fun t => ⟨N t c, [{ call := c, reply := N t c }], by simp [native], by
    simp [pollsIn_single, hc]⟩

theorem Passes_bind {α β : Type} (m : M α) (f : α → M β) (hm : Passes m)
    (hf : ∀ a, Passes (f a)) : Passes (m >>= f) := by
  intro t
  obtain ⟨a, s1, h1, hp1⟩ := hm t
  obtain ⟨b, s2, h2, hp2⟩ := hf a (t ++ s1)
  exact ⟨b, s1 ++ s2, by simp [bind, M.bind, h1, h2], by simp [pollsIn_append, hp1, hp2]⟩

theorem Passes_fallible {α : Type} (N : Native) (c g : Call) (p : Reply → Prop)
    [DecidablePred p] (u : String) (f : Reply → α) (hc : isPoll c = false)
    (hS : Succeeds N) (hf : ∀ r, failed c r = false → ¬ p r) :
    Passes (do
      let r ← native N c
      if p r then
        let e ← native N g
        M.throw (SDL2Exception.ofUser u e.str)
      else
        pure (f r)) :=
  fun t => ⟨f (N t c), [{ call := c, reply := N t c }], by
    simp [bind, M.bind, native, pure, M.pure, hf _ (hS t c)], by simp [pollsIn_single, hc]⟩

theorem Opens_fallible {α : Type} (N : Native) (c g : Call) (p : Reply → Prop)
    [DecidablePred p] (u : String) (f : Reply → α) (G : α → List Call → Prop)
    (hc : isPoll c = false) (hS : Succeeds N) (hf : ∀ r, failed c r = false → ¬ p r)
    (hG : ∀ r, ¬ p r → G (f r) (owes { call := c, reply := r })) :
    Opens (do
      let r ← native N c
      if p r then
        let e ← native N g
        M.throw (SDL2Exception.ofUser u e.str)
      else
        pure (f r)) G :=
  fun t => ⟨f (N t c), [{ call := c, reply := N t c }], by
    simp [bind, M.bind, native, pure, M.pure, hf _ (hS t c)], by simp [pollsIn_single, hc], by
    simpa [acquired] using hG _ (hf _ (hS t c))⟩

theorem Passes_render_bmp_with_viewport (N : Native) (hS : Succeeds N) (renderer : Renderer)
    (texture : Texture) : Passes (render_bmp_with_viewport N renderer texture) := by
  unfold render_bmp_with_viewport
  refine Passes_bind _ _ ?_ (fun _ => Passes_bind _ _ ?_ (fun _ => Passes_bind _ _ ?_
    (fun out => Passes_bind _ _ ?_ (fun _ => Passes_bind _ _ ?_ (fun _ => ?_)))))
  · exact Passes_fallible N _ _ (fun r => r.ret < 0) _ (fun _ => ()) (by rfl) hS
      (fun r h => by simpa [failed] using h)
  · exact Passes_fallible N _ _ (fun r => r.ret < 0) _ (fun _ => ()) (by rfl) hS
      (fun r h => by simpa [failed] using h)
  · exact Passes_fallible N _ _ (fun r => r.ret < 0) _ (fun r => r.out) (by rfl) hS
      (fun r h => by simpa [failed] using h)
  · exact Passes_fallible N _ _ (fun r => r.ret < 0) _ (fun _ => ()) (by rfl) hS
      (fun r h => by simpa [failed] using h)
  · exact Passes_fallible N _ _ (fun r => r.ret < 0) _ (fun _ => ()) (by rfl) hS
      (fun r h => by simpa [failed] using h)
  · exact Passes_bind _ _ (Passes_native N _ (by rfl)) (fun _ => Passes_pure _)

theorem Passes_sleep_remainder (N : Native) (begin_ : Nat) :
    Passes (sleep_remainder N begin_) := by
  unfold sleep_remainder
  refine Passes_bind _ _ (Passes_native N _ (by rfl)) (fun c => ?_)
  dsimp only
  split_ifs
  · exact Passes_bind _ _ (Passes_native N _ (by rfl)) (fun _ => Passes_pure _)
  · exact Passes_pure _

theorem getLast?_tail_of_ne {α : Type} (a b : α) (l : List α)
    (h : (a :: l).getLast? = some b) (hab : a ≠ b) : l.getLast? = some b ∧ l ≠ [] := by
  cases l with
  | nil =>
    simp only [List.getLast?_singleton, Option.some.injEq] at h
    exact absurd h hab
  | cons c l => exact ⟨by simpa [List.getLast?_cons_cons] using h, by simp⟩

theorem drop_cons_facts {α : Type} (l : List α) (k : Nat) (a : α) (tl : List α)
    (h : l.drop k = a :: tl) : l[k]? = some a ∧ l.drop (k + 1) = tl := by
  constructor
  · have := List.getElem?_drop (L := l) (i := k) (j := 0)
    rw [h] at this
    simpa using this.symm
  · rw [← List.tail_drop, h]
    rfl

theorem poll_events_plays (N : Native) (K : Headers) (script : List (Option Nat))
    (hP : Plays N script) (fuel : Nat) (rest : List (Option Nat)) (t : List Ev)
    (hd : script.drop (pollsIn t) = rest)
    (hq : rest.getLast? = some (some K.SDL_QUIT)) (hf : rest.length ≤ fuel) :
    ∃ seg, poll_events N K fuel t = (Outcome.ok true, t ++ seg) ∨
      (poll_events N K fuel t = (Outcome.ok false, t ++ seg) ∧
        (script.drop (pollsIn (t ++ seg))).getLast? = some (some K.SDL_QUIT) ∧
        (script.drop (pollsIn (t ++ seg))).length < rest.length) := by
  induction fuel generalizing rest t with
  | zero =>
    have : rest = [] := List.length_eq_zero.mp (Nat.le_zero.mp hf)
    subst this
    simp at hq
  | succ fuel ih =>
    cases rest with
    | nil => simp at hq
    | cons a tl =>
      obtain ⟨hget, hdrop⟩ := drop_cons_facts script (pollsIn t) a tl hd
      have hplay := hP t
      rw [hget] at hplay
      have hpolls : pollsIn (t ++ [Ev.mk Call.SDL_PollEvent (N t Call.SDL_PollEvent)]) = pollsIn t + 1 := by
        simp [pollsIn_append, pollsIn_single, isPoll]
      cases a with
      | none =>
        simp only at hplay
        obtain ⟨htl, -⟩ := getLast?_tail_of_ne none (some K.SDL_QUIT) tl hq (by simp)
        refine ⟨[Ev.mk Call.SDL_PollEvent (N t Call.SDL_PollEvent)],
          Or.inr ⟨?_, ?_, ?_⟩⟩
        · simp [poll_events, bind, M.bind, native, pure, M.pure, hplay]
        · rw [hpolls, hdrop]
          exact htl
        · rw [hpolls, hdrop]
          simp
      | some ty =>
        simp only at hplay
        obtain ⟨hret, hty⟩ := hplay
        have hty' : u32 ((N t Call.SDL_PollEvent).out[0]?.getD 0) = ty := by simpa using hty
        by_cases hquit : ty = K.SDL_QUIT
        · refine ⟨[Ev.mk Call.SDL_PollEvent (N t Call.SDL_PollEvent)],
            Or.inl ?_⟩
          simp [poll_events, bind, M.bind, native, pure, M.pure, hret, hty', ← hquit]
        · obtain ⟨htl, -⟩ := getLast?_tail_of_ne (some ty) (some K.SDL_QUIT) tl hq
            (by simpa using hquit)
          have hstep : poll_events N K (fuel + 1) t =
              poll_events N K fuel (t ++ [Ev.mk Call.SDL_PollEvent (N t Call.SDL_PollEvent)]) := by
            simp [poll_events, bind, M.bind, native, hret, hty', hquit]
          obtain ⟨seg, h⟩ := ih tl _ (by rw [hpolls, hdrop]) htl (by
            simp only [List.length_cons] at hf
            omega)
          refine ⟨Ev.mk Call.SDL_PollEvent (N t Call.SDL_PollEvent) :: seg, ?_⟩
          rw [hstep]
          rcases h with h | ⟨h1, h2, h3⟩
          · exact Or.inl (by simpa using h)
          · refine Or.inr ⟨by simpa using h1, by simpa using h2, ?_⟩
            have : (script.drop (pollsIn (t ++ Ev.mk Call.SDL_PollEvent (N t Call.SDL_PollEvent) :: seg))).length < tl.length := by
              simpa using h3
            simp only [List.length_cons]
            omega

theorem frames_plays (N : Native) (K : Headers) (hS : Succeeds N)
    (script : List (Option Nat)) (hP : Plays N script) (renderer : Renderer)
    (bmpTexture : Texture) (pollFuel fuel : Nat) (rest : List (Option Nat)) (t : List Ev)
    (hd : script.drop (pollsIn t) = rest)
    (hq : rest.getLast? = some (some K.SDL_QUIT)) (hf : rest.length ≤ fuel)
    (hpf : rest.length ≤ pollFuel) :
    ∃ seg, frames N K renderer bmpTexture pollFuel fuel t = (Outcome.ok (), t ++ seg) := by
  induction fuel generalizing rest t with
  | zero =>
    have : rest = [] := List.length_eq_zero.mp (Nat.le_zero.mp hf)
    subst this
    simp at hq
  | succ fuel ih =>
    rw [frames_succ]
    obtain ⟨b, s0, h0, hp0⟩ := Passes_native N Call.SDL_GetTicks (by rfl) t
    have hpolls : pollsIn (t ++ s0) = pollsIn t := by
      simp only [pollsIn_append, hp0, Nat.add_zero]
    obtain ⟨s1, h⟩ := poll_events_plays N K script hP pollFuel rest (t ++ s0)
      (by rw [hpolls, hd]) hq hpf
    rcases h with h | ⟨h1, h2, h3⟩
    · exact ⟨s0 ++ s1, by simp [bind, M.bind, pure, M.pure, h0, h]⟩
    · obtain ⟨_, s2, hr, hp2⟩ := Passes_render_bmp_with_viewport N hS renderer bmpTexture
        (t ++ s0 ++ s1)
      obtain ⟨_, s3, hs, hp3⟩ := Passes_sleep_remainder N (u32 b.ret) (t ++ s0 ++ s1 ++ s2)
      have hpolls2 : pollsIn (t ++ s0 ++ s1 ++ s2 ++ s3) = pollsIn (t ++ s0 ++ s1) := by
        simp only [pollsIn_append, hp2, hp3, Nat.add_zero]
      obtain ⟨s4, h4⟩ := ih _ (t ++ s0 ++ s1 ++ s2 ++ s3) rfl (by rw [hpolls2]; exact h2)
        (by rw [hpolls2]; omega) (by rw [hpolls2]; omega)
      refine ⟨s0 ++ s1 ++ s2 ++ s3 ++ s4, ?_⟩
      simp only [List.append_assoc] at h1 hr hs h4 ⊢
      simp [bind, M.bind, pure, M.pure, h0, h1, hr, hs, h4]

theorem Passes_of_Opens {α : Type} (m : M α) (G : α → List Call → Prop) (h : Opens m G) :
    Passes m := fun t => by
  obtain ⟨a, seg, h1, h2, -⟩ := h t
  exact ⟨a, seg, h1, h2⟩

theorem Opens_pure {α : Type} (a : α) : Opens (pure a : M α) (fun _ l => l = []) :=
  fun t => ⟨a, [], by simp [pure, M.pure], rfl, rfl⟩

theorem Opens_ctorBody {α : Type} (body : M α) (unwind : M Unit) (G : α → List Call → Prop)
    (hb : Opens body G) : Opens (ctorBody body unwind) G := fun t => by
  obtain ⟨a, seg, h1, h2, h3⟩ := hb t
  exact ⟨a, seg, by simp [ctorBody, h1], h2, h3⟩

theorem Runs_mono {α : Type} (m : M α) (P Q : List Call → Prop) (hm : Runs m P)
    (h : ∀ l, P l → Q l) : Runs m Q := fun t ht => by
  obtain ⟨b, seg, h1, h2⟩ := hm t ht
  exact ⟨b, seg, h1, h _ h2⟩

theorem Runs_withObject {α β : Type} (ctor : M α) (dtor : α → M Unit) (body : α → M β)
    (G : α → List Call → Prop) (P : List Call → Prop) (hc : Opens ctor G)
    (hd : ∀ a l, G a l → ∃ l1, Releases (dtor a) l1) (hb : ∀ a, Runs (body a) P) :
    Runs (withObject ctor dtor body) (fun l => ∃ a l1 l2, G a l1 ∧ P l2 ∧ l = l1 ++ l2) := by
  intro t ht
  obtain ⟨a, s1, h1, hp1, hG⟩ := hc t
  obtain ⟨b, s2, h2, hP⟩ := hb a (t ++ s1) (by simp only [pollsIn_append, ht, hp1])
  obtain ⟨l1, hr⟩ := hd a _ hG
  obtain ⟨s3, h3, ha3, -⟩ := hr (t ++ s1 ++ s2)
  refine ⟨b, s1 ++ s2 ++ s3, ?_, a, _, _, hG, hP, by simp [acquired_append, ha3]⟩
  simp only [List.append_assoc] at h2 h3 ⊢
  simp [withObject, h1, h2, h3]

theorem Runs_bind {α β : Type} (m : M α) (f : α → M β) (P : List Call → Prop)
    (hm : Opens m (fun _ l => l = [])) (hf : ∀ a, Runs (f a) P) : Runs (m >>= f) P := by
  intro t ht
  obtain ⟨a, s1, h1, hp1, hG⟩ := hm t
  obtain ⟨b, s2, h2, hP⟩ := hf a (t ++ s1) (by simp only [pollsIn_append, ht, hp1])
  refine ⟨b, s1 ++ s2, ?_, by simpa [acquired_append, hG] using hP⟩
  simp only [List.append_assoc] at h2 ⊢
  simp [bind, M.bind, h1, h2]

theorem Opens_SDL2Env (N : Native) (hS : Succeeds N) (flags : Nat) :
    Opens (SDL2Env.ctor N flags) (fun _ l => l = [Call.SDL_Quit]) := by
  unfold SDL2Env.ctor
  refine Opens_fallible N (Call.SDL_Init flags) Call.SDL_GetError (fun r => r.ret < 0) _
    (fun _ => ({} : SDL2Env)) _ (by rfl) hS (fun r h => by simpa [failed] using h) ?_
  intro r h
  simp [owes, h]

theorem Opens_SDL2TTF (N : Native) (hS : Succeeds N) :
    Opens (SDL2TTF.ctor N) (fun _ l => l = [Call.TTF_Quit, Call.Mix_Quit]) := by
  unfold SDL2TTF.ctor
  refine Opens_fallible N Call.TTF_Init Call.TTF_GetError (fun r => r.ret < 0) _
    (fun _ => ({} : SDL2TTF)) _ (by rfl) hS (fun r h => by simpa [failed] using h) ?_
  intro r h
  simp [owes, h]

theorem Opens_Window (N : Native) (hS : Succeeds N) (title : String) (x y w h : Int)
    (flags : Nat) :
    Opens (Window.ctor N title x y w h flags)
      (fun a l => a.window ≠ 0 ∧ l = [Call.SDL_DestroyWindow a.window]) := by
  unfold Window.ctor
  refine Opens_fallible N (Call.SDL_CreateWindow title x y w h flags) Call.SDL_GetError
    (fun r => r.ret = 0) _ (fun r => ({ window := r.ret } : Window)) _ (by rfl) hS
    (fun r h => by simpa [failed] using h) ?_
  intro r h
  simp [owes, h]

theorem Opens_Renderer (N : Native) (hS : Succeeds N) (window : Window) (index : Int)
    (flags : Nat) :
    Opens (Renderer.ctor N window index flags)
      (fun a l => a.renderer ≠ 0 ∧ l = [Call.SDL_DestroyRenderer a.renderer]) := by
  unfold Renderer.ctor
  refine Opens_fallible N (Call.SDL_CreateRenderer window.get index flags) Call.SDL_GetError
    (fun r => r.ret = 0) _ (fun r => ({ renderer := r.ret } : Renderer)) _ (by rfl) hS
    (fun r h => by simpa [failed] using h) ?_
  intro r h
  simp [owes, h]

theorem Opens_MixOpenAudio (N : Native) (hS : Succeeds N) (frequency : Int) (format : Nat)
    (channels chunksize : Int) :
    Opens (MixOpenAudio.ctor N frequency format channels chunksize)
      (fun _ l => l = [Call.Mix_CloseAudio]) := by
  unfold MixOpenAudio.ctor
  refine Opens_fallible N (Call.Mix_OpenAudio frequency format channels chunksize)
    Call.Mix_GetError (fun r => r.ret < 0) _ (fun _ => ({} : MixOpenAudio)) _ (by rfl) hS
    (fun r h => by simpa [failed] using h) ?_
  intro r h
  simp [owes, h]

theorem Opens_sdl_rw_from_file (N : Native) (hS : Succeeds N) (file mode : String) :
    Opens (sdl_rw_from_file N file mode) (fun _ l => l = []) := by
  unfold sdl_rw_from_file
  refine Opens_fallible N (Call.SDL_RWFromFile file mode) Call.SDL_GetError
    (fun r => r.ret = 0) _ (fun r => r.ret) _ (by rfl) hS
    (fun r h => by simpa [failed] using h) ?_
  intro r _
  rfl

theorem Opens_mix_load_wav_rw (N : Native) (hS : Succeeds N) (src freeSrc : Int) :
    Opens (mix_load_wav_rw N src freeSrc)
      (fun a l => a.chunk ≠ 0 ∧ l = [Call.Mix_FreeChunk a.chunk]) := by
  unfold mix_load_wav_rw
  refine Opens_fallible N (Call.Mix_LoadWAV_RW src freeSrc) Call.Mix_GetError
    (fun r => r.ret = 0) _ (fun r => MixChunk.ofPtr r.ret) _ (by rfl) hS
    (fun r h => by simpa [failed] using h) ?_
  intro r h
  simp [owes, h, MixChunk.ofPtr]

theorem Opens_mix_play_channel (N : Native) (hS : Succeeds N) (channel : Int)
    (chunk : MixChunk) (loops : Int) :
    Opens (mix_play_channel N channel chunk loops) (fun _ l => l = []) := by
  unfold mix_play_channel
  refine Opens_fallible N (Call.Mix_PlayChannel channel chunk.get loops) Call.Mix_GetError
    (fun r => r.ret < 0) _ (fun _ => ()) _ (by rfl) hS
    (fun r h => by simpa [failed] using h) ?_
  intro r _
  rfl

theorem Opens_Bmp (N : Native) (hS : Succeeds N) (file : String) :
    Opens (Bmp.ctor N file)
      (fun a l => a.surface.surface ≠ 0 ∧ l = [Call.SDL_FreeSurface a.surface.surface]) := by
  unfold Bmp.ctor
  refine Opens_ctorBody _ _ _ ?_
  refine Opens_fallible N (Call.SDL_LoadBMP file) Call.SDL_GetError (fun r => r.ret = 0) _
    (fun r => ({ surface := Surface.default.set r.ret } : Bmp)) _ (by rfl) hS
    (fun r h => by simpa [failed] using h) ?_
  intro r h
  simp [owes, h, Surface.set]

theorem Opens_texture (N : Native) (hS : Succeeds N) (renderer : Renderer) (surface : Int) :
    Opens (sdl_create_texture_from_surface N renderer surface)
      (fun a l => a.texture ≠ 0 ∧ l = [Call.SDL_DestroyTexture a.texture]) := by
  unfold sdl_create_texture_from_surface
  refine Opens_fallible N (Call.SDL_CreateTextureFromSurface renderer.get surface)
    Call.SDL_GetError (fun r => r.ret = 0) _ (fun r => Texture.ofPtr r.ret) _ (by rfl) hS
    (fun r h => by simpa [failed] using h) ?_
  intro r h
  simp [owes, h, Texture.ofPtr]

theorem Runs_frames (N : Native) (K : Headers) (hS : Succeeds N)
    (script : List (Option Nat)) (hP : Plays N script)
    (hq : script.getLast? = some (some K.SDL_QUIT)) (renderer : Renderer)
    (bmpTexture : Texture) (pollFuel fuel : Nat) (hf : script.length ≤ fuel)
    (hpf : script.length ≤ pollFuel) :
    Runs (frames N K renderer bmpTexture pollFuel fuel) (fun l => l = []) := by
  intro t ht
  obtain ⟨seg, h⟩ := frames_plays N K hS script hP renderer bmpTexture pollFuel fuel script t
    (by rw [ht]; rfl) hq hf hpf
  obtain ⟨seg1, h1, h2, -⟩ := Quiet_frames N K renderer bmpTexture pollFuel fuel t
  rw [h] at h1
  have e : seg = seg1 := List.append_cancel_left h1
  exact ⟨(), seg, h, by rw [e]; exact h2⟩

theorem Runs_event_loop (N : Native) (K : Headers) (hS : Succeeds N)
    (script : List (Option Nat)) (hP : Plays N script)
    (hq : script.getLast? = some (some K.SDL_QUIT)) (fuel : Nat) (hf : script.length ≤ fuel)
    (renderer : Renderer) :
    Runs (event_loop N K fuel renderer) (Complete 7) := by
  unfold event_loop
  refine Runs_mono _ _ _
    (Runs_withObject _ _ _ _ (Complete 8) (Opens_Bmp N hS _)
      (fun a l h => ⟨_, Releases_Bmp N a h.1⟩) (fun bmp => ?_)) ?_
  · refine Runs_mono _ _ _
      (Runs_withObject _ _ _ _ (fun l => l = []) (Opens_texture N hS _ _)
        (fun a l h => ⟨_, Releases_Texture N a h.1⟩)
        (fun tex => Runs_frames N K hS script hP hq renderer tex fuel fuel hf hf)) ?_
    rintro l ⟨a, l1, l2, ⟨ha, rfl⟩, rfl, rfl⟩
    exact ⟨1, 1, 1, 1, a.texture, by decide, by decide, by decide, by decide, ha, rfl⟩
  · rintro l ⟨a, l1, l2, ⟨ha, rfl⟩, ⟨w, r, c, s, x, hw, hr, hc, -, hx, rfl⟩, rfl⟩
    exact ⟨w, r, c, a.surface.surface, x, hw, hr, hc, ha, hx, rfl⟩

theorem Runs_mainBody (N : Native) (K : Headers) (hS : Succeeds N)
    (script : List (Option Nat)) (hP : Plays N script)
    (hq : script.getLast? = some (some K.SDL_QUIT)) (fuel : Nat) (hf : script.length ≤ fuel) :
    Runs (mainBody N K fuel) (Complete 0) := by
  unfold mainBody
  refine Runs_mono _ _ _
    (Runs_withObject _ _ _ _ (Complete 1) (Opens_SDL2Env N hS _)
      (fun a l _ => ⟨_, Releases_SDL2Env N a⟩) (fun _ => ?_)) ?_
  · refine Runs_mono _ _ _
      (Runs_withObject _ _ _ _ (Complete 3) (Opens_SDL2TTF N hS)
        (fun a l _ => ⟨_, Releases_native N Call.TTF_Quit rfl (fun _ => rfl)⟩) (fun _ => ?_)) ?_
    · refine Runs_mono _ _ _
        (Runs_withObject _ _ _ _ (Complete 3) (Opens_pure _)
          (fun a l _ => ⟨_, Releases_native N Call.Mix_Quit rfl (fun _ => rfl)⟩)
          (fun _ => ?_)) ?_
      · refine Runs_mono _ _ _
          (Runs_withObject _ _ _ _ (Complete 4) (Opens_Window N hS _ _ _ _ _ _)
            (fun a l h => ⟨_, Releases_Window N a h.1⟩) (fun window => ?_)) ?_
        · refine Runs_mono _ _ _
            (Runs_withObject _ _ _ _ (Complete 5) (Opens_Renderer N hS _ _ _)
              (fun a l h => ⟨_, Releases_Renderer N a h.1⟩) (fun renderer => ?_)) ?_
          · refine Runs_mono _ _ _
              (Runs_withObject _ _ _ _ (Complete 6) (Opens_MixOpenAudio N hS _ _ _ _)
                (fun a l _ => ⟨_, Releases_MixOpenAudio N a⟩) (fun _ => ?_)) ?_
            · refine Runs_bind _ _ _ (Opens_sdl_rw_from_file N hS _ _) (fun ops => ?_)
              refine Runs_mono _ _ _
                (Runs_withObject _ _ _ _ (Complete 7) (Opens_mix_load_wav_rw N hS _ _)
                  (fun a l h => ⟨_, Releases_MixChunk N a h.1⟩) (fun chunk => ?_)) ?_
              · exact Runs_bind _ _ _ (Opens_mix_play_channel N hS _ _ _)
                  (fun _ => Runs_event_loop N K hS script hP hq fuel hf renderer)
              · rintro l ⟨a, l1, l2, ⟨ha, rfl⟩, ⟨w, r, c, s, x, hw, hr, -, hs, hx, rfl⟩, rfl⟩
                exact ⟨w, r, a.chunk, s, x, hw, hr, ha, hs, hx, rfl⟩
            · rintro l ⟨a, l1, l2, rfl, ⟨w, r, c, s, x, hw, hr, hc, hs, hx, rfl⟩, rfl⟩
              exact ⟨w, r, c, s, x, hw, hr, hc, hs, hx, rfl⟩
          · rintro l ⟨a, l1, l2, ⟨ha, rfl⟩, ⟨w, r, c, s, x, hw, -, hc, hs, hx, rfl⟩, rfl⟩
            exact ⟨w, a.renderer, c, s, x, hw, ha, hc, hs, hx, rfl⟩
        · rintro l ⟨a, l1, l2, ⟨ha, rfl⟩, ⟨w, r, c, s, x, -, hr, hc, hs, hx, rfl⟩, rfl⟩
          exact ⟨a.window, r, c, s, x, ha, hr, hc, hs, hx, rfl⟩
      · rintro l ⟨a, l1, l2, rfl, h, rfl⟩
        exact h
    · rintro l ⟨a, l1, l2, rfl, ⟨w, r, c, s, x, hw, hr, hc, hs, hx, rfl⟩, rfl⟩
      exact ⟨w, r, c, s, x, hw, hr, hc, hs, hx, rfl⟩
  · rintro l ⟨a, l1, l2, rfl, ⟨w, r, c, s, x, hw, hr, hc, hs, hx, rfl⟩, rfl⟩
    exact ⟨w, r, c, s, x, hw, hr, hc, hs, hx, rfl⟩

theorem Succeeds_scripted (script : List (Option Nat)) : Succeeds (Native.scripted script) := by
  intro t c
  cases c <;> simp [failed, Native.scripted]

theorem Plays_scripted (script : List (Option Nat))
    (h : ∀ o ∈ script, o.getD 0 < 4294967296) : Plays (Native.scripted script) script := by
  intro t
  cases hs : script[pollsIn t]? with
  | none => trivial
  | some o =>
    cases o with
    | none => simp [Native.scripted, hs]
    | some ty =>
      have hm : some ty ∈ script := List.getElem?_mem hs
      have hlt : ty < 4294967296 := h _ hm
      simp only [Native.scripted, hs, u32]
      refine ⟨by decide, ?_⟩
      simp only [List.getD_cons_zero]
      omega

theorem isTeardown_of_mem_constructionOrder (w r c s x : Int) (d : Call)
    (hd : d ∈ constructionOrder w r c s x) : isTeardown d = true := by
  simp only [constructionOrder, List.mem_cons, List.mem_singleton, List.not_mem_nil,
    or_false] at hd
  rcases hd with h | h | h | h | h | h | h | h | h <;> subst h <;> rfl

theorem constructionOrder_nodup (w r c s x : Int) : (constructionOrder w r c s x).Nodup := by
  simp [constructionOrder]

theorem main_of_mainBody_ok (N : Native) (K : Headers) (fuel : Nat) (t seg : List Ev)
    (h : mainBody N K fuel t = (Outcome.ok (), seg)) :
    main N K fuel t = (Outcome.ok 0, seg) := by
  simp [main, tryCatch, bind, M.bind, pure, M.pure, h]

/-- C11: on a native layer where every call succeeds and that plays a finite
script of poll results ending in a quit event (a sequence of input events,
with or without moments where the queue is empty), and with fuel for at least
as many iterations as the script is long, `event_loop` returns, `main` returns
0, the guards and handles `main` acquired are the whole construction order
(the three guards, the window, the renderer, the audio device, the chunk, the
bitmap surface and the texture, no handle null), its teardown is that list
reversed, and each of these nine release and shutdown calls occurs exactly
once among all the calls `main` made. -/
theorem C11_quit_terminates_and_releases_all (N : Native) (K : Headers)
    (script : List (Option Nat)) (fuel : Nat) (hS : Succeeds N) (hP : Plays N script)
    (hq : script.getLast? = some (some K.SDL_QUIT)) (hf : script.length ≤ fuel) :
    (∀ renderer t, pollsIn t = 0 →
      ∃ seg, event_loop N K fuel renderer t = (Outcome.ok (), t ++ seg)) ∧
    (main N K fuel []).1 = Outcome.ok 0 ∧
    ∃ w r c s x, w ≠ 0 ∧ r ≠ 0 ∧ c ≠ 0 ∧ s ≠ 0 ∧ x ≠ 0 ∧
      acquired (traceOf (main N K fuel) []) = constructionOrder w r c s x ∧
      teardown (traceOf (main N K fuel) []) = (constructionOrder w r c s x).reverse ∧
      ∀ d ∈ constructionOrder w r c s x,
        (callsOf (traceOf (main N K fuel) [])).count d = 1 := by
  refine ⟨fun renderer t ht => ?_, ?_⟩
  · obtain ⟨_, seg, h, -⟩ := Runs_event_loop N K hS script hP hq fuel hf renderer t ht
    exact ⟨seg, h⟩
  · obtain ⟨_, seg, h, w, r, c, s, x, hw, hr, hc, hs, hx, ha⟩ :=
      Runs_mainBody N K hS script hP hq fuel hf [] rfl
    simp only [List.nil_append, List.drop_zero] at h ha
    have hm := main_of_mainBody_ok N K fuel [] seg h
    obtain ⟨seg1, h1, h2⟩ := Nested_mainBody N K fuel []
    rw [h] at h1 h2
    simp only [List.nil_append] at h1
    subst h1
    have ht := (h2 (by simp)).1
    have e : traceOf (main N K fuel) [] = seg := by simp [traceOf, hm]
    rw [e, hm]
    refine ⟨rfl, w, r, c, s, x, hw, hr, hc, hs, hx, ha, by rw [ht, ha], fun d hd => ?_⟩
    have h3 : (teardown seg).count d = (callsOf seg).count d := by
      unfold teardown
      exact List.count_filter (isTeardown_of_mem_constructionOrder w r c s x d hd)
    rw [← h3, ht, ha, List.count_reverse]
    exact List.count_eq_one_of_mem (constructionOrder_nodup w r c s x) hd

/-- C11, an instance: the scripted native layer plays a key event, an empty
queue and then the quit event; with fuel 3 the loop returns and `main`
returns 0 with everything released once. -/
theorem C11_quit_terminates_and_releases_all_witness :
    [some 1024, none, some 256].getLast? = some (some Headers.sample.SDL_QUIT) ∧
    (main (Native.scripted [some 1024, none, some 256]) Headers.sample 3 []).1 =
      Outcome.ok 0 ∧
    ∃ w r c s x, w ≠ 0 ∧ r ≠ 0 ∧ c ≠ 0 ∧ s ≠ 0 ∧ x ≠ 0 ∧
      acquired (traceOf (main (Native.scripted [some 1024, none, some 256])
        Headers.sample 3) []) = constructionOrder w r c s x ∧
      teardown (traceOf (main (Native.scripted [some 1024, none, some 256])
        Headers.sample 3) []) = (constructionOrder w r c s x).reverse ∧
      ∀ d ∈ constructionOrder w r c s x,
        (callsOf (traceOf (main (Native.scripted [some 1024, none, some 256])
          Headers.sample 3) [])).count d = 1 :=
  ⟨by decide,
    (C11_quit_terminates_and_releases_all (Native.scripted [some 1024, none, some 256])
      Headers.sample [some 1024, none, some 256] 3 (Succeeds_scripted _)
      (Plays_scripted _ (by decide)) (by decide) (by decide)).2⟩

end usages
